import Mathlib

/-!
Crossplane provider for AWS: the controllers for RDSInstance,
ServiceLinkedRole, ConfigurationSet and EmailTemplate.

A shallow embedding of the controller functions of

* `pkg/controller/database/rdsinstance.go`
* `pkg/controller/iam/servicelinkedrole/zz_controller.go`
* `pkg/controller/sesv2/configurationset/setup.go`
* `pkg/controller/sesv2/emailtemplate/setup.go`

Go pointers are `Option`s, Go `error` values are `Option Err` (`none` is `nil`),
a Go slice is an `Option (List _)` where the difference between a nil and an
empty slice is observable and a `List _` where it is not.  A controller
function that talks to AWS or to the Kubernetes API server is a function of an
explicit client (the answers the remote side gives) and returns, next to its
Go results, the ordered list of the requests it sent.
-/

set_option linter.dupNamespace false

namespace ProviderAws

/-! ## Errors, pointers, run results -/

/-- A non-nil Go `error`: an error produced by a remote call or by `errors.New`,
or an error wrapped with a message by `errors.Wrap`. -/
inductive Err where
  | base (text : String)
  | wrap (cause : Err) (message : String)
  deriving DecidableEq, Repr

/-- The function `errors.New`. -/
def errorsNew (message : String) : Option Err := some (Err.base message)

/-- The function `errors.Wrap` of `github.com/pkg/errors`: nil stays nil, any
other error is annotated with the message. -/
def errorsWrap (err : Option Err) (message : String) : Option Err :=
  match err with
  | none => none
  | some e => some (Err.wrap e message)

/-- The error `outer` is `target` or wraps it, directly or through further
wrappers. -/
def Err.wraps : Err → Err → Bool
  | Err.base t, target => decide (Err.base t = target)
  | Err.wrap c m, target => decide (Err.wrap c m = target) || Err.wraps c target

/-- The function `resource.Ignore` of crossplane-runtime: nil when the
predicate holds of the error, the error itself otherwise. -/
def resourceIgnore (is : Option Err → Bool) (err : Option Err) : Option Err :=
  if is err then none else err

/-- Modelled from the spec: `awsclient.StringValue` of `pkg/clients`, which is
not among the sources; as `aws.StringValue` of the SDK it yields the string
pointed to, and the empty string for a nil pointer. -/
def stringValue (p : Option String) : String :=
  match p with
  | none => ""
  | some s => s

/-- Modelled from the spec: `awsclient.BoolValue` of `pkg/clients`, which is
not among the sources; as `aws.BoolValue` of the SDK it yields the boolean
pointed to, and false for a nil pointer. -/
def boolValue (p : Option Bool) : Bool :=
  match p with
  | none => false
  | some b => b

/-- Modelled from the spec: `awsclient.Wrap` of `pkg/clients`, which is not
among the sources; the spec describes the error handling of the controllers as
"wrap the SDK error and return it", so it is taken to wrap like
`errors.Wrap`. -/
def awsclientWrap (err : Option Err) (message : String) : Option Err :=
  errorsWrap err message

/-- How a Go call ends: it returns, or it stops with a run-time panic (a nil
pointer dereference or an index out of range). -/
inductive Outcome (α : Type) where
  | returned (value : α)
  | panicked
  deriving DecidableEq, Repr

/-- A run of a controller function: the requests it sent, in order, and how
it ended. -/
structure Run (ρ α : Type) where
  trace : List ρ
  outcome : Outcome α
  deriving DecidableEq, Repr

namespace Run

/-- A run that sends nothing and returns `a`. -/
def ret {ρ α : Type} (a : α) : Run ρ α := ⟨[], Outcome.returned a⟩

/-- A run that panics at once. -/
def crash {ρ α : Type} : Run ρ α := ⟨[], Outcome.panicked⟩

/-- A run that sends the request `r` and returns the answer `a`. -/
def call {ρ α : Type} (r : ρ) (a : α) : Run ρ α := ⟨[r], Outcome.returned a⟩

/-- Sequencing: `k` runs on the value of `x` unless `x` panicked. -/
def bind {ρ α β : Type} (x : Run ρ α) (k : α → Run ρ β) : Run ρ β :=
  match x.outcome with
  | Outcome.panicked => ⟨x.trace, Outcome.panicked⟩
  | Outcome.returned a => ⟨x.trace ++ (k a).trace, (k a).outcome⟩

end Run

/-! ## Kubernetes object metadata and conditions -/

/-- A `metav1.Time`, as the number of nanoseconds since the zero time. -/
structure Time where
  nanos : Nat
  deriving DecidableEq, Repr

/-- The method `Time.IsZero` on a pointer: a nil pointer is zero. -/
def timeIsZero (t : Option Time) : Bool :=
  match t with
  | none => true
  | some v => decide (v.nanos = 0)

/-- The key `meta.AnnotationKeyExternalName`. -/
def annotationKeyExternalName : String := "crossplane.io/external-name"

/-- The part of `metav1.ObjectMeta` the controllers read. -/
structure ObjectMeta where
  annotationMap : List (String × String)
  deletionTimestamp : Option Time
  deriving DecidableEq, Repr

/-- Reading a Go `map[string]string`: the zero value for a missing key. -/
def mapGet (m : List (String × String)) (key : String) : String :=
  match m.lookup key with
  | none => ""
  | some v => v

/-- The function `meta.GetExternalName`. -/
def getExternalName (m : ObjectMeta) : String :=
  mapGet m.annotationMap annotationKeyExternalName

/-- The function `meta.WasDeleted`: the deletion timestamp is not zero. -/
def wasDeleted (m : ObjectMeta) : Bool := !timeIsZero m.deletionTimestamp

/-- The status of a condition. -/
inductive ConditionStatus where
  | condTrue
  | condFalse
  | condUnknown
  deriving DecidableEq, Repr

/-- A condition of crossplane-runtime, without its transition time. -/
structure Condition where
  ctype : String
  status : ConditionStatus
  reason : String
  deriving DecidableEq, Repr

/-- The condition `Available()`. -/
def Condition.available : Condition := ⟨"Ready", ConditionStatus.condTrue, "Available"⟩

/-- The condition `Unavailable()`. -/
def Condition.unavailable : Condition := ⟨"Ready", ConditionStatus.condFalse, "Unavailable"⟩

/-- The condition `Creating()`. -/
def Condition.creating : Condition := ⟨"Ready", ConditionStatus.condFalse, "Creating"⟩

/-- The condition `Deleting()`. -/
def Condition.deleting : Condition := ⟨"Ready", ConditionStatus.condFalse, "Deleting"⟩

/-- The method `ConditionedStatus.SetConditions` for one condition: a condition
of the same type is replaced, otherwise the new one is appended. -/
def setConditions (cs : List Condition) (c : Condition) : List Condition :=
  if cs.any (fun x => decide (x.ctype = c.ctype)) then
    cs.map (fun x => if x.ctype = c.ctype then c else x)
  else cs ++ [c]

/-- A tag of a resource, as in the custom resource and in the SDK. -/
structure Tag where
  key : Option String
  value : Option String
  deriving DecidableEq, Repr

/-- The struct `managed.ExternalObservation`. -/
structure ExternalObservation where
  resourceExists : Bool
  resourceUpToDate : Bool
  connectionDetails : List (String × String)
  deriving DecidableEq, Repr

/-- The zero value `managed.ExternalObservation{}`. -/
def ExternalObservation.zero : ExternalObservation := ⟨false, false, []⟩

/-- The struct `managed.ExternalCreation`. -/
structure ExternalCreation where
  connectionDetails : List (String × String)
  deriving DecidableEq, Repr

/-- The struct `managed.ExternalUpdate`. -/
structure ExternalUpdate where
  connectionDetails : List (String × String)
  deriving DecidableEq, Repr

/-- The method `ConditionedStatus.SetConditions` for the conditions of a call,
in order. -/
def setConditionsAll (cs : List Condition) (c : List Condition) : List Condition :=
  c.foldl setConditions cs

/-- The method `ConditionedStatus.GetCondition`: the condition of the type,
and a condition of that type with status Unknown when there is none. -/
def getCondition (cs : List Condition) (ct : String) : Condition :=
  match cs.find? (fun c => decide (c.ctype = ct)) with
  | some c => c
  | none => ⟨ct, ConditionStatus.condUnknown, ""⟩

/-- The struct `xpv1.Reference`. -/
structure Reference where
  name : String
  deriving DecidableEq, Repr

/-- The struct `xpv1.SecretReference`. -/
structure SecretReference where
  name : String
  ns : String
  deriving DecidableEq, Repr

/-- The struct `xpv1.PublishConnectionDetailsTo`: the name and the reference
to the secret store configuration. -/
structure PublishConnectionDetailsTo where
  name : String
  secretStoreConfigRef : Option Reference
  deriving DecidableEq, Repr

/-- The struct `xpv1.ResourceSpec`; a `xpv1.DeletionPolicy` is a string. -/
structure ResourceSpec where
  writeConnectionSecretToReference : Option SecretReference
  publishConnectionDetailsTo : Option PublishConnectionDetailsTo
  providerConfigReference : Option Reference
  providerReference : Option Reference
  deletionPolicy : String
  deriving DecidableEq, Repr

/-! ## `pkg/controller/sesv2/emailtemplate/setup.go` -/

namespace EmailTemplate

/-- The struct `svcapitypes.EmailTemplateContent` of the custom resource. -/
structure EmailTemplateContent where
  html : Option String
  subject : Option String
  text : Option String
  deriving DecidableEq, Repr

/-- The struct `svcsdk.EmailTemplateContent` of the SDK. -/
structure SdkEmailTemplateContent where
  html : Option String
  subject : Option String
  text : Option String
  deriving DecidableEq, Repr

/-- The custom resource `svcapitypes.EmailTemplate`. -/
structure EmailTemplate where
  objectMeta : ObjectMeta
  templateContent : Option EmailTemplateContent
  conditions : List Condition
  deriving DecidableEq, Repr

/-- The struct `svcsdk.GetEmailTemplateOutput`. -/
structure GetEmailTemplateOutput where
  templateContent : Option SdkEmailTemplateContent
  templateName : Option String
  deriving DecidableEq, Repr

/-- The function `isUpToDate` of the EmailTemplate controller. -/
def isUpToDate (cr : EmailTemplate) (resp : GetEmailTemplateOutput) : Bool × Option Err :=
  if wasDeleted cr.objectMeta then (true, none)
  else
    match cr.templateContent, resp.templateContent with
    | some want, some have_ =>
      if stringValue want.html ≠ stringValue have_.html then (false, none)
      else if stringValue want.subject ≠ stringValue have_.subject then (false, none)
      else if stringValue want.text ≠ stringValue have_.text then (false, none)
      else (true, none)
    | _, _ => (true, none)

/-- The function `postObserve` of the EmailTemplate controller; the resource
after the call comes first. -/
def postObserve (cr : EmailTemplate) (_resp : GetEmailTemplateOutput)
    (obs : ExternalObservation) (err : Option Err) :
    EmailTemplate × ExternalObservation × Option Err :=
  match err with
  | some e => (cr, ExternalObservation.zero, some e)
  | none => ({ cr with conditions := setConditions cr.conditions Condition.available }, obs, none)

end EmailTemplate

/-! ## `pkg/controller/sesv2/configurationset/setup.go` -/

namespace ConfigurationSet

/-- The struct `svcapitypes.DeliveryOptions`. -/
structure DeliveryOptions where
  sendingPoolName : Option String
  tlsPolicy : Option String
  deriving DecidableEq, Repr

/-- The struct `svcapitypes.ReputationOptions`, the field the controller reads. -/
structure ReputationOptions where
  reputationMetricsEnabled : Option Bool
  deriving DecidableEq, Repr

/-- The struct `svcapitypes.SendingOptions`. -/
structure SendingOptions where
  sendingEnabled : Option Bool
  deriving DecidableEq, Repr

/-- The struct `svcapitypes.SuppressionOptions`; the slice may be nil. -/
structure SuppressionOptions where
  suppressedReasons : Option (List (Option String))
  deriving DecidableEq, Repr

/-- The struct `svcapitypes.TrackingOptions`. -/
structure TrackingOptions where
  customRedirectDomain : Option String
  deriving DecidableEq, Repr

/-- The struct `svcapitypes.ConfigurationSetParameters`. -/
structure ConfigurationSetParameters where
  deliveryOptions : Option DeliveryOptions
  reputationOptions : Option ReputationOptions
  sendingOptions : Option SendingOptions
  suppressionOptions : Option SuppressionOptions
  trackingOptions : Option TrackingOptions
  tags : List Tag
  deriving DecidableEq, Repr

/-- The custom resource `svcapitypes.ConfigurationSet`. -/
structure ConfigurationSet where
  objectMeta : ObjectMeta
  forProvider : ConfigurationSetParameters
  conditions : List Condition
  deriving DecidableEq, Repr

/-- The struct `svcsdk.GetConfigurationSetOutput`; its option groups are the
SDK structs with the same fields as those of the custom resource. -/
structure GetConfigurationSetOutput where
  configurationSetName : Option String
  deliveryOptions : Option DeliveryOptions
  reputationOptions : Option ReputationOptions
  sendingOptions : Option SendingOptions
  suppressionOptions : Option SuppressionOptions
  tags : List Tag
  trackingOptions : Option TrackingOptions
  deriving DecidableEq, Repr

/-- The function `isUpToDateDeliveryOptions`. -/
def isUpToDateDeliveryOptions (cr : ConfigurationSet) (resp : GetConfigurationSetOutput) : Bool :=
  match cr.forProvider.deliveryOptions, resp.deliveryOptions with
  | some want, some have_ =>
    if stringValue want.sendingPoolName ≠ stringValue have_.sendingPoolName then false
    else if stringValue want.tlsPolicy ≠ stringValue have_.tlsPolicy then false
    else true
  | _, _ => true

/-- The function `isUpToDateReputationOptions`. -/
def isUpToDateReputationOptions (cr : ConfigurationSet) (resp : GetConfigurationSetOutput) : Bool :=
  match cr.forProvider.reputationOptions, resp.reputationOptions with
  | some want, some have_ =>
    if boolValue want.reputationMetricsEnabled ≠ boolValue have_.reputationMetricsEnabled then false
    else true
  | _, _ => true

/-- The function `isUpToDateTrackingOptions`. -/
def isUpToDateTrackingOptions (cr : ConfigurationSet) (resp : GetConfigurationSetOutput) : Bool :=
  match cr.forProvider.trackingOptions, resp.trackingOptions with
  | some _, none => false
  | some want, some have_ =>
    if stringValue want.customRedirectDomain ≠ stringValue have_.customRedirectDomain then false
    else true
  | none, _ => true

/-- The order `less` handed to `cmpopts.SortSlices`: by `aws.StringValue`. -/
def reasonLess (i j : Option String) : Bool := decide (stringValue i < stringValue j)

/-- The transformer of `cmpopts.SortSlices`: a copy of the slice sorted with
`sort.SliceStable`, so elements that `less` does not separate keep their
relative order. -/
def sortSlices (l : List (Option String)) : List (Option String) :=
  l.insertionSort (fun a b => reasonLess b a = false)

/-- The call `cmp.Equal(x, y, sortCmp, cmpopts.EquateEmpty())` on two slices of
string pointers: two empty slices are equal, nil or not; a nil slice differs
from a non-empty one; otherwise the sorted copies are compared element by
element, a nil pointer being equal to a nil pointer only and two non-nil
pointers when their strings are equal. -/
def cmpEqual (x y : Option (List (Option String))) : Bool :=
  match x, y with
  | none, none => true
  | none, some b => b.isEmpty
  | some a, none => a.isEmpty
  | some a, some b => decide (sortSlices a = sortSlices b)

/-- The length `len` of a slice that may be nil. -/
def sliceLen {α : Type} (s : Option (List α)) : Nat :=
  match s with
  | none => 0
  | some l => l.length

/-- The function `isUpToDateSuppressionOptions`. -/
def isUpToDateSuppressionOptions (cr : ConfigurationSet) (resp : GetConfigurationSetOutput) : Bool :=
  let crSuppressedReasons : Option (List (Option String)) :=
    match cr.forProvider.suppressionOptions with
    | some o => o.suppressedReasons
    | none => none
  let awsSuppressedReasons : Option (List (Option String)) :=
    match resp.suppressionOptions with
    | some o => o.suppressedReasons
    | none => none
  if sliceLen crSuppressedReasons ≠ sliceLen awsSuppressedReasons then false
  else cmpEqual crSuppressedReasons awsSuppressedReasons

/-- The function `isUpToDateSendingOptions`. -/
def isUpToDateSendingOptions (cr : ConfigurationSet) (resp : GetConfigurationSetOutput) : Bool :=
  match cr.forProvider.sendingOptions, resp.sendingOptions with
  | some want, some have_ =>
    if boolValue want.sendingEnabled ≠ boolValue have_.sendingEnabled then false
    else true
  | _, _ => true

/-- The function `isUpToDate` of the ConfigurationSet controller.  The helper
`svcutils.AreTagsUpToDate` of `pkg/controller/sesv2` is not among the sources
and is the parameter `areTagsUpToDate`. -/
def isUpToDate (areTagsUpToDate : List Tag → List Tag → Bool × Option Err)
    (cr : ConfigurationSet) (resp : GetConfigurationSetOutput) : Bool × Option Err :=
  if wasDeleted cr.objectMeta then (true, none)
  else if !isUpToDateDeliveryOptions cr resp then (false, none)
  else if !isUpToDateReputationOptions cr resp then (false, none)
  else if !isUpToDateSendingOptions cr resp then (false, none)
  else if !isUpToDateSuppressionOptions cr resp then (false, none)
  else if !isUpToDateTrackingOptions cr resp then (false, none)
  else areTagsUpToDate cr.forProvider.tags resp.tags

/-- The struct `svcsdk.PutConfigurationSetDeliveryOptionsInput`. -/
structure PutConfigurationSetDeliveryOptionsInput where
  configurationSetName : Option String
  sendingPoolName : Option String
  tlsPolicy : Option String
  deriving DecidableEq, Repr

/-- The struct `svcsdk.PutConfigurationSetReputationOptionsInput`. -/
structure PutConfigurationSetReputationOptionsInput where
  configurationSetName : Option String
  reputationMetricsEnabled : Option Bool
  deriving DecidableEq, Repr

/-- The struct `svcsdk.PutConfigurationSetSuppressionOptionsInput`. -/
structure PutConfigurationSetSuppressionOptionsInput where
  configurationSetName : Option String
  suppressedReasons : Option (List (Option String))
  deriving DecidableEq, Repr

/-- The struct `svcsdk.PutConfigurationSetTrackingOptionsInput`. -/
structure PutConfigurationSetTrackingOptionsInput where
  configurationSetName : Option String
  customRedirectDomain : Option String
  deriving DecidableEq, Repr

/-- The struct `svcsdk.PutConfigurationSetSendingOptionsInput`. -/
structure PutConfigurationSetSendingOptionsInput where
  configurationSetName : Option String
  sendingEnabled : Option Bool
  deriving DecidableEq, Repr

/-- A request of the update hook to the SES v2 API. -/
inductive Request where
  | putDeliveryOptions (input : PutConfigurationSetDeliveryOptionsInput)
  | putReputationOptions (input : PutConfigurationSetReputationOptionsInput)
  | putSuppressionOptions (input : PutConfigurationSetSuppressionOptionsInput)
  | putTrackingOptions (input : PutConfigurationSetTrackingOptionsInput)
  | putSendingOptions (input : PutConfigurationSetSendingOptionsInput)
  deriving DecidableEq, Repr

/-- The methods of `sesv2iface.SESV2API` the update hook calls: the error each
request is answered with (`none` on success). -/
structure Client where
  putConfigurationSetDeliveryOptions : PutConfigurationSetDeliveryOptionsInput → Option Err
  putConfigurationSetReputationOptions : PutConfigurationSetReputationOptionsInput → Option Err
  putConfigurationSetSuppressionOptions : PutConfigurationSetSuppressionOptionsInput → Option Err
  putConfigurationSetTrackingOptions : PutConfigurationSetTrackingOptionsInput → Option Err
  putConfigurationSetSendingOptions : PutConfigurationSetSendingOptionsInput → Option Err

/-- The struct `hooks`: the client and the observation stored by
`postObserve` (a pointer, nil before the first observation). -/
structure Hooks where
  client : Client
  configurationSetObservation : Option GetConfigurationSetOutput

/-- The method `hooks.postObserve`; the hooks and the resource after the call
come first.  Reading `resp.SendingOptions.SendingEnabled` panics when
`resp.SendingOptions` is nil.  The `switch` has the cases `true` and `false`
and a `default` case, tried in this order. -/
def postObserve (e : Hooks) (cr : ConfigurationSet) (resp : GetConfigurationSetOutput)
    (obs : ExternalObservation) (err : Option Err) :
    Outcome (Hooks × ConfigurationSet × ExternalObservation × Option Err) :=
  match err with
  | some x => Outcome.returned (e, cr, ExternalObservation.zero, some x)
  | none =>
    match resp.sendingOptions with
    | none => Outcome.panicked
    | some so =>
      let cr1 : ConfigurationSet :=
        if boolValue so.sendingEnabled = true then
          { cr with conditions := setConditions cr.conditions Condition.available }
        else if boolValue so.sendingEnabled = false then
          { cr with conditions := setConditions cr.conditions Condition.unavailable }
        else { cr with conditions := setConditions cr.conditions Condition.creating }
      Outcome.returned ({ e with configurationSetObservation := some resp }, cr1, obs, none)

/-- One step of `hooks.update`: when the request was answered with an error
the hook returns it wrapped with `message`, otherwise it goes on with `next`. -/
def orReturn (step : Run Request (Option Err)) (message : String)
    (next : Run Request (ExternalUpdate × Option Err)) :
    Run Request (ExternalUpdate × Option Err) :=
  step.bind fun err =>
    match err with
    | some x => Run.ret (ExternalUpdate.mk [], errorsWrap (some x) message)
    | none => next

/-- The method `hooks.update`.  The spec fields of an option group are read
through the group's pointer, which panics when the pointer is nil; so does
every option check when the stored observation is nil and the check comes to
read it.  The helper `awsclient.String` of `pkg/clients` is not among the
sources and is the parameter `awsclientString`. -/
def update (awsclientString : String → Option String) (e : Hooks) (cr : ConfigurationSet) :
    Run Request (ExternalUpdate × Option Err) :=
  let configurationSetName : Option String :=
    awsclientString (mapGet cr.objectMeta.annotationMap annotationKeyExternalName)
  match e.configurationSetObservation with
  | none =>
    -- the delivery and reputation checks read the nil observation if the spec
    -- has the group; the suppression check reads it in any case
    Run.crash
  | some obs =>
    orReturn
      (if !isUpToDateDeliveryOptions cr obs then
        match cr.forProvider.deliveryOptions with
        | none => Run.crash
        | some o =>
          let input : PutConfigurationSetDeliveryOptionsInput :=
            ⟨configurationSetName, o.sendingPoolName, o.tlsPolicy⟩
          Run.call (Request.putDeliveryOptions input)
            (e.client.putConfigurationSetDeliveryOptions input)
      else Run.ret none)
      "update failed for ConfigurationSetDeliveryOptions" <|
    orReturn
      (if !isUpToDateReputationOptions cr obs then
        match cr.forProvider.reputationOptions with
        | none => Run.crash
        | some o =>
          let input : PutConfigurationSetReputationOptionsInput :=
            ⟨configurationSetName, o.reputationMetricsEnabled⟩
          Run.call (Request.putReputationOptions input)
            (e.client.putConfigurationSetReputationOptions input)
      else Run.ret none)
      "update failed for ConfigurationSetReputationOptions" <|
    orReturn
      (if !isUpToDateSuppressionOptions cr obs then
        match cr.forProvider.suppressionOptions with
        | none => Run.crash
        | some o =>
          let input : PutConfigurationSetSuppressionOptionsInput :=
            ⟨configurationSetName, o.suppressedReasons⟩
          Run.call (Request.putSuppressionOptions input)
            (e.client.putConfigurationSetSuppressionOptions input)
      else Run.ret none)
      "update failed for ConfigurationSetSuppressionOptions" <|
    orReturn
      (if !isUpToDateTrackingOptions cr obs then
        match cr.forProvider.trackingOptions with
        | none => Run.crash
        | some o =>
          let input : PutConfigurationSetTrackingOptionsInput :=
            ⟨configurationSetName, o.customRedirectDomain⟩
          Run.call (Request.putTrackingOptions input)
            (e.client.putConfigurationSetTrackingOptions input)
      else Run.ret none)
      "update failed for ConfigurationSetTrackingOptions" <|
    orReturn
      (if !isUpToDateSendingOptions cr obs then
        match cr.forProvider.sendingOptions with
        | none => Run.crash
        | some o =>
          let input : PutConfigurationSetSendingOptionsInput :=
            ⟨configurationSetName, o.sendingEnabled⟩
          Run.call (Request.putSendingOptions input)
            (e.client.putConfigurationSetSendingOptions input)
      else Run.ret none)
      "update failed for ConfigurationSetSendingOptions" <|
    Run.ret (ExternalUpdate.mk [], none)

end ConfigurationSet

/-! ## `pkg/controller/database/rdsinstance.go` -/

namespace Database

/-- The message `errKubeUpdateFailed`. -/
def errKubeUpdateFailed : String := "cannot update RDS instance custom resource"

/-- The message `errCreateFailed`. -/
def errCreateFailed : String := "cannot create RDS instance"

/-- The message `errModifyFailed`. -/
def errModifyFailed : String := "cannot modify RDS instance"

/-- The message `errAddTagsFailed`. -/
def errAddTagsFailed : String := "cannot add tags to RDS instance"

/-- The message `errDeleteFailed`. -/
def errDeleteFailed : String := "cannot delete RDS instance"

/-- The message `errDescribeFailed`. -/
def errDescribeFailed : String := "cannot describe RDS instance"

/-- The message `errPatchCreationFailed`. -/
def errPatchCreationFailed : String := "cannot create a patch object"

/-- The message `errUpToDateFailed`. -/
def errUpToDateFailed : String := "cannot check whether object is up-to-date"

/-- The message `errGetPasswordSecretFailed`. -/
def errGetPasswordSecretFailed : String := "cannot get password secret"

/-- Modelled from the spec: the constant `v1beta1.RDSInstanceStateAvailable`
of `apis/database/v1beta1`, which is not among the sources. -/
def rdsInstanceStateAvailable : String := "available"

/-- Modelled from the spec: the constant `v1beta1.RDSInstanceStateCreating`
of `apis/database/v1beta1`, which is not among the sources. -/
def rdsInstanceStateCreating : String := "creating"

/-- Modelled from the spec: the constant `v1beta1.RDSInstanceStateDeleting`
of `apis/database/v1beta1`, which is not among the sources. -/
def rdsInstanceStateDeleting : String := "deleting"

/-- Modelled from the spec: the constant `v1beta1.RDSInstanceStateModifying`
of `apis/database/v1beta1`, which is not among the sources. -/
def rdsInstanceStateModifying : String := "modifying"

/-- The key `ResourceCredentialsSecretPasswordKey` of crossplane-runtime. -/
def resourceCredentialsSecretPasswordKey : String := "password"

/-- The key `ResourceCredentialsSecretUserKey` of crossplane-runtime. -/
def resourceCredentialsSecretUserKey : String := "username"

/-- The phase `BindingPhaseBound` of crossplane-runtime. -/
def bindingPhaseBound : String := "Bound"

/-- The phase `BindingPhaseUnbound` of crossplane-runtime. -/
def bindingPhaseUnbound : String := "Unbound"

/-- The phase `BindingPhaseReleased` of crossplane-runtime. -/
def bindingPhaseReleased : String := "Released"

/-- A `types.NamespacedName`. -/
structure NamespacedName where
  name : String
  ns : String
  deriving DecidableEq, Repr

/-- A `SecretReference` of crossplane-runtime. -/
structure SecretReference where
  name : String
  ns : String
  deriving DecidableEq, Repr

/-- A `SecretKeySelector` of crossplane-runtime: a reference and a key. -/
structure SecretKeySelector where
  name : String
  ns : String
  key : String
  deriving DecidableEq, Repr

/-- A `corev1.Secret`: its data, the byte strings read as strings. -/
structure Secret where
  data : List (String × String)
  deriving DecidableEq, Repr

/-- The struct `v1beta1.Tag`. -/
structure RDSTag where
  key : String
  value : String
  deriving DecidableEq, Repr

/-- The struct `v1beta1.RDSInstanceParameters`: the fields the controller
reads, and the remaining fields by name in `rest`. -/
structure RDSInstanceParameters where
  region : Option String
  masterUsername : Option String
  masterPasswordSecretRef : Option SecretKeySelector
  skipFinalSnapshotBeforeDeletion : Option Bool
  finalDBSnapshotIdentifier : Option String
  tags : List RDSTag
  rest : List (String × String)
  deriving DecidableEq, Repr

/-- The struct `v1beta1.RDSInstanceObservation`: the fields the controller
reads, and the remaining fields by name in `rest`. -/
structure RDSInstanceObservation where
  dbInstanceStatus : String
  dbInstanceArn : String
  rest : List (String × String)
  deriving DecidableEq, Repr

/-- The custom resource `v1beta1.RDSInstance`. -/
structure RDSInstance where
  objectMeta : ObjectMeta
  forProvider : RDSInstanceParameters
  writeConnectionSecretToReference : Option SecretReference
  atProvider : RDSInstanceObservation
  conditions : List Condition
  bindingPhase : String
  deriving DecidableEq, Repr

/-- The struct `awsrds.DBInstance` of the SDK, its fields by name. -/
structure DBInstance where
  fields : List (String × String)
  deriving DecidableEq, Repr

/-- The struct `awsrds.DescribeDBInstancesInput`. -/
structure DescribeDBInstancesInput where
  dbInstanceIdentifier : Option String
  deriving DecidableEq, Repr

/-- The struct `awsrds.CreateDBInstanceInput`: the fields by name. -/
structure CreateDBInstanceInput where
  fields : List (String × String)
  deriving DecidableEq, Repr

/-- The struct `awsrds.ModifyDBInstanceInput`: the password, which the
controller sets, and the other fields by name. -/
structure ModifyDBInstanceInput where
  masterUserPassword : Option String
  fields : List (String × String)
  deriving DecidableEq, Repr

/-- The struct `awsrds.Tag`. -/
structure SdkTag where
  key : Option String
  value : Option String
  deriving DecidableEq, Repr

/-- The struct `awsrds.AddTagsToResourceInput`. -/
structure AddTagsToResourceInput where
  resourceName : Option String
  tags : List SdkTag
  deriving DecidableEq, Repr

/-- The struct `awsrds.DeleteDBInstanceInput`. -/
structure DeleteDBInstanceInput where
  dbInstanceIdentifier : Option String
  skipFinalSnapshot : Option Bool
  finalDBSnapshotIdentifier : Option String
  deriving DecidableEq, Repr

/-- What a controller function sends: a request to the RDS API, or a read or a
write on the Kubernetes API server. -/
inductive Event where
  | describeDBInstances (input : DescribeDBInstancesInput)
  | createDBInstance (input : CreateDBInstanceInput)
  | modifyDBInstance (input : ModifyDBInstanceInput)
  | addTagsToResource (input : AddTagsToResourceInput)
  | deleteDBInstance (input : DeleteDBInstanceInput)
  | kubeGet (nn : NamespacedName)
  | kubeUpdate (cr : RDSInstance)
  deriving DecidableEq, Repr

/-- The event is a request to the AWS SDK. -/
def Event.isSdk : Event → Bool
  | Event.kubeGet _ => false
  | Event.kubeUpdate _ => false
  | _ => true

/-- The interface `rds.Client`: the answer to each request; for
`DescribeDBInstances` the slice `DBInstances` of the response. -/
structure Client where
  describeDBInstances : DescribeDBInstancesInput → Except Err (List DBInstance)
  createDBInstance : CreateDBInstanceInput → Option Err
  modifyDBInstance : ModifyDBInstanceInput → Option Err
  addTagsToResource : AddTagsToResourceInput → Option Err
  deleteDBInstance : DeleteDBInstanceInput → Option Err

/-- The methods of the Kubernetes `client.Client` the controller calls. -/
structure Kube where
  get : NamespacedName → Except Err Secret
  update : RDSInstance → Option Err

/-- The struct `external`. -/
structure External where
  client : Client
  kube : Kube

/-- The functions of the package `pkg/clients/rds` the controller calls, and
`password.Generate` of crossplane-runtime.  None of them is among the sources;
they are parameters of the controller functions. -/
structure Rds where
  isErrorNotFound : Option Err → Bool
  lateInitialize : RDSInstanceParameters → DBInstance → RDSInstanceParameters
  generateObservation : DBInstance → RDSInstanceObservation
  isUpToDate : RDSInstanceParameters → DBInstance → Except Err Bool
  getConnectionDetails : RDSInstance → List (String × String)
  createPatch : DBInstance → RDSInstanceParameters → Except Err RDSInstanceParameters
  generateCreateDBInstanceInput : String → String → RDSInstanceParameters → CreateDBInstanceInput
  generateModifyDBInstanceInput : String → RDSInstanceParameters → ModifyDBInstanceInput
  passwordGenerate : Except Err String

/-- The function `resource.SetBindable` of crossplane-runtime: a resource in
the phase Bound or Released is left as it is, any other gets the phase
Unbound. -/
def setBindable (cr : RDSInstance) : RDSInstance :=
  if cr.bindingPhase = bindingPhaseBound ∨ cr.bindingPhase = bindingPhaseReleased then cr
  else { cr with bindingPhase := bindingPhaseUnbound }

/-- The method `external.getPassword`. -/
def getPassword (e : External) (namespacedName : NamespacedName) (key : String) :
    Run Event (String × Option Err) :=
  Run.call (Event.kubeGet namespacedName)
    (match e.kube.get namespacedName with
     | Except.error err => ("", some err)
     | Except.ok s => (mapGet s.data key, none))

/-- The first block of `external.Observe` (the computation of `pwdChanged`):
the error of the lookup of the master password, or whether the password
changed. -/
def observePassword (e : External) (cr : RDSInstance) : Run Event (Except Err Bool) :=
  match cr.forProvider.masterPasswordSecretRef, cr.writeConnectionSecretToReference with
  | some m, some w =>
    (getPassword e ⟨m.name, m.ns⟩ m.key).bind fun r1 =>
      match r1.2 with
      | some err => Run.ret (Except.error err)
      | none =>
        (getPassword e ⟨w.name, w.ns⟩ resourceCredentialsSecretPasswordKey).bind fun r2 =>
          Run.ret (Except.ok (decide (r1.1 ≠ r2.1)))
  | _, _ => Run.ret (Except.ok false)

/-- The `switch` of `external.Observe` on the observed status: the condition
it sets, and for an available instance the call of `resource.SetBindable`. -/
def observeStatus (cr : RDSInstance) : RDSInstance :=
  if cr.atProvider.dbInstanceStatus = rdsInstanceStateAvailable then
    setBindable { cr with conditions := setConditions cr.conditions Condition.available }
  else if cr.atProvider.dbInstanceStatus = rdsInstanceStateCreating then
    { cr with conditions := setConditions cr.conditions Condition.creating }
  else if cr.atProvider.dbInstanceStatus = rdsInstanceStateDeleting then
    { cr with conditions := setConditions cr.conditions Condition.deleting }
  else { cr with conditions := setConditions cr.conditions Condition.unavailable }

/-- The last block of `external.Observe`, from `instance := rsp.DBInstances[0]`
on: late initialisation and its write, the observation, the condition and the
up-to-date check. -/
def observeInstance (rds : Rds) (e : External) (cr : RDSInstance) (pwdChanged : Bool)
    (inst : DBInstance) : Run Event (RDSInstance × ExternalObservation × Option Err) :=
  let current := cr.forProvider
  let cr1 : RDSInstance := { cr with forProvider := rds.lateInitialize cr.forProvider inst }
  let written : Run Event (Option Err) :=
    if current ≠ cr1.forProvider then Run.call (Event.kubeUpdate cr1) (e.kube.update cr1)
    else Run.ret none
  written.bind fun w =>
    match w with
    | some err =>
      Run.ret (cr1, ExternalObservation.zero, errorsWrap (some err) errKubeUpdateFailed)
    | none =>
      let cr2 : RDSInstance := { cr1 with atProvider := rds.generateObservation inst }
      let cr3 : RDSInstance := observeStatus cr2
      match rds.isUpToDate cr3.forProvider inst with
      | Except.error err =>
        Run.ret (cr3, ExternalObservation.zero, errorsWrap (some err) errUpToDateFailed)
      | Except.ok upToDate =>
        Run.ret (cr3,
          { resourceExists := true
            resourceUpToDate := upToDate && !pwdChanged
            connectionDetails := rds.getConnectionDetails cr3 },
          none)

/-- The method `external.Observe`; the resource after the call comes first.
Its body is `observePassword`, the describe request, and `observeInstance` on
the first instance of the response; indexing an empty response panics. -/
def Observe (rds : Rds) (e : External) (cr : RDSInstance) :
    Run Event (RDSInstance × ExternalObservation × Option Err) :=
  (observePassword e cr).bind fun p =>
    match p with
    | Except.error err =>
      Run.ret (cr, ExternalObservation.zero, errorsWrap (some err) errGetPasswordSecretFailed)
    | Except.ok pwdChanged =>
      let input : DescribeDBInstancesInput := ⟨some (getExternalName cr.objectMeta)⟩
      (Run.call (Event.describeDBInstances input) (e.client.describeDBInstances input)).bind
        fun rsp =>
        match rsp with
        | Except.error err =>
          Run.ret (cr, ExternalObservation.zero,
            errorsWrap (resourceIgnore rds.isErrorNotFound (some err)) errDescribeFailed)
        | Except.ok [] => Run.crash
        | Except.ok (inst :: _) => observeInstance rds e cr pwdChanged inst

/-- The method `external.Create`; the resource after the call comes first. -/
def Create (rds : Rds) (e : External) (cr : RDSInstance) :
    Run Event (RDSInstance × ExternalCreation × Option Err) :=
  let cr1 : RDSInstance := { cr with conditions := setConditions cr.conditions Condition.creating }
  if cr1.atProvider.dbInstanceStatus = rdsInstanceStateCreating then
    Run.ret (cr1, ExternalCreation.mk [], none)
  else
    match rds.passwordGenerate with
    | Except.error err => Run.ret (cr1, ExternalCreation.mk [], some err)
    | Except.ok generated =>
      let pwRun : Run Event (Except Err String) :=
        match cr1.forProvider.masterPasswordSecretRef with
        | some m =>
          (Run.call (Event.kubeGet ⟨m.name, m.ns⟩) (e.kube.get ⟨m.name, m.ns⟩)).bind fun r =>
            match r with
            | Except.error err => Run.ret (Except.error err)
            | Except.ok s => Run.ret (Except.ok (mapGet s.data m.key))
        | none => Run.ret (Except.ok generated)
      pwRun.bind fun p =>
        match p with
        | Except.error err =>
          Run.ret (cr1, ExternalCreation.mk [], errorsWrap (some err) errGetPasswordSecretFailed)
        | Except.ok pw =>
          let input : CreateDBInstanceInput :=
            rds.generateCreateDBInstanceInput (getExternalName cr1.objectMeta) pw cr1.forProvider
          (Run.call (Event.createDBInstance input) (e.client.createDBInstance input)).bind fun r =>
            match r with
            | some err => Run.ret (cr1, ExternalCreation.mk [], errorsWrap (some err) errCreateFailed)
            | none =>
              let conn : List (String × String) := [(resourceCredentialsSecretPasswordKey, pw)]
              let conn1 : List (String × String) :=
                match cr1.forProvider.masterUsername with
                | some u => conn ++ [(resourceCredentialsSecretUserKey, u)]
                | none => conn
              Run.ret (cr1, ExternalCreation.mk conn1, none)

/-- The password block of `external.Update`: the error of the lookup of the
master password, or the connection details and the modify input after the
block. -/
def updatePassword (e : External) (cr : RDSInstance) (modify : ModifyDBInstanceInput) :
    Run Event (Except Err (List (String × String) × ModifyDBInstanceInput)) :=
  match cr.forProvider.masterPasswordSecretRef with
  | none => Run.ret (Except.ok ([], modify))
  | some m =>
    (getPassword e ⟨m.name, m.ns⟩ m.key).bind fun r1 =>
      match r1.2 with
      | some err => Run.ret (Except.error err)
      | none =>
        let changePwd : Run Event Bool :=
          match cr.writeConnectionSecretToReference with
          | none => Run.ret true
          | some w =>
            (getPassword e ⟨w.name, w.ns⟩ resourceCredentialsSecretPasswordKey).bind
              fun r2 => Run.ret (if r1.1 = r2.1 then false else true)
        changePwd.bind fun c =>
          if c then
            Run.ret (Except.ok ([(resourceCredentialsSecretPasswordKey, r1.1)],
              { modify with masterUserPassword := some r1.1 }))
          else Run.ret (Except.ok ([], modify))

/-- The last block of `external.Update`: the modify request and, when the
patch has tags, the request that adds them. -/
def updateModify (e : External) (cr : RDSInstance) (patch : RDSInstanceParameters)
    (conn : List (String × String)) (modify : ModifyDBInstanceInput) :
    Run Event (ExternalUpdate × Option Err) :=
  (Run.call (Event.modifyDBInstance modify) (e.client.modifyDBInstance modify)).bind fun r =>
    match r with
    | some err => Run.ret (ExternalUpdate.mk [], errorsWrap (some err) errModifyFailed)
    | none =>
      if patch.tags.length > 0 then
        let tags : List SdkTag := patch.tags.map fun t => ⟨some t.key, some t.value⟩
        let input : AddTagsToResourceInput := ⟨some cr.atProvider.dbInstanceArn, tags⟩
        (Run.call (Event.addTagsToResource input) (e.client.addTagsToResource input)).bind
          fun r3 =>
          match r3 with
          | some err => Run.ret (ExternalUpdate.mk [], errorsWrap (some err) errAddTagsFailed)
          | none => Run.ret (ExternalUpdate.mk conn, none)
      else Run.ret (ExternalUpdate.mk conn, none)

/-- The method `external.Update`; it does not change the resource.  Its body
is the status check, the describe request, the patch, `updatePassword` and
`updateModify`; indexing an empty response panics. -/
def Update (rds : Rds) (e : External) (cr : RDSInstance) :
    Run Event (ExternalUpdate × Option Err) :=
  if cr.atProvider.dbInstanceStatus = rdsInstanceStateModifying
      ∨ cr.atProvider.dbInstanceStatus = rdsInstanceStateCreating then
    Run.ret (ExternalUpdate.mk [], none)
  else
    let describe : DescribeDBInstancesInput := ⟨some (getExternalName cr.objectMeta)⟩
    (Run.call (Event.describeDBInstances describe) (e.client.describeDBInstances describe)).bind
      fun rsp =>
      match rsp with
      | Except.error err => Run.ret (ExternalUpdate.mk [], errorsWrap (some err) errDescribeFailed)
      | Except.ok [] => Run.crash
      | Except.ok (inst :: _) =>
        match rds.createPatch inst cr.forProvider with
        | Except.error err =>
          Run.ret (ExternalUpdate.mk [], errorsWrap (some err) errPatchCreationFailed)
        | Except.ok patch =>
          let modify : ModifyDBInstanceInput :=
            rds.generateModifyDBInstanceInput (getExternalName cr.objectMeta) patch
          (updatePassword e cr modify).bind fun p =>
            match p with
            | Except.error err =>
              Run.ret (ExternalUpdate.mk [], errorsWrap (some err) errGetPasswordSecretFailed)
            | Except.ok (conn, modify1) => updateModify e cr patch conn modify1

/-- The method `external.Delete`; the resource after the call comes first. -/
def Delete (rds : Rds) (e : External) (cr : RDSInstance) : Run Event (RDSInstance × Option Err) :=
  let cr1 : RDSInstance := { cr with conditions := setConditions cr.conditions Condition.deleting }
  if cr1.atProvider.dbInstanceStatus = rdsInstanceStateDeleting then Run.ret (cr1, none)
  else
    (Update rds e cr1).bind fun u =>
      if rds.isErrorNotFound u.2 then Run.ret (cr1, none)
      else
        let input : DeleteDBInstanceInput :=
          { dbInstanceIdentifier := some (getExternalName cr1.objectMeta)
            skipFinalSnapshot := cr1.forProvider.skipFinalSnapshotBeforeDeletion
            finalDBSnapshotIdentifier := cr1.forProvider.finalDBSnapshotIdentifier }
        (Run.call (Event.deleteDBInstance input) (e.client.deleteDBInstance input)).bind fun r =>
          Run.ret (cr1, errorsWrap (resourceIgnore rds.isErrorNotFound r) errDeleteFailed)

end Database

/-! ## `pkg/controller/iam/servicelinkedrole/zz_controller.go` -/

namespace ServiceLinkedRole

/-- The message `errCreate`. -/
def errCreate : String := "cannot create ServiceLinkedRole in AWS"

/-- The message `errDelete`. -/
def errDelete : String := "failed to delete ServiceLinkedRole"

/-- The struct `AttachedPermissionsBoundary`, of the custom resource and of
the SDK. -/
structure AttachedPermissionsBoundary where
  permissionsBoundaryARN : Option String
  permissionsBoundaryType : Option String
  deriving DecidableEq, Repr

/-- The struct `RoleLastUsed`, of the custom resource and of the SDK. -/
structure RoleLastUsed where
  lastUsedDate : Option Time
  region : Option String
  deriving DecidableEq, Repr

/-- The struct `svcsdk.Role`; `tags` is a slice of pointers that may be nil. -/
structure Role where
  arn : Option String
  assumeRolePolicyDocument : Option String
  createDate : Option Time
  description : Option String
  maxSessionDuration : Option Int
  path : Option String
  permissionsBoundary : Option AttachedPermissionsBoundary
  roleId : Option String
  roleLastUsed : Option RoleLastUsed
  roleName : Option String
  tags : Option (List (Option Tag))
  deriving DecidableEq, Repr

/-- The struct `svcapitypes.ServiceLinkedRoleObservation`. -/
structure ServiceLinkedRoleObservation where
  arn : Option String
  assumeRolePolicyDocument : Option String
  createDate : Option Time
  maxSessionDuration : Option Int
  path : Option String
  permissionsBoundary : Option AttachedPermissionsBoundary
  roleID : Option String
  roleLastUsed : Option RoleLastUsed
  roleName : Option String
  tags : Option (List (Option Tag))
  deriving DecidableEq, Repr

/-- The struct `svcapitypes.ServiceLinkedRoleParameters`. -/
structure ServiceLinkedRoleParameters where
  awsServiceName : Option String
  customSuffix : Option String
  description : Option String
  deriving DecidableEq, Repr

/-- The custom resource `svcapitypes.ServiceLinkedRole`: the metadata, the
embedded `xpv1.ResourceSpec` and the parameters of its spec, the observation
and the conditions of its status. -/
structure ServiceLinkedRole where
  objectMeta : ObjectMeta
  resourceSpec : ResourceSpec
  forProvider : ServiceLinkedRoleParameters
  atProvider : ServiceLinkedRoleObservation
  conditions : List Condition
  deriving DecidableEq, Repr

/-- The struct `svcsdk.CreateServiceLinkedRoleInput`. -/
structure CreateServiceLinkedRoleInput where
  awsServiceName : Option String
  customSuffix : Option String
  description : Option String
  deriving DecidableEq, Repr

/-- The struct `svcsdk.CreateServiceLinkedRoleOutput`. -/
structure CreateServiceLinkedRoleOutput where
  role : Option Role
  deriving DecidableEq, Repr

/-- The struct `svcsdk.DeleteServiceLinkedRoleInput`. -/
structure DeleteServiceLinkedRoleInput where
  roleName : Option String
  deriving DecidableEq, Repr

/-- The struct `svcsdk.DeleteServiceLinkedRoleOutput`. -/
structure DeleteServiceLinkedRoleOutput where
  deletionTaskId : Option String
  deriving DecidableEq, Repr

/-- A request of the controller to the IAM API. -/
inductive Request where
  | createServiceLinkedRole (input : CreateServiceLinkedRoleInput)
  | deleteServiceLinkedRole (input : DeleteServiceLinkedRoleInput)
  deriving DecidableEq, Repr

/-- The methods of `svcsdkapi.IAMAPI` the controller calls. -/
structure Client where
  createServiceLinkedRole : CreateServiceLinkedRoleInput → Except Err CreateServiceLinkedRoleOutput
  deleteServiceLinkedRole :
    DeleteServiceLinkedRoleInput → Option DeleteServiceLinkedRoleOutput × Option Err

/-- The functions of `zz_conversions.go` the controller calls; the file is not
among the sources and they are parameters. -/
structure Conversions where
  generateCreateServiceLinkedRoleInput : ServiceLinkedRole → CreateServiceLinkedRoleInput
  generateDeleteServiceLinkedRoleInput : ServiceLinkedRole → DeleteServiceLinkedRoleInput
  isNotFound : Option Err → Bool

/-- The struct `external`: the client and the hooks.  A hook receives pointers
to the resource and to the request and may write through them, so it returns
them next to its Go results; the requests a hook may send on its own are not
part of the run of `Create` or `Delete`. -/
structure External where
  client : Client
  observe : ServiceLinkedRole → ServiceLinkedRole × ExternalObservation × Option Err
  preCreate : ServiceLinkedRole → CreateServiceLinkedRoleInput →
    ServiceLinkedRole × CreateServiceLinkedRoleInput × Option Err
  postCreate : ServiceLinkedRole → CreateServiceLinkedRoleOutput → ExternalCreation → Option Err →
    ServiceLinkedRole × ExternalCreation × Option Err
  preDelete : ServiceLinkedRole → DeleteServiceLinkedRoleInput →
    ServiceLinkedRole × DeleteServiceLinkedRoleInput × Bool × Option Err
  postDelete : ServiceLinkedRole → Option DeleteServiceLinkedRoleOutput → Option Err →
    ServiceLinkedRole × Option Err
  update : ServiceLinkedRole → ServiceLinkedRole × ExternalUpdate × Option Err

/-- The function `nopObserve`. -/
def nopObserve (cr : ServiceLinkedRole) : ServiceLinkedRole × ExternalObservation × Option Err :=
  (cr, ExternalObservation.zero, none)

/-- The function `nopPreCreate`. -/
def nopPreCreate (cr : ServiceLinkedRole) (input : CreateServiceLinkedRoleInput) :
    ServiceLinkedRole × CreateServiceLinkedRoleInput × Option Err :=
  (cr, input, none)

/-- The function `nopPostCreate`. -/
def nopPostCreate (cr : ServiceLinkedRole) (_resp : CreateServiceLinkedRoleOutput)
    (cre : ExternalCreation) (err : Option Err) : ServiceLinkedRole × ExternalCreation × Option Err :=
  (cr, cre, err)

/-- The function `nopPreDelete`. -/
def nopPreDelete (cr : ServiceLinkedRole) (input : DeleteServiceLinkedRoleInput) :
    ServiceLinkedRole × DeleteServiceLinkedRoleInput × Bool × Option Err :=
  (cr, input, false, none)

/-- The function `nopPostDelete`. -/
def nopPostDelete (cr : ServiceLinkedRole) (_resp : Option DeleteServiceLinkedRoleOutput)
    (err : Option Err) : ServiceLinkedRole × Option Err :=
  (cr, err)

/-- The function `nopUpdate`. -/
def nopUpdate (cr : ServiceLinkedRole) : ServiceLinkedRole × ExternalUpdate × Option Err :=
  (cr, ExternalUpdate.mk [], none)

/-- The function `newExternal`: the hooks that do nothing, then the options in
order. -/
def newExternal (client : Client) (opts : List (External → External)) : External :=
  opts.foldl (fun e f => f e)
    { client := client
      observe := nopObserve
      preCreate := nopPreCreate
      postCreate := nopPostCreate
      preDelete := nopPreDelete
      postDelete := nopPostDelete
      update := nopUpdate }

/-- The loop of `Create` over `resp.Role.Tags`: a fresh tag with the key and
the value of each element; reading a nil element panics (`none`). -/
def copyTags : List (Option Tag) → Option (List (Option Tag))
  | [] => some []
  | none :: _ => none
  | some t :: rest =>
    match copyTags rest with
    | none => none
    | some out => some (some (Tag.mk t.key t.value) :: out)

/-- The method `external.Observe`. -/
def Observe (e : External) (cr : ServiceLinkedRole) :
    ServiceLinkedRole × ExternalObservation × Option Err :=
  e.observe cr

/-- The method `external.Create`; the resource after the call comes first. -/
def Create (conv : Conversions) (e : External) (cr : ServiceLinkedRole) :
    Run Request (ServiceLinkedRole × ExternalCreation × Option Err) :=
  let cr0 : ServiceLinkedRole :=
    { cr with conditions := setConditions cr.conditions Condition.creating }
  match e.preCreate cr0 (conv.generateCreateServiceLinkedRoleInput cr0) with
  | (cr1, _, some err) =>
    Run.ret (cr1, ExternalCreation.mk [], errorsWrap (some err) "pre-create failed")
  | (cr1, input, none) =>
    (Run.call (Request.createServiceLinkedRole input) (e.client.createServiceLinkedRole input)).bind
      fun r =>
      match r with
      | Except.error err => Run.ret (cr1, ExternalCreation.mk [], awsclientWrap (some err) errCreate)
      | Except.ok resp =>
        match resp.role with
        | none => Run.crash
        | some role =>
          let tags : Outcome (Option (List (Option Tag))) :=
            match role.tags with
            | none => Outcome.returned none
            | some ts =>
              match copyTags ts with
              | none => Outcome.panicked
              | some out => Outcome.returned (some out)
          match tags with
          | Outcome.panicked => Run.crash
          | Outcome.returned f10 =>
            let cr2 : ServiceLinkedRole :=
              { cr1 with
                forProvider := { cr1.forProvider with description := role.description }
                atProvider :=
                  { arn := role.arn
                    assumeRolePolicyDocument := role.assumeRolePolicyDocument
                    createDate := role.createDate
                    maxSessionDuration := role.maxSessionDuration
                    path := role.path
                    permissionsBoundary :=
                      match role.permissionsBoundary with
                      | some b => some ⟨b.permissionsBoundaryARN, b.permissionsBoundaryType⟩
                      | none => none
                    roleID := role.roleId
                    roleLastUsed :=
                      match role.roleLastUsed with
                      | some u => some ⟨u.lastUsedDate, u.region⟩
                      | none => none
                    roleName := role.roleName
                    tags := f10 } }
            Run.ret (e.postCreate cr2 resp (ExternalCreation.mk []) none)

/-- The method `external.Update`. -/
def Update (e : External) (cr : ServiceLinkedRole) :
    ServiceLinkedRole × ExternalUpdate × Option Err :=
  e.update cr

/-- The method `external.Delete`; the resource after the call comes first. -/
def Delete (conv : Conversions) (e : External) (cr : ServiceLinkedRole) :
    Run Request (ServiceLinkedRole × Option Err) :=
  let cr0 : ServiceLinkedRole :=
    { cr with conditions := setConditions cr.conditions Condition.deleting }
  match e.preDelete cr0 (conv.generateDeleteServiceLinkedRoleInput cr0) with
  | (cr1, _, _, some err) => Run.ret (cr1, errorsWrap (some err) "pre-delete failed")
  | (cr1, input, ignore, none) =>
    if ignore then Run.ret (cr1, none)
    else
      (Run.call (Request.deleteServiceLinkedRole input) (e.client.deleteServiceLinkedRole input)).bind
        fun r =>
        Run.ret (e.postDelete cr1 r.1 (awsclientWrap (resourceIgnore conv.isNotFound r.2) errDelete))

end ServiceLinkedRole

/-! ## `apis/iam/v1alpha1/zz_generated.managed.go` -/

/-- The custom resource `v1alpha1.InstanceProfile`: the metadata, the embedded
`xpv1.ResourceSpec` of its spec, the parameters of its spec by name, and the
conditions of its status. -/
structure V1alpha1.InstanceProfile where
  objectMeta : ObjectMeta
  resourceSpec : ResourceSpec
  forProvider : List (String × String)
  conditions : List Condition
  deriving DecidableEq, Repr

namespace V1alpha1.InstanceProfile

/-- The method `GetCondition` of InstanceProfile. -/
def GetCondition (mg : InstanceProfile) (ct : String) : Condition :=
  getCondition mg.conditions ct

/-- The method `GetDeletionPolicy` of InstanceProfile. -/
def GetDeletionPolicy (mg : InstanceProfile) : String :=
  mg.resourceSpec.deletionPolicy

/-- The method `GetProviderConfigReference` of InstanceProfile. -/
def GetProviderConfigReference (mg : InstanceProfile) : Option Reference :=
  mg.resourceSpec.providerConfigReference

/-- The method `GetProviderReference` of InstanceProfile (deprecated). -/
def GetProviderReference (mg : InstanceProfile) : Option Reference :=
  mg.resourceSpec.providerReference

/-- The method `GetPublishConnectionDetailsTo` of InstanceProfile. -/
def GetPublishConnectionDetailsTo (mg : InstanceProfile) : Option PublishConnectionDetailsTo :=
  mg.resourceSpec.publishConnectionDetailsTo

/-- The method `GetWriteConnectionSecretToReference` of InstanceProfile. -/
def GetWriteConnectionSecretToReference (mg : InstanceProfile) : Option SecretReference :=
  mg.resourceSpec.writeConnectionSecretToReference

/-- The method `SetConditions` of InstanceProfile. -/
def SetConditions (mg : InstanceProfile) (c : List Condition) : InstanceProfile :=
  { mg with conditions := setConditionsAll mg.conditions c }

/-- The method `SetDeletionPolicy` of InstanceProfile. -/
def SetDeletionPolicy (mg : InstanceProfile) (r : String) : InstanceProfile :=
  { mg with resourceSpec := { mg.resourceSpec with deletionPolicy := r } }

/-- The method `SetProviderConfigReference` of InstanceProfile. -/
def SetProviderConfigReference (mg : InstanceProfile) (r : Option Reference) : InstanceProfile :=
  { mg with resourceSpec := { mg.resourceSpec with providerConfigReference := r } }

/-- The method `SetProviderReference` of InstanceProfile (deprecated). -/
def SetProviderReference (mg : InstanceProfile) (r : Option Reference) : InstanceProfile :=
  { mg with resourceSpec := { mg.resourceSpec with providerReference := r } }

/-- The method `SetPublishConnectionDetailsTo` of InstanceProfile. -/
def SetPublishConnectionDetailsTo (mg : InstanceProfile)
    (r : Option PublishConnectionDetailsTo) : InstanceProfile :=
  { mg with resourceSpec := { mg.resourceSpec with publishConnectionDetailsTo := r } }

/-- The method `SetWriteConnectionSecretToReference` of InstanceProfile. -/
def SetWriteConnectionSecretToReference (mg : InstanceProfile) (r : Option SecretReference) :
    InstanceProfile :=
  { mg with resourceSpec := { mg.resourceSpec with writeConnectionSecretToReference := r } }

end V1alpha1.InstanceProfile

namespace ServiceLinkedRole.ServiceLinkedRole

/-- The method `GetCondition` of ServiceLinkedRole. -/
def GetCondition (mg : ServiceLinkedRole) (ct : String) : Condition :=
  getCondition mg.conditions ct

/-- The method `GetDeletionPolicy` of ServiceLinkedRole. -/
def GetDeletionPolicy (mg : ServiceLinkedRole) : String :=
  mg.resourceSpec.deletionPolicy

/-- The method `GetProviderConfigReference` of ServiceLinkedRole. -/
def GetProviderConfigReference (mg : ServiceLinkedRole) : Option Reference :=
  mg.resourceSpec.providerConfigReference

/-- The method `GetProviderReference` of ServiceLinkedRole (deprecated). -/
def GetProviderReference (mg : ServiceLinkedRole) : Option Reference :=
  mg.resourceSpec.providerReference

/-- The method `GetPublishConnectionDetailsTo` of ServiceLinkedRole. -/
def GetPublishConnectionDetailsTo (mg : ServiceLinkedRole) : Option PublishConnectionDetailsTo :=
  mg.resourceSpec.publishConnectionDetailsTo

/-- The method `GetWriteConnectionSecretToReference` of ServiceLinkedRole. -/
def GetWriteConnectionSecretToReference (mg : ServiceLinkedRole) : Option SecretReference :=
  mg.resourceSpec.writeConnectionSecretToReference

/-- The method `SetConditions` of ServiceLinkedRole. -/
def SetConditions (mg : ServiceLinkedRole) (c : List Condition) : ServiceLinkedRole :=
  { mg with conditions := setConditionsAll mg.conditions c }

/-- The method `SetDeletionPolicy` of ServiceLinkedRole. -/
def SetDeletionPolicy (mg : ServiceLinkedRole) (r : String) : ServiceLinkedRole :=
  { mg with resourceSpec := { mg.resourceSpec with deletionPolicy := r } }

/-- The method `SetProviderConfigReference` of ServiceLinkedRole. -/
def SetProviderConfigReference (mg : ServiceLinkedRole) (r : Option Reference) :
    ServiceLinkedRole :=
  { mg with resourceSpec := { mg.resourceSpec with providerConfigReference := r } }

/-- The method `SetProviderReference` of ServiceLinkedRole (deprecated). -/
def SetProviderReference (mg : ServiceLinkedRole) (r : Option Reference) : ServiceLinkedRole :=
  { mg with resourceSpec := { mg.resourceSpec with providerReference := r } }

/-- The method `SetPublishConnectionDetailsTo` of ServiceLinkedRole. -/
def SetPublishConnectionDetailsTo (mg : ServiceLinkedRole)
    (r : Option PublishConnectionDetailsTo) : ServiceLinkedRole :=
  { mg with resourceSpec := { mg.resourceSpec with publishConnectionDetailsTo := r } }

/-- The method `SetWriteConnectionSecretToReference` of ServiceLinkedRole. -/
def SetWriteConnectionSecretToReference (mg : ServiceLinkedRole) (r : Option SecretReference) :
    ServiceLinkedRole :=
  { mg with resourceSpec := { mg.resourceSpec with writeConnectionSecretToReference := r } }

end ServiceLinkedRole.ServiceLinkedRole

/-! ## Notions used to state the properties -/

/-- The suppressed reasons an option group stands for: the elements of its
slice, none when the group or the slice is nil. -/
def ConfigurationSet.reasonsOf (o : Option ConfigurationSet.SuppressionOptions) :
    List (Option String) :=
  match o with
  | some g =>
    match g.suppressedReasons with
    | some l => l
    | none => []
  | none => []

/-- The answer of the SES client to a request of the update hook. -/
def ConfigurationSet.answer (c : ConfigurationSet.Client) : ConfigurationSet.Request → Option Err
  | ConfigurationSet.Request.putDeliveryOptions i => c.putConfigurationSetDeliveryOptions i
  | ConfigurationSet.Request.putReputationOptions i => c.putConfigurationSetReputationOptions i
  | ConfigurationSet.Request.putSuppressionOptions i => c.putConfigurationSetSuppressionOptions i
  | ConfigurationSet.Request.putTrackingOptions i => c.putConfigurationSetTrackingOptions i
  | ConfigurationSet.Request.putSendingOptions i => c.putConfigurationSetSendingOptions i

/-- A step of the update hook that sends at most one request and, if it sends
one, returns what the client `c` answers. -/
def ConfigurationSet.SingleStep (c : ConfigurationSet.Client)
    (step : Run ConfigurationSet.Request (Option Err)) : Prop :=
  step = Run.ret none ∨ step = Run.crash ∨ ∃ r, step = Run.call r (ConfigurationSet.answer c r)

/-- Every request of the run that the client `c` answers with an error makes
the run return an error that wraps it. -/
def ConfigurationSet.FailuresReturned (c : ConfigurationSet.Client)
    (run : Run ConfigurationSet.Request (ExternalUpdate × Option Err)) : Prop :=
  ∀ r ∈ run.trace, ∀ x, ConfigurationSet.answer c r = some x →
    ∃ u err, run.outcome = Outcome.returned (u, some err) ∧ err.wraps x = true

/-- The value a secret holds under a key as the property of `Observe` words
it: the string stored under the key, and the empty string when the secret
cannot be read or has no such key. -/
def Database.secretValue (r : Except Err Database.Secret) (key : String) : String :=
  match r with
  | Except.ok s => mapGet s.data key
  | Except.error _ => ""

/-- The password changed, as the property of `Observe` words it: both
references are set and the value of the master-password secret at the
referenced key differs from the value under the password key of the
connection secret. -/
def Database.pwdChanged (e : Database.External) (cr : Database.RDSInstance) : Bool :=
  match cr.forProvider.masterPasswordSecretRef, cr.writeConnectionSecretToReference with
  | some m, some w =>
    decide (Database.secretValue (e.kube.get ⟨m.name, m.ns⟩) m.key ≠
      Database.secretValue (e.kube.get ⟨w.name, w.ns⟩) Database.resourceCredentialsSecretPasswordKey)
  | _, _ => false

/-- The request `DescribeDBInstances` that `Observe` and `Update` send for a
resource. -/
def Database.describeOf (cr : Database.RDSInstance) : Database.DescribeDBInstancesInput :=
  ⟨some (getExternalName cr.objectMeta)⟩

/-- The request `DeleteDBInstance` that `Delete` sends for a resource. -/
def Database.deleteInputOf (cr : Database.RDSInstance) : Database.DeleteDBInstanceInput :=
  { dbInstanceIdentifier := some (getExternalName cr.objectMeta)
    skipFinalSnapshot := cr.forProvider.skipFinalSnapshotBeforeDeletion
    finalDBSnapshotIdentifier := cr.forProvider.finalDBSnapshotIdentifier }

/-- The event is a read of a secret on the Kubernetes API server. -/
def Database.Event.isKubeGet : Database.Event → Bool
  | Database.Event.kubeGet _ => true
  | _ => false

/-- The event is a `DeleteDBInstance` request. -/
def Database.Event.isDelete : Database.Event → Bool
  | Database.Event.deleteDBInstance _ => true
  | _ => false

/-- The requests to the AWS SDK among the events of a run. -/
def Database.sdkRequests (t : List Database.Event) : List Database.Event :=
  t.filter Database.Event.isSdk

/-- The error the RDS client answers a request with, none when the request
succeeds and for the events that are not SDK requests. -/
def Database.sdkError (c : Database.Client) : Database.Event → Option Err
  | Database.Event.describeDBInstances i =>
    match c.describeDBInstances i with
    | Except.error err => some err
    | Except.ok _ => none
  | Database.Event.createDBInstance i => c.createDBInstance i
  | Database.Event.modifyDBInstance i => c.modifyDBInstance i
  | Database.Event.addTagsToResource i => c.addTagsToResource i
  | Database.Event.deleteDBInstance i => c.deleteDBInstance i
  | Database.Event.kubeGet _ => none
  | Database.Event.kubeUpdate _ => none

/-- The resource as `Delete` leaves it: the condition Deleting is set. -/
def Database.markedDeleting (cr : Database.RDSInstance) : Database.RDSInstance :=
  { cr with conditions := setConditions cr.conditions Condition.deleting }

/-- Every request of the run that the RDS client `c` answers with an error
makes the run return an error that wraps it; `errOf` reads the error out of
the Go results. -/
def Database.FailuresReturned {α : Type} (c : Database.Client) (errOf : α → Option Err)
    (run : Run Database.Event α) : Prop :=
  ∀ ev ∈ run.trace, ∀ x, Database.sdkError c ev = some x →
    ∃ a err, run.outcome = Outcome.returned a ∧ errOf a = some err ∧ err.wraps x = true

/-- The Put requests the property of `hooks.update` asks for, in the order
Delivery, Reputation, Suppression, Tracking, Sending: one for each option
group whose check reports drift, with the configuration set name taken from
the external-name annotation and the desired fields of the spec (nil where
the spec has no such group), next to the message that wraps its failure. -/
def ConfigurationSet.plannedPuts (awsclientString : String → Option String)
    (cr : ConfigurationSet.ConfigurationSet) (obs : ConfigurationSet.GetConfigurationSetOutput) :
    List (ConfigurationSet.Request × String) :=
  let name : Option String :=
    awsclientString (mapGet cr.objectMeta.annotationMap annotationKeyExternalName)
  (if ConfigurationSet.isUpToDateDeliveryOptions cr obs then []
    else [(ConfigurationSet.Request.putDeliveryOptions
      ⟨name, cr.forProvider.deliveryOptions.bind (fun o => o.sendingPoolName),
        cr.forProvider.deliveryOptions.bind (fun o => o.tlsPolicy)⟩,
      "update failed for ConfigurationSetDeliveryOptions")]) ++
  (if ConfigurationSet.isUpToDateReputationOptions cr obs then []
    else [(ConfigurationSet.Request.putReputationOptions
      ⟨name, cr.forProvider.reputationOptions.bind (fun o => o.reputationMetricsEnabled)⟩,
      "update failed for ConfigurationSetReputationOptions")]) ++
  (if ConfigurationSet.isUpToDateSuppressionOptions cr obs then []
    else [(ConfigurationSet.Request.putSuppressionOptions
      ⟨name, cr.forProvider.suppressionOptions.bind (fun o => o.suppressedReasons)⟩,
      "update failed for ConfigurationSetSuppressionOptions")]) ++
  (if ConfigurationSet.isUpToDateTrackingOptions cr obs then []
    else [(ConfigurationSet.Request.putTrackingOptions
      ⟨name, cr.forProvider.trackingOptions.bind (fun o => o.customRedirectDomain)⟩,
      "update failed for ConfigurationSetTrackingOptions")]) ++
  (if ConfigurationSet.isUpToDateSendingOptions cr obs then []
    else [(ConfigurationSet.Request.putSendingOptions
      ⟨name, cr.forProvider.sendingOptions.bind (fun o => o.sendingEnabled)⟩,
      "update failed for ConfigurationSetSendingOptions")])

/-- Sending planned requests one after the other, as the property of
`hooks.update` asks for: the first request the client rejects ends the run
with its error wrapped with the message of the request, and no later request
is sent; when all are accepted the result is the empty update and a nil
error. -/
def ConfigurationSet.runPlan (c : ConfigurationSet.Client) :
    List (ConfigurationSet.Request × String) → Run ConfigurationSet.Request (ExternalUpdate × Option Err)
  | [] => Run.ret (ExternalUpdate.mk [], none)
  | (r, msg) :: rest =>
    match ConfigurationSet.answer c r with
    | some x => ⟨[r], Outcome.returned (ExternalUpdate.mk [], some (Err.wrap x msg))⟩
    | none => ⟨r :: (ConfigurationSet.runPlan c rest).trace, (ConfigurationSet.runPlan c rest).outcome⟩

/-- Suppression is not configured in an option group: the group is nil, or its
slice of reasons is nil or empty. -/
def ConfigurationSet.Unconfigured (o : Option ConfigurationSet.SuppressionOptions) : Prop :=
  o = none ∨ ∃ g, o = some g ∧ (g.suppressedReasons = none ∨ g.suppressedReasons = some [])

/-- The resource as `Create` of the ServiceLinkedRole controller hands it to
the `preCreate` hook: the condition Creating is set. -/
def ServiceLinkedRole.markedCreating (cr : ServiceLinkedRole.ServiceLinkedRole) :
    ServiceLinkedRole.ServiceLinkedRole :=
  { cr with conditions := setConditions cr.conditions Condition.creating }

/-- The condition that belongs to an observed status of a DB instance, as the
property of `Observe` words it: Available for "available", Creating for
"creating", Deleting for "deleting", Unavailable for every other status. -/
def Database.conditionFor (status : String) : Condition :=
  if status = "available" then Condition.available
  else if status = "creating" then Condition.creating
  else if status = "deleting" then Condition.deleting
  else Condition.unavailable

/-! ## Example data -/

/-- An object with the external name `n` and no deletion timestamp. -/
def exampleMeta (n : String) : ObjectMeta :=
  { annotationMap := [(annotationKeyExternalName, n)], deletionTimestamp := none }

/-- An object with the external name `n` that is being deleted. -/
def exampleDeletedMeta (n : String) : ObjectMeta :=
  { annotationMap := [(annotationKeyExternalName, n)], deletionTimestamp := some ⟨1700000000⟩ }

/-- An EmailTemplate whose spec has a subject and a text, no HTML part. -/
def EmailTemplate.exampleTemplate : EmailTemplate.EmailTemplate :=
  { objectMeta := exampleMeta "welcome"
    templateContent := some ⟨none, some "Hello", some "Welcome aboard"⟩
    conditions := [] }

/-- A response for `exampleTemplate` with an empty HTML part. -/
def EmailTemplate.exampleResponse : EmailTemplate.GetEmailTemplateOutput :=
  { templateContent := some ⟨some "", some "Hello", some "Welcome aboard"⟩
    templateName := some "welcome" }

/-- A ConfigurationSet with the given suppression options and nothing else. -/
def ConfigurationSet.exampleSet (m : ObjectMeta)
    (s : Option ConfigurationSet.SuppressionOptions) : ConfigurationSet.ConfigurationSet :=
  { objectMeta := m
    forProvider :=
      { deliveryOptions := none, reputationOptions := none, sendingOptions := none,
        suppressionOptions := s, trackingOptions := none, tags := [] }
    conditions := [] }

/-- A response with the given suppression options and nothing else. -/
def ConfigurationSet.exampleOutput (s : Option ConfigurationSet.SuppressionOptions) :
    ConfigurationSet.GetConfigurationSetOutput :=
  { configurationSetName := some "marketing", deliveryOptions := none, reputationOptions := none,
    sendingOptions := none, suppressionOptions := s, tags := [], trackingOptions := none }

/-- A tag comparison for the examples: the tags are up to date when the two
lists are equal; it never fails. -/
def exampleAreTagsUpToDate (want seen : List Tag) : Bool × Option Err :=
  (decide (want = seen), none)

/-- An SES client that accepts every request. -/
def ConfigurationSet.acceptingClient : ConfigurationSet.Client :=
  { putConfigurationSetDeliveryOptions := fun _ => none
    putConfigurationSetReputationOptions := fun _ => none
    putConfigurationSetSuppressionOptions := fun _ => none
    putConfigurationSetTrackingOptions := fun _ => none
    putConfigurationSetSendingOptions := fun _ => none }

/-- A ConfigurationSet that asks for one tag and for no option group. -/
def ConfigurationSet.taggedSet : ConfigurationSet.ConfigurationSet :=
  { objectMeta := exampleMeta "marketing"
    forProvider :=
      { deliveryOptions := none, reputationOptions := none, sendingOptions := none,
        suppressionOptions := none, trackingOptions := none,
        tags := [⟨some "team", some "growth"⟩] }
    conditions := [] }

/-- An RDSInstance with a master-password secret and a connection secret,
observed in the given status. -/
def Database.exampleInstance (status : String) : Database.RDSInstance :=
  { objectMeta := exampleMeta "orders-db"
    forProvider :=
      { region := some "eu-west-1"
        masterUsername := some "admin"
        masterPasswordSecretRef := some ⟨"db-master", "default", "pw"⟩
        skipFinalSnapshotBeforeDeletion := some true
        finalDBSnapshotIdentifier := none
        tags := []
        rest := [] }
    writeConnectionSecretToReference := some ⟨"db-conn", "default"⟩
    atProvider := { dbInstanceStatus := status, dbInstanceArn := "arn:aws:rds:orders-db", rest := [] }
    conditions := []
    bindingPhase := "" }

/-- A Kubernetes client that holds the master-password secret with the value
`fresh` and the connection secret with the value `saved`, and accepts every
write. -/
def Database.exampleKube (fresh saved : String) : Database.Kube :=
  { get := fun nn =>
      if nn = ⟨"db-master", "default"⟩ then Except.ok ⟨[("pw", fresh)]⟩
      else if nn = ⟨"db-conn", "default"⟩ then Except.ok ⟨[("password", saved)]⟩
      else Except.error (Err.base "secret not found")
    update := fun _ => none }

/-- The DB instance the example client describes, in the given status. -/
def Database.exampleDBInstance (status : String) : Database.DBInstance :=
  ⟨[("DBInstanceStatus", status), ("DBInstanceArn", "arn:aws:rds:orders-db")]⟩

/-- An RDS client that answers `DescribeDBInstances` with `described` and
`DeleteDBInstance` with `deleted`, and accepts every other request. -/
def Database.exampleClient (described : Except Err (List Database.DBInstance))
    (deleted : Option Err) : Database.Client :=
  { describeDBInstances := fun _ => described
    createDBInstance := fun _ => none
    modifyDBInstance := fun _ => none
    addTagsToResource := fun _ => none
    deleteDBInstance := fun _ => deleted }

/-- The error the example client uses for a DB instance that does not exist. -/
def Database.notFound : Err := Err.base "DBInstanceNotFound"

/-- Functions of the package `rds` for the examples: only `notFound` counts as
not found, late initialisation changes nothing, the observation reads the
status and the ARN, the spec is up to date, the patch is the spec. -/
def Database.exampleRds : Database.Rds :=
  { isErrorNotFound := fun err => decide (err = some Database.notFound)
    lateInitialize := fun p _ => p
    generateObservation := fun i =>
      ⟨mapGet i.fields "DBInstanceStatus", mapGet i.fields "DBInstanceArn", []⟩
    isUpToDate := fun _ _ => Except.ok true
    getConnectionDetails := fun _ => []
    createPatch := fun _ p => Except.ok p
    generateCreateDBInstanceInput := fun n pw _ =>
      ⟨[("DBInstanceIdentifier", n), ("MasterUserPassword", pw)]⟩
    generateModifyDBInstanceInput := fun n _ => ⟨none, [("DBInstanceIdentifier", n)]⟩
    passwordGenerate := Except.ok "generated" }

/-- An SES client that rejects the Put of the suppression options and accepts
every other request. -/
def ConfigurationSet.rejectingClient : ConfigurationSet.Client :=
  { ConfigurationSet.acceptingClient with
    putConfigurationSetSuppressionOptions := fun _ => some (Err.base "TooManyRequests") }

/-- A ServiceLinkedRole for the service `svc`, not yet observed. -/
def ServiceLinkedRole.exampleRole (svc : String) : ServiceLinkedRole.ServiceLinkedRole :=
  { objectMeta := exampleMeta "AWSServiceRoleForExample"
    resourceSpec :=
      { writeConnectionSecretToReference := none, publishConnectionDetailsTo := none,
        providerConfigReference := some ⟨"default"⟩, providerReference := none,
        deletionPolicy := "Delete" }
    forProvider := { awsServiceName := some svc, customSuffix := none, description := none }
    atProvider :=
      { arn := none, assumeRolePolicyDocument := none, createDate := none,
        maxSessionDuration := none, path := none, permissionsBoundary := none, roleID := none,
        roleLastUsed := none, roleName := none, tags := none }
    conditions := [] }

/-- Conversions for the examples: the inputs copy the spec and the external
name, and only the error `NoSuchEntity` counts as not found. -/
def ServiceLinkedRole.exampleConversions : ServiceLinkedRole.Conversions :=
  { generateCreateServiceLinkedRoleInput := fun cr =>
      ⟨cr.forProvider.awsServiceName, cr.forProvider.customSuffix, cr.forProvider.description⟩
    generateDeleteServiceLinkedRoleInput := fun cr => ⟨some (getExternalName cr.objectMeta)⟩
    isNotFound := fun err => decide (err = some (Err.base "NoSuchEntity")) }

/-- An IAM client that rejects every request with the error `AccessDenied`. -/
def ServiceLinkedRole.denyingClient : ServiceLinkedRole.Client :=
  { createServiceLinkedRole := fun _ => Except.error (Err.base "AccessDenied")
    deleteServiceLinkedRole := fun _ => (none, some (Err.base "AccessDenied")) }

/-- An RDS client that rejects the describe request with `Throttling`, the
create request with `InsufficientDBInstanceCapacity` and the delete request
with `InvalidDBInstanceState`. -/
def Database.failingClient : Database.Client :=
  { describeDBInstances := fun _ => Except.error (Err.base "Throttling")
    createDBInstance := fun _ => some (Err.base "InsufficientDBInstanceCapacity")
    modifyDBInstance := fun _ => none
    addTagsToResource := fun _ => none
    deleteDBInstance := fun _ => some (Err.base "InvalidDBInstanceState") }

/-- The example RDSInstance with one tag in its spec. -/
def Database.taggedInstance : Database.RDSInstance :=
  { Database.exampleInstance "available" with
    forProvider :=
      { (Database.exampleInstance "available").forProvider with tags := [⟨"team", "orders"⟩] } }

/-- A ConfigurationSet that asks for all five option groups. -/
def ConfigurationSet.fullSet : ConfigurationSet.ConfigurationSet :=
  { objectMeta := exampleMeta "marketing"
    forProvider :=
      { deliveryOptions := some ⟨some "pool-a", some "REQUIRE"⟩
        reputationOptions := some ⟨some true⟩
        sendingOptions := some ⟨some true⟩
        suppressionOptions := some ⟨some [some "BOUNCE"]⟩
        trackingOptions := some ⟨some "click.example.org"⟩
        tags := [] }
    conditions := [] }

/-- A response in which every option group differs from `fullSet`. -/
def ConfigurationSet.staleOutput : ConfigurationSet.GetConfigurationSetOutput :=
  { configurationSetName := some "marketing"
    deliveryOptions := some ⟨some "pool-b", some "OPTIONAL"⟩
    reputationOptions := some ⟨some false⟩
    sendingOptions := some ⟨some false⟩
    suppressionOptions := some ⟨some []⟩
    tags := []
    trackingOptions := none }

/-- A ConfigurationSet with the given tracking options and nothing else. -/
def ConfigurationSet.trackedSet (t : Option ConfigurationSet.TrackingOptions) :
    ConfigurationSet.ConfigurationSet :=
  { objectMeta := exampleMeta "marketing"
    forProvider :=
      { deliveryOptions := none, reputationOptions := none, sendingOptions := none,
        suppressionOptions := none, trackingOptions := t, tags := [] }
    conditions := [] }

/-- A response with the given tracking and sending options and nothing else. -/
def ConfigurationSet.trackedOutput (t : Option ConfigurationSet.TrackingOptions)
    (so : Option ConfigurationSet.SendingOptions) : ConfigurationSet.GetConfigurationSetOutput :=
  { configurationSetName := some "marketing", deliveryOptions := none, reputationOptions := none,
    sendingOptions := so, suppressionOptions := none, tags := [], trackingOptions := t }

/-- An observation of an existing, up-to-date resource. -/
def exampleObservation : ExternalObservation :=
  { resourceExists := true, resourceUpToDate := true, connectionDetails := [] }

/-- A role as IAM returns it, with the given tags. -/
def ServiceLinkedRole.exampleSdkRole (tags : Option (List (Option Tag))) : ServiceLinkedRole.Role :=
  { arn := some "arn:aws:iam::123456789012:role/aws-service-role/AWSServiceRoleForExample"
    assumeRolePolicyDocument := some "%7B%22Version%22%3A%222012-10-17%22%7D"
    createDate := some ⟨1700000000⟩
    description := none
    maxSessionDuration := some 3600
    path := some "/aws-service-role/"
    permissionsBoundary := none
    roleId := some "AROAEXAMPLE"
    roleLastUsed := some ⟨none, some "eu-west-1"⟩
    roleName := some "AWSServiceRoleForExample"
    tags := tags }

/-- An IAM client that creates the role `exampleSdkRole tags` and accepts the
delete request. -/
def ServiceLinkedRole.creatingClient (tags : Option (List (Option Tag))) :
    ServiceLinkedRole.Client :=
  { createServiceLinkedRole := fun _ => Except.ok ⟨some (ServiceLinkedRole.exampleSdkRole tags)⟩
    deleteServiceLinkedRole := fun _ => (some ⟨some "task-1"⟩, none) }

/-- Functions of the package `rds` as in `exampleRds`, except that late
initialisation fills in the instance class. -/
def Database.fillingRds : Database.Rds :=
  { Database.exampleRds with
    lateInitialize := fun p _ => { p with rest := [("DBInstanceClass", "db.t3.micro")] } }

/-- A Kubernetes client as `exampleKube` that rejects every write with a
conflict. -/
def Database.conflictKube : Database.Kube :=
  { Database.exampleKube "s3cret" "s3cret" with update := fun _ => some (Err.base "Conflict") }

/-! ## Properties of the EmailTemplate and ConfigurationSet checks -/

theorem stringValue_eq_getD (p : Option String) : stringValue p = p.getD "" := by
  cases p <;> rfl

/-- C8: for an EmailTemplate that is not being deleted, `isUpToDate` returns no
error; it returns true when the desired or the observed template content is
nil; and when both are present it returns true exactly when HTML, subject and
text agree, a nil string pointer counting as the empty string. -/
theorem emailTemplate_isUpToDate_spec (cr : EmailTemplate.EmailTemplate)
    (resp : EmailTemplate.GetEmailTemplateOutput) (hlive : wasDeleted cr.objectMeta = false) :
    (EmailTemplate.isUpToDate cr resp).2 = none ∧
    ((cr.templateContent = none ∨ resp.templateContent = none) →
      (EmailTemplate.isUpToDate cr resp).1 = true) ∧
    (∀ want seen, cr.templateContent = some want → resp.templateContent = some seen →
      ((EmailTemplate.isUpToDate cr resp).1 = true ↔
        (want.html.getD "" = seen.html.getD "" ∧ want.subject.getD "" = seen.subject.getD "" ∧
          want.text.getD "" = seen.text.getD ""))) := by
  refine ⟨?_, ?_, ?_⟩
  · unfold EmailTemplate.isUpToDate
    rw [hlive]
    rcases hc : cr.templateContent with _ | want <;> rcases hr : resp.templateContent with _ | seen <;>
      simp only [Bool.false_eq_true, if_false]
    split_ifs <;> rfl
  · intro h
    unfold EmailTemplate.isUpToDate
    rw [hlive]
    rcases h with h | h
    · rw [h]; simp
    · rw [h]; rcases cr.templateContent with _ | want <;> simp
  · intro want seen hc hr
    unfold EmailTemplate.isUpToDate
    rw [hlive, hc, hr]
    simp only [Bool.false_eq_true, if_false, ← stringValue_eq_getD]
    split_ifs with h1 h2 h3 <;> simp_all

/-- Witness of C8 on a template whose HTML part is nil in the spec and empty
in the response: the check returns true without an error. -/
theorem emailTemplate_isUpToDate_spec_witness :
    wasDeleted EmailTemplate.exampleTemplate.objectMeta = false ∧
    (EmailTemplate.isUpToDate EmailTemplate.exampleTemplate EmailTemplate.exampleResponse).2 = none ∧
    (EmailTemplate.isUpToDate EmailTemplate.exampleTemplate EmailTemplate.exampleResponse).1 = true :=
  ⟨by decide,
    (emailTemplate_isUpToDate_spec EmailTemplate.exampleTemplate EmailTemplate.exampleResponse
      (by decide)).1,
    ((emailTemplate_isUpToDate_spec EmailTemplate.exampleTemplate EmailTemplate.exampleResponse
      (by decide)).2.2 _ _ rfl rfl).2 (by decide)⟩

/-- C9: for an EmailTemplate and for a ConfigurationSet that carries a
deletion timestamp, `isUpToDate` returns true and no error, whatever the
response holds and whatever the tag comparison would say. -/
theorem isUpToDate_of_wasDeleted :
    (∀ (cr : EmailTemplate.EmailTemplate) (resp : EmailTemplate.GetEmailTemplateOutput),
      wasDeleted cr.objectMeta = true → EmailTemplate.isUpToDate cr resp = (true, none)) ∧
    (∀ (areTagsUpToDate : List Tag → List Tag → Bool × Option Err)
      (cr : ConfigurationSet.ConfigurationSet) (resp : ConfigurationSet.GetConfigurationSetOutput),
      wasDeleted cr.objectMeta = true →
        ConfigurationSet.isUpToDate areTagsUpToDate cr resp = (true, none)) := by
  constructor
  · intro cr resp h
    simp [EmailTemplate.isUpToDate, h]
  · intro f cr resp h
    simp [ConfigurationSet.isUpToDate, h]

/-- Witness of C9: a template whose spec differs from the response and a
configuration set whose suppressed reasons and tags differ from the response,
both being deleted. -/
theorem isUpToDate_of_wasDeleted_witness :
    wasDeleted (exampleDeletedMeta "welcome") = true ∧
    EmailTemplate.isUpToDate
      { EmailTemplate.exampleTemplate with objectMeta := exampleDeletedMeta "welcome" }
      { templateContent := some ⟨some "<p>other</p>", some "Bye", none⟩, templateName := none }
      = (true, none) ∧
    ConfigurationSet.isUpToDate (fun _ _ => (false, some (Err.base "tags differ")))
      (ConfigurationSet.exampleSet (exampleDeletedMeta "marketing") none)
      (ConfigurationSet.exampleOutput (some ⟨some [some "BOUNCE"]⟩)) = (true, none) :=
  ⟨by decide, isUpToDate_of_wasDeleted.1 _ _ (by decide), isUpToDate_of_wasDeleted.2 _ _ _ (by decide)⟩

/-! ### Suppressed reasons as an unordered collection -/

theorem sortSlices_perm (l : List (Option String)) : (ConfigurationSet.sortSlices l).Perm l :=
  List.perm_insertionSort _ l

theorem sortSlices_sorted (l : List (Option String)) :
    (ConfigurationSet.sortSlices l).Pairwise
      (fun a b => ConfigurationSet.reasonLess b a = false) := by
  have htotal : IsTotal (Option String) (fun a b => ConfigurationSet.reasonLess b a = false) :=
    ⟨fun a b => by
      simp only [ConfigurationSet.reasonLess, decide_eq_false_iff_not, not_lt]
      exact le_total _ _⟩
  have htrans : IsTrans (Option String) (fun a b => ConfigurationSet.reasonLess b a = false) :=
    ⟨fun a b c => by
      simp only [ConfigurationSet.reasonLess, decide_eq_false_iff_not, not_lt]
      exact le_trans⟩
  exact List.sorted_insertionSort _ l

theorem sortSlices_eq_iff_perm (a b : List (Option String))
    (ha : ∀ x ∈ a, x ≠ none) (hb : ∀ x ∈ b, x ≠ none) :
    ConfigurationSet.sortSlices a = ConfigurationSet.sortSlices b ↔ a.Perm b := by
  constructor
  · intro h
    exact (sortSlices_perm a).symm.trans (h ▸ sortSlices_perm b)
  · intro h
    have hp : (ConfigurationSet.sortSlices a).Perm (ConfigurationSet.sortSlices b) :=
      (sortSlices_perm a).trans (h.trans (sortSlices_perm b).symm)
    refine List.Perm.eq_of_sorted ?_ (sortSlices_sorted a) (sortSlices_sorted b) hp
    intro x y hx hy hxy hyx
    have hx1 : x ≠ none := ha x ((sortSlices_perm a).mem_iff.1 hx)
    have hy1 : y ≠ none := hb y ((sortSlices_perm b).mem_iff.1 hy)
    simp only [ConfigurationSet.reasonLess, decide_eq_false_iff_not, not_lt] at hxy hyx
    have hs : stringValue x = stringValue y := le_antisymm hxy hyx
    cases x with
    | none => exact absurd rfl hx1
    | some u =>
      cases y with
      | none => exact absurd rfl hy1
      | some v => exact congrArg some hs

theorem sortSlices_length (l : List (Option String)) :
    (ConfigurationSet.sortSlices l).length = l.length :=
  (sortSlices_perm l).length_eq

theorem cmpEqual_eq (x y : Option (List (Option String)))
    (hlen : ConfigurationSet.sliceLen x = ConfigurationSet.sliceLen y) :
    ConfigurationSet.cmpEqual x y =
      decide (ConfigurationSet.sortSlices (x.getD []) = ConfigurationSet.sortSlices (y.getD [])) := by
  cases x with
  | none =>
    cases y with
    | none => simp [ConfigurationSet.cmpEqual]
    | some b =>
      cases b with
      | nil => simp [ConfigurationSet.cmpEqual]
      | cons c t => simp [ConfigurationSet.sliceLen] at hlen
  | some a =>
    cases y with
    | none =>
      cases a with
      | nil => simp [ConfigurationSet.cmpEqual]
      | cons c t => simp [ConfigurationSet.sliceLen] at hlen
    | some b => simp [ConfigurationSet.cmpEqual]

theorem isUpToDateSuppressionOptions_eq (cr : ConfigurationSet.ConfigurationSet)
    (resp : ConfigurationSet.GetConfigurationSetOutput) :
    ConfigurationSet.isUpToDateSuppressionOptions cr resp =
      decide (ConfigurationSet.sortSlices (ConfigurationSet.reasonsOf cr.forProvider.suppressionOptions)
        = ConfigurationSet.sortSlices (ConfigurationSet.reasonsOf resp.suppressionOptions)) := by
  have key : ∀ x y : Option (List (Option String)),
      (if ConfigurationSet.sliceLen x ≠ ConfigurationSet.sliceLen y then false
        else ConfigurationSet.cmpEqual x y) =
      decide (ConfigurationSet.sortSlices (x.getD []) = ConfigurationSet.sortSlices (y.getD [])) := by
    intro x y
    by_cases hlen : ConfigurationSet.sliceLen x = ConfigurationSet.sliceLen y
    · simp only [hlen, ne_eq, not_true_eq_false, if_false]
      exact cmpEqual_eq x y hlen
    · simp only [ne_eq, hlen, not_false_eq_true, if_true]
      symm
      rw [decide_eq_false_iff_not]
      intro h
      apply hlen
      have h2 := congrArg List.length h
      rw [sortSlices_length, sortSlices_length] at h2
      cases x <;> cases y <;> simp_all [ConfigurationSet.sliceLen]
  have hr : ∀ o : Option ConfigurationSet.SuppressionOptions,
      ConfigurationSet.reasonsOf o =
        (match o with
          | some g => g.suppressedReasons
          | none => none).getD [] := by
    intro o
    rcases o with _ | ⟨_ | l⟩ <;> rfl
  unfold ConfigurationSet.isUpToDateSuppressionOptions
  rw [hr, hr]
  exact key _ _

/-- C10: when the suppressed reasons of the spec and of the response hold only
non-nil strings, `isUpToDateSuppressionOptions` returns true exactly when the
two lists are permutations of each other; so it returns false when the lengths
differ, and reordering the reasons of the spec or of the response does not
change its result. -/
theorem isUpToDateSuppressionOptions_iff_perm (cr : ConfigurationSet.ConfigurationSet)
    (resp : ConfigurationSet.GetConfigurationSetOutput)
    (hcr : ∀ x ∈ ConfigurationSet.reasonsOf cr.forProvider.suppressionOptions, x ≠ none)
    (hresp : ∀ x ∈ ConfigurationSet.reasonsOf resp.suppressionOptions, x ≠ none) :
    (ConfigurationSet.isUpToDateSuppressionOptions cr resp = true ↔
      (ConfigurationSet.reasonsOf cr.forProvider.suppressionOptions).Perm
        (ConfigurationSet.reasonsOf resp.suppressionOptions)) ∧
    ((ConfigurationSet.reasonsOf cr.forProvider.suppressionOptions).length ≠
        (ConfigurationSet.reasonsOf resp.suppressionOptions).length →
      ConfigurationSet.isUpToDateSuppressionOptions cr resp = false) ∧
    (∀ (cr2 : ConfigurationSet.ConfigurationSet) (resp2 : ConfigurationSet.GetConfigurationSetOutput),
      (ConfigurationSet.reasonsOf cr2.forProvider.suppressionOptions).Perm
        (ConfigurationSet.reasonsOf cr.forProvider.suppressionOptions) →
      (ConfigurationSet.reasonsOf resp2.suppressionOptions).Perm
        (ConfigurationSet.reasonsOf resp.suppressionOptions) →
      ConfigurationSet.isUpToDateSuppressionOptions cr2 resp2 =
        ConfigurationSet.isUpToDateSuppressionOptions cr resp) := by
  have hiff : ConfigurationSet.isUpToDateSuppressionOptions cr resp = true ↔
      (ConfigurationSet.reasonsOf cr.forProvider.suppressionOptions).Perm
        (ConfigurationSet.reasonsOf resp.suppressionOptions) := by
    rw [isUpToDateSuppressionOptions_eq, decide_eq_true_iff]
    exact sortSlices_eq_iff_perm _ _ hcr hresp
  refine ⟨hiff, ?_, ?_⟩
  · intro hlen
    rw [← Bool.not_eq_true, hiff]
    exact fun hp => hlen hp.length_eq
  · intro cr2 resp2 h1 h2
    have hcr2 : ∀ x ∈ ConfigurationSet.reasonsOf cr2.forProvider.suppressionOptions, x ≠ none :=
      fun x hx => hcr x (h1.mem_iff.1 hx)
    have hresp2 : ∀ x ∈ ConfigurationSet.reasonsOf resp2.suppressionOptions, x ≠ none :=
      fun x hx => hresp x (h2.mem_iff.1 hx)
    have hiff2 : ConfigurationSet.isUpToDateSuppressionOptions cr2 resp2 = true ↔
        (ConfigurationSet.reasonsOf cr2.forProvider.suppressionOptions).Perm
          (ConfigurationSet.reasonsOf resp2.suppressionOptions) := by
      rw [isUpToDateSuppressionOptions_eq, decide_eq_true_iff]
      exact sortSlices_eq_iff_perm _ _ hcr2 hresp2
    rw [Bool.eq_iff_iff, hiff, hiff2]
    exact ⟨fun hp => h1.symm.trans (hp.trans h2), fun hp => h1.trans (hp.trans h2.symm)⟩

/-- Witness of C10: the reasons BOUNCE, COMPLAINT of the spec against
COMPLAINT, BOUNCE of the response. -/
theorem isUpToDateSuppressionOptions_iff_perm_witness :
    ConfigurationSet.isUpToDateSuppressionOptions
      (ConfigurationSet.exampleSet (exampleMeta "marketing")
        (some ⟨some [some "BOUNCE", some "COMPLAINT"]⟩))
      (ConfigurationSet.exampleOutput (some ⟨some [some "COMPLAINT", some "BOUNCE"]⟩)) = true :=
  ((isUpToDateSuppressionOptions_iff_perm
      (ConfigurationSet.exampleSet (exampleMeta "marketing")
        (some ⟨some [some "BOUNCE", some "COMPLAINT"]⟩))
      (ConfigurationSet.exampleOutput (some ⟨some [some "COMPLAINT", some "BOUNCE"]⟩))
      (by decide) (by decide)).1).2 (List.Perm.swap _ _ _)

/-! ### The update hook of the ConfigurationSet controller -/

theorem orReturn_ret_none (msg : String)
    (next : Run ConfigurationSet.Request (ExternalUpdate × Option Err)) :
    ConfigurationSet.orReturn (Run.ret none) msg next = next := by
  cases next
  simp [ConfigurationSet.orReturn, Run.bind, Run.ret]

theorem orReturn_crash (msg : String)
    (next : Run ConfigurationSet.Request (ExternalUpdate × Option Err)) :
    ConfigurationSet.orReturn Run.crash msg next = Run.crash := by
  simp [ConfigurationSet.orReturn, Run.bind, Run.crash]

theorem orReturn_call_ok (r : ConfigurationSet.Request) (msg : String)
    (next : Run ConfigurationSet.Request (ExternalUpdate × Option Err)) :
    ConfigurationSet.orReturn (Run.call r none) msg next = ⟨r :: next.trace, next.outcome⟩ := by
  simp [ConfigurationSet.orReturn, Run.bind, Run.call]

theorem orReturn_call_err (r : ConfigurationSet.Request) (x : Err) (msg : String)
    (next : Run ConfigurationSet.Request (ExternalUpdate × Option Err)) :
    ConfigurationSet.orReturn (Run.call r (some x)) msg next =
      ⟨[r], Outcome.returned (ExternalUpdate.mk [], some (Err.wrap x msg))⟩ := by
  simp [ConfigurationSet.orReturn, Run.bind, Run.call, Run.ret, errorsWrap]

theorem Err.wraps_wrap (x : Err) (msg : String) : (Err.wrap x msg).wraps x = true := by
  have hself : ∀ y : Err, y.wraps y = true := by
    intro y
    cases y <;> simp [Err.wraps]
  simp [Err.wraps, hself]

theorem orReturn_trace_length (c : ConfigurationSet.Client)
    (step : Run ConfigurationSet.Request (Option Err)) (msg : String)
    (next : Run ConfigurationSet.Request (ExternalUpdate × Option Err))
    (hs : ConfigurationSet.SingleStep c step) :
    (ConfigurationSet.orReturn step msg next).trace.length ≤ 1 + next.trace.length := by
  rcases hs with rfl | rfl | ⟨r, rfl⟩
  · rw [orReturn_ret_none]; omega
  · rw [orReturn_crash]; simp [Run.crash]
  · cases h : ConfigurationSet.answer c r with
    | none => rw [orReturn_call_ok]; simp; omega
    | some x => rw [orReturn_call_err]; simp

theorem orReturn_failuresReturned (c : ConfigurationSet.Client)
    (step : Run ConfigurationSet.Request (Option Err)) (msg : String)
    (next : Run ConfigurationSet.Request (ExternalUpdate × Option Err))
    (hs : ConfigurationSet.SingleStep c step) (hn : ConfigurationSet.FailuresReturned c next) :
    ConfigurationSet.FailuresReturned c (ConfigurationSet.orReturn step msg next) := by
  rcases hs with rfl | rfl | ⟨r, rfl⟩
  · rw [orReturn_ret_none]; exact hn
  · rw [orReturn_crash]
    intro r hr
    simp [Run.crash] at hr
  · cases h : ConfigurationSet.answer c r with
    | none =>
      rw [orReturn_call_ok]
      intro q hq x hx
      simp only [List.mem_cons] at hq
      rcases hq with rfl | hq
      · rw [h] at hx; cases hx
      · exact hn q hq x hx
    | some y =>
      rw [orReturn_call_err]
      intro q hq x hx
      simp only [List.mem_singleton] at hq
      subst hq
      rw [h] at hx
      cases hx
      exact ⟨_, _, rfl, Err.wraps_wrap _ _⟩

theorem orReturn_call_trace_ne_nil (r : ConfigurationSet.Request) (a : Option Err) (msg : String)
    (next : Run ConfigurationSet.Request (ExternalUpdate × Option Err)) :
    (ConfigurationSet.orReturn (Run.call r a) msg next).trace ≠ [] := by
  cases a with
  | none => rw [orReturn_call_ok]; simp
  | some x => rw [orReturn_call_err]; simp

theorem deliveryOptions_isSome_of_drift (cr : ConfigurationSet.ConfigurationSet)
    (obs : ConfigurationSet.GetConfigurationSetOutput)
    (h : ConfigurationSet.isUpToDateDeliveryOptions cr obs ≠ true) :
    ∃ o, cr.forProvider.deliveryOptions = some o := by
  unfold ConfigurationSet.isUpToDateDeliveryOptions at h
  cases hc : cr.forProvider.deliveryOptions with
  | none => simp [hc] at h
  | some o => exact ⟨o, rfl⟩

theorem reputationOptions_isSome_of_drift (cr : ConfigurationSet.ConfigurationSet)
    (obs : ConfigurationSet.GetConfigurationSetOutput)
    (h : ConfigurationSet.isUpToDateReputationOptions cr obs ≠ true) :
    ∃ o, cr.forProvider.reputationOptions = some o := by
  unfold ConfigurationSet.isUpToDateReputationOptions at h
  cases hc : cr.forProvider.reputationOptions with
  | none => simp [hc] at h
  | some o => exact ⟨o, rfl⟩

theorem trackingOptions_isSome_of_drift (cr : ConfigurationSet.ConfigurationSet)
    (obs : ConfigurationSet.GetConfigurationSetOutput)
    (h : ConfigurationSet.isUpToDateTrackingOptions cr obs ≠ true) :
    ∃ o, cr.forProvider.trackingOptions = some o := by
  unfold ConfigurationSet.isUpToDateTrackingOptions at h
  cases hc : cr.forProvider.trackingOptions with
  | none => simp [hc] at h
  | some o => exact ⟨o, rfl⟩

theorem sendingOptions_isSome_of_drift (cr : ConfigurationSet.ConfigurationSet)
    (obs : ConfigurationSet.GetConfigurationSetOutput)
    (h : ConfigurationSet.isUpToDateSendingOptions cr obs ≠ true) :
    ∃ o, cr.forProvider.sendingOptions = some o := by
  unfold ConfigurationSet.isUpToDateSendingOptions at h
  cases hc : cr.forProvider.sendingOptions with
  | none => simp [hc] at h
  | some o => exact ⟨o, rfl⟩

theorem update_sends_of_option_drift (awsclientString : String → Option String)
    (c : ConfigurationSet.Client) (cr : ConfigurationSet.ConfigurationSet)
    (obs : ConfigurationSet.GetConfigurationSetOutput)
    (hdrift : ConfigurationSet.isUpToDateDeliveryOptions cr obs = false ∨
      ConfigurationSet.isUpToDateReputationOptions cr obs = false ∨
      ConfigurationSet.isUpToDateSendingOptions cr obs = false ∨
      ConfigurationSet.isUpToDateSuppressionOptions cr obs = false ∨
      ConfigurationSet.isUpToDateTrackingOptions cr obs = false)
    (hgroup : ConfigurationSet.isUpToDateSuppressionOptions cr obs = false →
      cr.forProvider.suppressionOptions ≠ none) :
    (ConfigurationSet.update awsclientString ⟨c, some obs⟩ cr).trace ≠ [] := by
  unfold ConfigurationSet.update
  simp only []
  by_cases h1 : ConfigurationSet.isUpToDateDeliveryOptions cr obs = true
  swap
  · obtain ⟨o, ho⟩ := deliveryOptions_isSome_of_drift cr obs h1
    rw [Bool.not_eq_true] at h1
    simp only [h1, ho, Bool.not_false, if_true]
    exact orReturn_call_trace_ne_nil _ _ _ _
  simp only [h1, Bool.not_true, Bool.false_eq_true, if_false, orReturn_ret_none]
  by_cases h2 : ConfigurationSet.isUpToDateReputationOptions cr obs = true
  swap
  · obtain ⟨o, ho⟩ := reputationOptions_isSome_of_drift cr obs h2
    rw [Bool.not_eq_true] at h2
    simp only [h2, ho, Bool.not_false, if_true]
    exact orReturn_call_trace_ne_nil _ _ _ _
  simp only [h2, Bool.not_true, Bool.false_eq_true, if_false, orReturn_ret_none]
  by_cases h3 : ConfigurationSet.isUpToDateSuppressionOptions cr obs = true
  swap
  · rw [Bool.not_eq_true] at h3
    obtain ⟨o, ho⟩ := Option.ne_none_iff_exists'.1 (hgroup h3)
    simp only [h3, ho, Bool.not_false, if_true]
    exact orReturn_call_trace_ne_nil _ _ _ _
  simp only [h3, Bool.not_true, Bool.false_eq_true, if_false, orReturn_ret_none]
  by_cases h4 : ConfigurationSet.isUpToDateTrackingOptions cr obs = true
  swap
  · obtain ⟨o, ho⟩ := trackingOptions_isSome_of_drift cr obs h4
    rw [Bool.not_eq_true] at h4
    simp only [h4, ho, Bool.not_false, if_true]
    exact orReturn_call_trace_ne_nil _ _ _ _
  simp only [h4, Bool.not_true, Bool.false_eq_true, if_false, orReturn_ret_none]
  by_cases h5 : ConfigurationSet.isUpToDateSendingOptions cr obs = true
  swap
  · obtain ⟨o, ho⟩ := sendingOptions_isSome_of_drift cr obs h5
    rw [Bool.not_eq_true] at h5
    simp only [h5, ho, Bool.not_false, if_true]
    exact orReturn_call_trace_ne_nil _ _ _ _
  exfalso
  rw [h1, h2, h3, h4, h5] at hdrift
  simp at hdrift

/-- C4 (amended): when the ConfigurationSet is not being deleted, one of the
five option checks reports drift, and the spec has SuppressionOptions if the
suppression check is among them, `isUpToDate` returns false without an error
and `hooks.update`, run with the response as the stored observation, sends at
least one Put request. -/
theorem configurationSet_update_sends_on_option_drift
    (areTagsUpToDate : List Tag → List Tag → Bool × Option Err)
    (awsclientString : String → Option String) (c : ConfigurationSet.Client)
    (cr : ConfigurationSet.ConfigurationSet) (obs : ConfigurationSet.GetConfigurationSetOutput)
    (hlive : wasDeleted cr.objectMeta = false)
    (hdrift : ConfigurationSet.isUpToDateDeliveryOptions cr obs = false ∨
      ConfigurationSet.isUpToDateReputationOptions cr obs = false ∨
      ConfigurationSet.isUpToDateSendingOptions cr obs = false ∨
      ConfigurationSet.isUpToDateSuppressionOptions cr obs = false ∨
      ConfigurationSet.isUpToDateTrackingOptions cr obs = false)
    (hgroup : ConfigurationSet.isUpToDateSuppressionOptions cr obs = false →
      cr.forProvider.suppressionOptions ≠ none) :
    ConfigurationSet.isUpToDate areTagsUpToDate cr obs = (false, none) ∧
    ∃ r, r ∈ (ConfigurationSet.update awsclientString ⟨c, some obs⟩ cr).trace := by
  constructor
  · unfold ConfigurationSet.isUpToDate
    rw [hlive]
    rcases hdrift with h | h | h | h | h <;> simp [h]
  · exact List.exists_mem_of_ne_nil _
      (update_sends_of_option_drift awsclientString c cr obs hdrift hgroup)

/-- Witness of C4 (amended): the spec asks for the reason BOUNCE, the response
has no suppressed reason; the hook sends the Put request of the suppression
options. -/
theorem configurationSet_update_sends_on_option_drift_witness :
    ConfigurationSet.isUpToDate exampleAreTagsUpToDate
      (ConfigurationSet.exampleSet (exampleMeta "marketing") (some ⟨some [some "BOUNCE"]⟩))
      (ConfigurationSet.exampleOutput (some ⟨some []⟩)) = (false, none) ∧
    ∃ r, r ∈ (ConfigurationSet.update some
      ⟨ConfigurationSet.acceptingClient, some (ConfigurationSet.exampleOutput (some ⟨some []⟩))⟩
      (ConfigurationSet.exampleSet (exampleMeta "marketing") (some ⟨some [some "BOUNCE"]⟩))).trace :=
  configurationSet_update_sends_on_option_drift exampleAreTagsUpToDate some
    ConfigurationSet.acceptingClient
    (ConfigurationSet.exampleSet (exampleMeta "marketing") (some ⟨some [some "BOUNCE"]⟩))
    (ConfigurationSet.exampleOutput (some ⟨some []⟩))
    (by decide) (by decide) (by decide)

/-- C4 as stated fails: a ConfigurationSet that is not being deleted and whose
only drift is a tag makes `isUpToDate` return false without an error, and
`hooks.update` returns without sending any request. -/
theorem configurationSet_update_tag_drift_sends_nothing :
    wasDeleted ConfigurationSet.taggedSet.objectMeta = false ∧
    ConfigurationSet.isUpToDate exampleAreTagsUpToDate ConfigurationSet.taggedSet
      (ConfigurationSet.exampleOutput none) = (false, none) ∧
    ConfigurationSet.update some
      ⟨ConfigurationSet.acceptingClient, some (ConfigurationSet.exampleOutput none)⟩
      ConfigurationSet.taggedSet = ⟨[], Outcome.returned (ExternalUpdate.mk [], none)⟩ := by
  refine ⟨by decide, by decide, by decide⟩

/-- C5 fails on the code: with no SuppressionOptions in the spec and the
reason BOUNCE in the stored observation the suppression check reports drift,
so the property asks for exactly one request, the Put of the suppression
options with the external name and nil reasons; `hooks.update` instead panics
on the nil pointer before it sends any request, whatever the client would
answer. -/
theorem configurationSet_update_panics_without_suppressionOptions
    (awsclientString : String → Option String) (c : ConfigurationSet.Client) :
    ConfigurationSet.isUpToDateSuppressionOptions
      (ConfigurationSet.exampleSet (exampleMeta "marketing") none)
      (ConfigurationSet.exampleOutput (some ⟨some [some "BOUNCE"]⟩)) = false ∧
    ConfigurationSet.plannedPuts awsclientString
      (ConfigurationSet.exampleSet (exampleMeta "marketing") none)
      (ConfigurationSet.exampleOutput (some ⟨some [some "BOUNCE"]⟩)) =
      [(ConfigurationSet.Request.putSuppressionOptions ⟨awsclientString "marketing", none⟩,
        "update failed for ConfigurationSetSuppressionOptions")] ∧
    ConfigurationSet.update awsclientString
      ⟨c, some (ConfigurationSet.exampleOutput (some ⟨some [some "BOUNCE"]⟩))⟩
      (ConfigurationSet.exampleSet (exampleMeta "marketing") none) = ⟨[], Outcome.panicked⟩ := by
  refine ⟨by decide, ?_, rfl⟩
  have hname : mapGet (exampleMeta "marketing").annotationMap annotationKeyExternalName
      = "marketing" := by decide
  unfold ConfigurationSet.plannedPuts
  simp only [ConfigurationSet.exampleSet, hname]
  rfl

/-! ## Properties of the RDSInstance controller -/

theorem Run.bind_ret {ρ α β : Type} (a : α) (k : α → Run ρ β) : (Run.ret a).bind k = k a := by
  simp [Run.bind, Run.ret]

theorem Run.bind_call {ρ α β : Type} (r : ρ) (a : α) (k : α → Run ρ β) :
    (Run.call r a).bind k = ⟨r :: (k a).trace, (k a).outcome⟩ := by
  simp [Run.bind, Run.call]

theorem Run.bind_of_returned {ρ α β : Type} (x : Run ρ α) (k : α → Run ρ β) (a : α)
    (h : x.outcome = Outcome.returned a) :
    x.bind k = ⟨x.trace ++ (k a).trace, (k a).outcome⟩ := by
  simp [Run.bind, h]

theorem Run.bind_of_panicked {ρ α β : Type} (x : Run ρ α) (k : α → Run ρ β)
    (h : x.outcome = Outcome.panicked) : x.bind k = ⟨x.trace, Outcome.panicked⟩ := by
  simp [Run.bind, h]

theorem observePassword_cases (e : Database.External) (cr : Database.RDSInstance) :
    (∃ x, (Database.observePassword e cr).outcome = Outcome.returned (Except.error x) ∧
      ∀ ev ∈ (Database.observePassword e cr).trace, ev.isKubeGet = true) ∨
    ((Database.observePassword e cr).outcome =
        Outcome.returned (Except.ok (Database.pwdChanged e cr)) ∧
      ∀ ev ∈ (Database.observePassword e cr).trace, ev.isKubeGet = true) := by
  unfold Database.observePassword Database.pwdChanged
  rcases hm : cr.forProvider.masterPasswordSecretRef with _ | m <;>
    rcases hw : cr.writeConnectionSecretToReference with _ | w <;>
    simp only [Run.bind_call, Database.getPassword]
  · right; simp [Run.ret]
  · right; simp [Run.ret]
  · right; simp [Run.ret]
  · rcases hg : e.kube.get ⟨m.name, m.ns⟩ with x | sec
    · left
      exact ⟨x, by simp [Run.ret], by simp [Run.ret, Database.Event.isKubeGet]⟩
    · right
      rcases hg2 : e.kube.get ⟨w.name, w.ns⟩ with y | sec2 <;>
        simp [Run.ret, Database.Event.isKubeGet, Database.secretValue]

/-- C2: when `Observe` sends the describe request and it fails with `err`,
`Observe` returns the zero observation, with a nil error if
`rds.IsErrorNotFound` holds of `err` and otherwise with `err` wrapped with the
message "cannot describe RDS instance"; the resource is left as it was, and no
write on the custom resource is sent. -/
theorem observe_describe_failed (rds : Database.Rds) (e : Database.External)
    (cr : Database.RDSInstance) (err : Err)
    (hsent : Database.Event.describeDBInstances (Database.describeOf cr) ∈
      (Database.Observe rds e cr).trace)
    (hdesc : e.client.describeDBInstances (Database.describeOf cr) = Except.error err) :
    (Database.Observe rds e cr).outcome =
      Outcome.returned (cr, ExternalObservation.zero,
        if rds.isErrorNotFound (some err) then none
        else some (Err.wrap err "cannot describe RDS instance")) ∧
    ∀ written, Database.Event.kubeUpdate written ∉ (Database.Observe rds e cr).trace := by
  unfold Database.describeOf at hsent hdesc
  unfold Database.Observe at hsent ⊢
  simp only [] at hsent ⊢
  rcases observePassword_cases e cr with ⟨x, hp, ht⟩ | ⟨hp, ht⟩
  · exfalso
    rw [Run.bind_of_returned _ _ _ hp] at hsent
    simp only [Run.ret, List.append_nil] at hsent
    exact absurd (ht _ hsent) (by simp [Database.Event.isKubeGet])
  · rw [Run.bind_of_returned _ _ _ hp]
    simp only [hdesc, Run.bind_call]
    constructor
    · cases hnf : rds.isErrorNotFound (some err) <;>
        simp [Run.ret, errorsWrap, resourceIgnore, hnf, Database.errDescribeFailed]
    · intro written hmem
      simp only [Run.ret, List.mem_append, List.mem_cons, List.mem_nil_iff, or_false] at hmem
      rcases hmem with hmem | hmem
      · exact absurd (ht _ hmem) (by simp [Database.Event.isKubeGet])
      · cases hmem

/-- Witness of C2: the describe request is answered with the not-found error;
`Observe` returns the zero observation and a nil error. -/
theorem observe_describe_failed_witness :
    (Database.Observe Database.exampleRds
      ⟨Database.exampleClient (Except.error Database.notFound) none,
        Database.exampleKube "s3cret" "s3cret"⟩
      (Database.exampleInstance "available")).outcome =
      Outcome.returned (Database.exampleInstance "available", ExternalObservation.zero,
        if Database.exampleRds.isErrorNotFound (some Database.notFound) then none
        else some (Err.wrap Database.notFound "cannot describe RDS instance")) :=
  (observe_describe_failed Database.exampleRds
    ⟨Database.exampleClient (Except.error Database.notFound) none,
      Database.exampleKube "s3cret" "s3cret"⟩
    (Database.exampleInstance "available") Database.notFound (by decide) rfl).1

theorem observeStatus_forProvider (x : Database.RDSInstance) :
    (Database.observeStatus x).forProvider = x.forProvider := by
  unfold Database.observeStatus Database.setBindable
  split_ifs <;> rfl

theorem observeInstance_success (rds : Database.Rds) (e : Database.External)
    (cr : Database.RDSInstance) (b : Bool) (inst : Database.DBInstance) (upToDate : Bool)
    (hwrite : rds.lateInitialize cr.forProvider inst ≠ cr.forProvider →
      e.kube.update { cr with forProvider := rds.lateInitialize cr.forProvider inst } = none)
    (hup : rds.isUpToDate (rds.lateInitialize cr.forProvider inst) inst = Except.ok upToDate) :
    ∃ after obs, (Database.observeInstance rds e cr b inst).outcome =
        Outcome.returned (after, obs, none) ∧
      obs.resourceExists = true ∧ obs.resourceUpToDate = (upToDate && !b) := by
  unfold Database.observeInstance
  simp only [observeStatus_forProvider, hup]
  by_cases hc : cr.forProvider ≠ rds.lateInitialize cr.forProvider inst
  · simp only [if_pos hc, hwrite (Ne.symm hc), Run.bind_call]
    exact ⟨_, _, rfl, rfl, rfl⟩
  · simp only [if_neg hc, Run.bind_ret]
    exact ⟨_, _, rfl, rfl, rfl⟩

/-- C1: when `Observe` sends the describe request, the request returns at
least one instance, the write of the late-initialised spec (if one is needed)
succeeds and `rds.IsUpToDate` answers `upToDate` for the late-initialised spec
and the first instance, then `Observe` returns without an error an observation
with ResourceExists true and ResourceUpToDate equal to `upToDate` and not
`pwdChanged`; when one of the two secret references is unset, `pwdChanged` is
false and ResourceUpToDate is `upToDate`. -/
theorem observe_success_upToDate (rds : Database.Rds) (e : Database.External)
    (cr : Database.RDSInstance) (inst : Database.DBInstance) (others : List Database.DBInstance)
    (upToDate : Bool)
    (hsent : Database.Event.describeDBInstances (Database.describeOf cr) ∈
      (Database.Observe rds e cr).trace)
    (hdesc : e.client.describeDBInstances (Database.describeOf cr) = Except.ok (inst :: others))
    (hwrite : rds.lateInitialize cr.forProvider inst ≠ cr.forProvider →
      e.kube.update { cr with forProvider := rds.lateInitialize cr.forProvider inst } = none)
    (hup : rds.isUpToDate (rds.lateInitialize cr.forProvider inst) inst = Except.ok upToDate) :
    ∃ after obs, (Database.Observe rds e cr).outcome = Outcome.returned (after, obs, none) ∧
      obs.resourceExists = true ∧
      obs.resourceUpToDate = (upToDate && !Database.pwdChanged e cr) ∧
      ((cr.forProvider.masterPasswordSecretRef = none ∨ cr.writeConnectionSecretToReference = none) →
        Database.pwdChanged e cr = false ∧ obs.resourceUpToDate = upToDate) := by
  unfold Database.describeOf at hsent hdesc
  unfold Database.Observe at hsent ⊢
  simp only [] at hsent ⊢
  rcases observePassword_cases e cr with ⟨x, hp, ht⟩ | ⟨hp, ht⟩
  · exfalso
    rw [Run.bind_of_returned _ _ _ hp] at hsent
    simp only [Run.ret, List.append_nil] at hsent
    exact absurd (ht _ hsent) (by simp [Database.Event.isKubeGet])
  · rw [Run.bind_of_returned _ _ _ hp]
    simp only [hdesc, Run.bind_call]
    obtain ⟨after, obs, ho, hex, hud⟩ :=
      observeInstance_success rds e cr (Database.pwdChanged e cr) inst upToDate hwrite hup
    refine ⟨after, obs, ho, hex, hud, ?_⟩
    intro hunset
    have hfalse : Database.pwdChanged e cr = false := by
      unfold Database.pwdChanged
      rcases hunset with h | h
      · rw [h]
      · rw [h]
        cases cr.forProvider.masterPasswordSecretRef <;> rfl
    exact ⟨hfalse, by rw [hud, hfalse]; simp⟩

/-- Witness of C1: the master password differs from the saved one, so the
resource is reported as not up to date although its spec is up to date. -/
theorem observe_success_upToDate_witness :
    ∃ after obs, (Database.Observe Database.exampleRds
      ⟨Database.exampleClient (Except.ok [Database.exampleDBInstance "available"]) none,
        Database.exampleKube "s3cret" "old"⟩
      (Database.exampleInstance "creating")).outcome = Outcome.returned (after, obs, none) ∧
      obs.resourceExists = true ∧
      obs.resourceUpToDate = (true && !Database.pwdChanged
        ⟨Database.exampleClient (Except.ok [Database.exampleDBInstance "available"]) none,
          Database.exampleKube "s3cret" "old"⟩ (Database.exampleInstance "creating")) ∧
      obs.resourceUpToDate = false := by
  obtain ⟨after, obs, h1, h2, h3, _⟩ := observe_success_upToDate Database.exampleRds
    ⟨Database.exampleClient (Except.ok [Database.exampleDBInstance "available"]) none,
      Database.exampleKube "s3cret" "old"⟩
    (Database.exampleInstance "creating") (Database.exampleDBInstance "available") [] true
    (by decide) rfl (fun h => absurd rfl h) rfl
  exact ⟨after, obs, h1, h2, h3, by rw [h3]; decide⟩

/-- C3: for an RDSInstance whose observed status is not "deleting" and any
result of the embedded `Update` that `rds.IsErrorNotFound` does not hold of,
`Delete` sends the delete request right after the events of `Update`, and
returns nil when the request succeeds or fails with a not-found error, and
otherwise the error of the request wrapped with "cannot delete RDS instance";
the result of `Update` does not occur in it. -/
theorem delete_sends_after_update (rds : Database.Rds) (e : Database.External)
    (cr : Database.RDSInstance) (u : ExternalUpdate × Option Err)
    (hstatus : cr.atProvider.dbInstanceStatus ≠ "deleting")
    (hupd : (Database.Update rds e (Database.markedDeleting cr)).outcome = Outcome.returned u)
    (hnf : rds.isErrorNotFound u.2 = false) :
    (Database.Delete rds e cr).trace =
      (Database.Update rds e (Database.markedDeleting cr)).trace ++
        [Database.Event.deleteDBInstance (Database.deleteInputOf cr)] ∧
    (Database.Delete rds e cr).outcome =
      Outcome.returned (Database.markedDeleting cr,
        match e.client.deleteDBInstance (Database.deleteInputOf cr) with
        | none => none
        | some d =>
          if rds.isErrorNotFound (some d) then none
          else some (Err.wrap d "cannot delete RDS instance")) := by
  unfold Database.Delete
  have hs : ¬ cr.atProvider.dbInstanceStatus = Database.rdsInstanceStateDeleting := hstatus
  simp only []
  rw [show ({ cr with conditions := setConditions cr.conditions Condition.deleting } :
      Database.RDSInstance) = Database.markedDeleting cr from rfl]
  rw [if_neg hs, Run.bind_of_returned _ _ _ hupd]
  simp only [hnf, Bool.false_eq_true, if_false, Run.bind_call, Run.ret]
  refine ⟨rfl, ?_⟩
  unfold Database.deleteInputOf
  rcases hd : e.client.deleteDBInstance _ with _ | d
  · simp [resourceIgnore, errorsWrap]
  · cases hn : rds.isErrorNotFound (some d) <;>
      simp [resourceIgnore, errorsWrap, hn, Database.errDeleteFailed]

/-- Witness of C3: the describe request of the embedded `Update` is throttled;
`Delete` still sends the delete request, which succeeds, and returns nil. -/
theorem delete_sends_after_update_witness :
    (Database.Delete Database.exampleRds
      ⟨Database.exampleClient (Except.error (Err.base "Throttling")) none,
        Database.exampleKube "s3cret" "s3cret"⟩ (Database.exampleInstance "available")).trace =
      [Database.Event.describeDBInstances (Database.describeOf (Database.exampleInstance "available")),
        Database.Event.deleteDBInstance (Database.deleteInputOf (Database.exampleInstance "available"))] ∧
    (Database.Delete Database.exampleRds
      ⟨Database.exampleClient (Except.error (Err.base "Throttling")) none,
        Database.exampleKube "s3cret" "s3cret"⟩ (Database.exampleInstance "available")).outcome =
      Outcome.returned (Database.markedDeleting (Database.exampleInstance "available"), none) := by
  have h := delete_sends_after_update Database.exampleRds
    ⟨Database.exampleClient (Except.error (Err.base "Throttling")) none,
      Database.exampleKube "s3cret" "s3cret"⟩ (Database.exampleInstance "available")
    (ExternalUpdate.mk [], some (Err.wrap (Err.base "Throttling") "cannot describe RDS instance"))
    (by decide) (by decide) (by decide)
  exact ⟨h.1.trans (by decide), h.2.trans (by decide)⟩

/-! ## How many requests an operation sends -/

theorem Run.bind_count_le {ρ α β : Type} (p : ρ → Bool) (x : Run ρ α) (k : α → Run ρ β) (n m : Nat)
    (hx : (x.trace.filter p).length ≤ n) (hk : ∀ a, ((k a).trace.filter p).length ≤ m) :
    (((x.bind k).trace).filter p).length ≤ n + m := by
  unfold Run.bind
  cases x.outcome with
  | panicked => simp only []; omega
  | returned a =>
    simp only [List.filter_append, List.length_append]
    have := hk a
    omega

theorem observePassword_count (e : Database.External) (cr : Database.RDSInstance) :
    ((Database.observePassword e cr).trace.filter Database.Event.isSdk).length = 0 := by
  have h : ∀ ev ∈ (Database.observePassword e cr).trace, ev.isKubeGet = true := by
    rcases observePassword_cases e cr with ⟨_, _, ht⟩ | ⟨_, ht⟩ <;> exact ht
  rw [List.length_eq_zero, List.filter_eq_nil_iff]
  intro ev hev
  have := h ev hev
  cases ev <;> simp_all [Database.Event.isKubeGet, Database.Event.isSdk]

theorem observeInstance_count (rds : Database.Rds) (e : Database.External)
    (cr : Database.RDSInstance) (b : Bool) (inst : Database.DBInstance) :
    ((Database.observeInstance rds e cr b inst).trace.filter Database.Event.isSdk).length = 0 := by
  unfold Database.observeInstance
  simp only []
  split_ifs
  · simp only [Run.bind_call]
    split <;> [skip; split] <;> rfl
  · simp only [Run.bind_ret]
    split <;> rfl

theorem observe_count (rds : Database.Rds) (e : Database.External) (cr : Database.RDSInstance) :
    (Database.sdkRequests (Database.Observe rds e cr).trace).length ≤ 1 := by
  unfold Database.sdkRequests Database.Observe
  refine (Run.bind_count_le _ _ _ 0 1 (observePassword_count e cr).le ?_).trans (by omega)
  intro p
  cases p with
  | error x => simp [Run.ret]
  | ok b =>
    simp only [Run.bind_call]
    rcases e.client.describeDBInstances _ with x | l
    · simp [Run.ret, Database.Event.isSdk]
    · cases l with
      | nil => simp [Run.crash, Database.Event.isSdk]
      | cons inst rest =>
        simp only [List.filter_cons, Database.Event.isSdk, if_true, List.length_cons]
        have := observeInstance_count rds e cr b inst
        omega

theorem create_count (rds : Database.Rds) (e : Database.External) (cr : Database.RDSInstance) :
    (Database.sdkRequests (Database.Create rds e cr).trace).length ≤ 1 := by
  unfold Database.sdkRequests Database.Create
  simp only []
  split_ifs
  · simp [Run.ret]
  · split
    · simp [Run.ret]
    · refine (Run.bind_count_le _ _ _ 0 1 ?_ ?_).trans (by omega)
      · split
        · simp only [Run.bind_call]
          split <;> simp [Run.ret, Database.Event.isSdk]
        · simp [Run.ret]
      · intro p
        cases p with
        | error x => simp [Run.ret]
        | ok pw =>
          simp only [Run.bind_call]
          split <;> simp [Run.ret, Database.Event.isSdk]

theorem updatePassword_count (e : Database.External) (cr : Database.RDSInstance)
    (modify : Database.ModifyDBInstanceInput) :
    ((Database.updatePassword e cr modify).trace.filter Database.Event.isSdk).length = 0 := by
  unfold Database.updatePassword
  split
  · rfl
  · simp only [Database.getPassword, Run.bind_call]
    split
    · rfl
    · split
      · simp only [Run.bind_ret]
        split <;> rfl
      · simp only [Run.bind, Run.ret]
        split_ifs <;> rfl

theorem updateModify_count (e : Database.External) (cr : Database.RDSInstance)
    (patch : Database.RDSInstanceParameters) (conn : List (String × String))
    (modify : Database.ModifyDBInstanceInput) :
    ((Database.updateModify e cr patch conn modify).trace.filter Database.Event.isSdk).length ≤ 2 := by
  unfold Database.updateModify
  simp only [Run.bind_call]
  split
  · simp [Run.ret, Database.Event.isSdk]
  · split_ifs
    · simp only [Run.bind_call]
      split <;> simp [Run.ret, Database.Event.isSdk]
    · simp [Run.ret, Database.Event.isSdk]

theorem update_count (rds : Database.Rds) (e : Database.External) (cr : Database.RDSInstance) :
    (Database.sdkRequests (Database.Update rds e cr).trace).length ≤ 3 := by
  unfold Database.sdkRequests Database.Update
  split_ifs
  · simp [Run.ret]
  · simp only [Run.bind_call]
    rcases e.client.describeDBInstances _ with x | l
    · simp [Run.ret, Database.Event.isSdk]
    · cases l with
      | nil => simp [Run.crash, Database.Event.isSdk]
      | cons inst rest =>
        simp only [List.filter_cons, Database.Event.isSdk, if_true, List.length_cons]
        rcases rds.createPatch inst cr.forProvider with x | patch
        · simp [Run.ret]
        · simp only []
          have h := Run.bind_count_le Database.Event.isSdk
            (Database.updatePassword e cr
              (rds.generateModifyDBInstanceInput (getExternalName cr.objectMeta) patch))
            (fun p =>
              match p with
              | Except.error err =>
                Run.ret (ExternalUpdate.mk [], errorsWrap (some err) Database.errGetPasswordSecretFailed)
              | Except.ok (conn, modify1) => Database.updateModify e cr patch conn modify1)
            0 2 (updatePassword_count e cr _).le
            (by
              intro p
              rcases p with x | ⟨conn, m1⟩
              · simp [Run.ret]
              · exact updateModify_count e cr patch conn m1)
          omega

theorem delete_count (rds : Database.Rds) (e : Database.External) (cr : Database.RDSInstance) :
    (Database.sdkRequests (Database.Delete rds e cr).trace).length ≤ 4 := by
  unfold Database.Delete
  simp only []
  split_ifs
  · simp [Run.ret, Database.sdkRequests]
  · unfold Database.sdkRequests
    refine (Run.bind_count_le _ _ _ 3 1 (update_count rds e _) ?_).trans (by omega)
    intro u
    split_ifs
    · simp [Run.ret]
    · simp [Run.bind_call, Run.ret, Database.Event.isSdk]

theorem serviceLinkedRole_create_count (conv : ServiceLinkedRole.Conversions)
    (e : ServiceLinkedRole.External) (cr : ServiceLinkedRole.ServiceLinkedRole) :
    (ServiceLinkedRole.Create conv e cr).trace.length ≤ 1 := by
  unfold ServiceLinkedRole.Create
  simp only []
  split
  · simp [Run.ret]
  · simp only [Run.bind_call]
    split
    · simp [Run.ret]
    · split
      · simp [Run.crash]
      · split
        · simp [Run.crash]
        · simp [Run.ret]

theorem serviceLinkedRole_delete_count (conv : ServiceLinkedRole.Conversions)
    (e : ServiceLinkedRole.External) (cr : ServiceLinkedRole.ServiceLinkedRole) :
    (ServiceLinkedRole.Delete conv e cr).trace.length ≤ 1 := by
  unfold ServiceLinkedRole.Delete
  simp only []
  split
  · simp [Run.ret]
  · split_ifs
    · simp [Run.ret]
    · simp [Run.bind_call, Run.ret]

theorem orReturn_both (c : ConfigurationSet.Client)
    (step : Run ConfigurationSet.Request (Option Err)) (msg : String)
    (next : Run ConfigurationSet.Request (ExternalUpdate × Option Err)) (n : Nat)
    (hs : ConfigurationSet.SingleStep c step)
    (hn : next.trace.length ≤ n ∧ ConfigurationSet.FailuresReturned c next) :
    (ConfigurationSet.orReturn step msg next).trace.length ≤ n + 1 ∧
      ConfigurationSet.FailuresReturned c (ConfigurationSet.orReturn step msg next) := by
  refine ⟨?_, orReturn_failuresReturned c step msg next hs hn.2⟩
  have := orReturn_trace_length c step msg next hs
  omega

theorem configurationSet_update_both (awsclientString : String → Option String)
    (c : ConfigurationSet.Client) (stored : Option ConfigurationSet.GetConfigurationSetOutput)
    (cr : ConfigurationSet.ConfigurationSet) :
    (ConfigurationSet.update awsclientString ⟨c, stored⟩ cr).trace.length ≤ 5 ∧
      ConfigurationSet.FailuresReturned c (ConfigurationSet.update awsclientString ⟨c, stored⟩ cr) := by
  unfold ConfigurationSet.update
  cases stored with
  | none =>
    refine ⟨by simp [Run.crash], ?_⟩
    intro r hr
    simp [Run.crash] at hr
  | some obs =>
    simp only []
    have hbase : (Run.ret (ExternalUpdate.mk [], none) :
          Run ConfigurationSet.Request (ExternalUpdate × Option Err)).trace.length ≤ 0 ∧
        ConfigurationSet.FailuresReturned c (Run.ret (ExternalUpdate.mk [], none)) := by
      refine ⟨by simp [Run.ret], ?_⟩
      intro r hr
      simp [Run.ret] at hr
    refine orReturn_both c _ _ _ 4 ?_ (orReturn_both c _ _ _ 3 ?_ (orReturn_both c _ _ _ 2 ?_
      (orReturn_both c _ _ _ 1 ?_ (orReturn_both c _ _ _ 0 ?_ hbase))))
    all_goals
      split_ifs
      · split
        · exact Or.inr (Or.inl rfl)
        · exact Or.inr (Or.inr ⟨_, rfl⟩)
      · exact Or.inl rfl

/-- C6 as stated fails: `Update` of an available RDS instance whose describe
and modify requests succeed sends both of them, two requests to the AWS SDK. -/
theorem rds_update_sends_two_requests :
    Database.sdkRequests (Database.Update Database.exampleRds
      ⟨Database.exampleClient (Except.ok [Database.exampleDBInstance "available"]) none,
        Database.exampleKube "s3cret" "s3cret"⟩ (Database.exampleInstance "available")).trace =
      [Database.Event.describeDBInstances ⟨some "orders-db"⟩,
        Database.Event.modifyDBInstance ⟨none, [("DBInstanceIdentifier", "orders-db")]⟩] ∧
    ¬ (Database.sdkRequests (Database.Update Database.exampleRds
      ⟨Database.exampleClient (Except.ok [Database.exampleDBInstance "available"]) none,
        Database.exampleKube "s3cret" "s3cret"⟩ (Database.exampleInstance "available")).trace).length
        ≤ 1 := by
  refine ⟨by decide, by decide⟩

/-- C6 (amended): `Observe` and `Create` of the RDS controller and `Create` and
`Delete` of the ServiceLinkedRole controller send at most one request to the
AWS SDK; `Update` of the RDS controller sends at most three (describe, modify,
add tags), `Delete` of the RDS controller at most four (those of its embedded
`Update` and the delete request), and `hooks.update` of the ConfigurationSet
controller at most five (one Put per option group). -/
theorem sdk_requests_per_operation (rds : Database.Rds) (e : Database.External)
    (cr : Database.RDSInstance) (conv : ServiceLinkedRole.Conversions)
    (se : ServiceLinkedRole.External) (role : ServiceLinkedRole.ServiceLinkedRole)
    (awsclientString : String → Option String) (h : ConfigurationSet.Hooks)
    (cs : ConfigurationSet.ConfigurationSet) :
    (Database.sdkRequests (Database.Observe rds e cr).trace).length ≤ 1 ∧
    (Database.sdkRequests (Database.Create rds e cr).trace).length ≤ 1 ∧
    (Database.sdkRequests (Database.Update rds e cr).trace).length ≤ 3 ∧
    (Database.sdkRequests (Database.Delete rds e cr).trace).length ≤ 4 ∧
    (ServiceLinkedRole.Create conv se role).trace.length ≤ 1 ∧
    (ServiceLinkedRole.Delete conv se role).trace.length ≤ 1 ∧
    (ConfigurationSet.update awsclientString h cs).trace.length ≤ 5 :=
  ⟨observe_count rds e cr, create_count rds e cr, update_count rds e cr, delete_count rds e cr,
    serviceLinkedRole_create_count conv se role, serviceLinkedRole_delete_count conv se role,
    (configurationSet_update_both awsclientString h.client h.configurationSetObservation cs).1⟩

/-! ## What an operation returns when a request fails -/

theorem sdkError_isSdk (c : Database.Client) (ev : Database.Event) (x : Err)
    (h : Database.sdkError c ev = some x) : ev.isSdk = true := by
  cases ev <;> simp_all [Database.sdkError, Database.Event.isSdk]

theorem sdkError_none_of_count {c : Database.Client} {t : List Database.Event}
    (h : (t.filter Database.Event.isSdk).length = 0) :
    ∀ ev ∈ t, Database.sdkError c ev = none := by
  intro ev hev
  rw [List.length_eq_zero, List.filter_eq_nil_iff] at h
  cases hs : Database.sdkError c ev with
  | none => rfl
  | some x => exact absurd (sdkError_isSdk c ev x hs) (h ev hev)

theorem failuresReturned_bind {α β : Type} (c : Database.Client) (errOf : β → Option Err)
    (x : Run Database.Event α) (k : α → Run Database.Event β)
    (hx : ∀ ev ∈ x.trace, Database.sdkError c ev = none)
    (hk : ∀ a, Database.FailuresReturned c errOf (k a)) :
    Database.FailuresReturned c errOf (x.bind k) := by
  intro ev hev y hy
  unfold Run.bind at hev ⊢
  cases ho : x.outcome with
  | panicked =>
    simp only [ho] at hev
    rw [hx ev hev] at hy
    cases hy
  | returned a =>
    simp only [ho, List.mem_append] at hev ⊢
    rcases hev with hev | hev
    · rw [hx ev hev] at hy
      cases hy
    · exact hk a ev hev y hy

theorem failuresReturned_call {α β : Type} (c : Database.Client) (errOf : β → Option Err)
    (ev0 : Database.Event) (ans : α) (k : α → Run Database.Event β)
    (hok : Database.sdkError c ev0 = none → Database.FailuresReturned c errOf (k ans))
    (herr : ∀ x, Database.sdkError c ev0 = some x → (k ans).trace = [] ∧
      ∃ a err, (k ans).outcome = Outcome.returned a ∧ errOf a = some err ∧ err.wraps x = true) :
    Database.FailuresReturned c errOf ((Run.call ev0 ans).bind k) := by
  rw [Run.bind_call]
  intro ev hev y hy
  simp only [List.mem_cons] at hev
  cases h0 : Database.sdkError c ev0 with
  | none =>
    rcases hev with rfl | hev
    · rw [h0] at hy; cases hy
    · exact hok h0 ev hev y hy
  | some x =>
    obtain ⟨ht, hres⟩ := herr x h0
    rcases hev with rfl | hev
    · rw [h0] at hy
      cases hy
      exact hres
    · rw [ht] at hev
      cases hev

theorem failuresReturned_ret {α : Type} (c : Database.Client) (errOf : α → Option Err) (a : α) :
    Database.FailuresReturned c errOf (Run.ret a) := by
  intro ev hev
  simp [Run.ret] at hev

theorem failuresReturned_crash {α : Type} (c : Database.Client) (errOf : α → Option Err) :
    Database.FailuresReturned c errOf (Run.crash : Run Database.Event α) := by
  intro ev hev
  simp [Run.crash] at hev

theorem create_failuresReturned (rds : Database.Rds) (e : Database.External)
    (cr : Database.RDSInstance) :
    Database.FailuresReturned e.client (fun r => r.2.2) (Database.Create rds e cr) := by
  unfold Database.Create
  simp only []
  split_ifs
  · exact failuresReturned_ret _ _ _
  · split
    · exact failuresReturned_ret _ _ _
    · refine failuresReturned_bind _ _ _ _ ?_ ?_
      · apply sdkError_none_of_count
        split
        · simp only [Run.bind_call]
          split <;> simp [Run.ret, Database.Event.isSdk]
        · simp [Run.ret]
      · intro p
        cases p with
        | error x => exact failuresReturned_ret _ _ _
        | ok pw =>
          simp only []
          refine failuresReturned_call _ _ _ _ _ ?_ ?_
          · intro h0
            simp only [Database.sdkError] at h0
            rw [h0]
            exact failuresReturned_ret _ _ _
          · intro x h0
            simp only [Database.sdkError] at h0
            rw [h0]
            exact ⟨rfl, _, _, rfl, rfl, Err.wraps_wrap _ _⟩

theorem updateModify_failuresReturned (e : Database.External) (cr : Database.RDSInstance)
    (patch : Database.RDSInstanceParameters) (conn : List (String × String))
    (modify : Database.ModifyDBInstanceInput) :
    Database.FailuresReturned e.client (fun r => r.2)
      (Database.updateModify e cr patch conn modify) := by
  unfold Database.updateModify
  refine failuresReturned_call _ _ _ _ _ ?_ ?_
  · intro h0
    simp only [Database.sdkError] at h0
    rw [h0]
    simp only []
    split_ifs
    · refine failuresReturned_call _ _ _ _ _ ?_ ?_
      · intro h1
        simp only [Database.sdkError] at h1
        rw [h1]
        exact failuresReturned_ret _ _ _
      · intro x h1
        simp only [Database.sdkError] at h1
        rw [h1]
        exact ⟨rfl, _, _, rfl, rfl, Err.wraps_wrap _ _⟩
    · exact failuresReturned_ret _ _ _
  · intro x h0
    simp only [Database.sdkError] at h0
    rw [h0]
    exact ⟨rfl, _, _, rfl, rfl, Err.wraps_wrap _ _⟩

theorem update_failuresReturned (rds : Database.Rds) (e : Database.External)
    (cr : Database.RDSInstance) :
    Database.FailuresReturned e.client (fun r => r.2) (Database.Update rds e cr) := by
  unfold Database.Update
  split_ifs
  · exact failuresReturned_ret _ _ _
  · simp only []
    refine failuresReturned_call _ _ _ _ _ ?_ ?_
    · intro h0
      simp only [Database.sdkError] at h0
      rcases hd : e.client.describeDBInstances ⟨some (getExternalName cr.objectMeta)⟩ with x | l
      · rw [hd] at h0; cases h0
      · cases l with
        | nil => exact failuresReturned_crash _ _
        | cons inst rest =>
          simp only []
          rcases rds.createPatch inst cr.forProvider with x | patch
          · exact failuresReturned_ret _ _ _
          · simp only []
            refine failuresReturned_bind _ _ _ _
              (sdkError_none_of_count (updatePassword_count e cr _)) ?_
            intro p
            rcases p with x | ⟨conn, m1⟩
            · exact failuresReturned_ret _ _ _
            · exact updateModify_failuresReturned e cr patch conn m1
    · intro x h0
      simp only [Database.sdkError] at h0
      rcases hd : e.client.describeDBInstances ⟨some (getExternalName cr.objectMeta)⟩ with y | l
      · rw [hd] at h0
        cases h0
        exact ⟨rfl, _, _, rfl, rfl, Err.wraps_wrap _ _⟩
      · rw [hd] at h0; cases h0

theorem observe_failure_returned (rds : Database.Rds) (e : Database.External)
    (cr : Database.RDSInstance) (ev : Database.Event) (x : Err)
    (hev : ev ∈ (Database.Observe rds e cr).trace)
    (hx : Database.sdkError e.client ev = some x)
    (hnf : rds.isErrorNotFound (some x) = false) :
    (Database.Observe rds e cr).outcome =
      Outcome.returned (cr, ExternalObservation.zero,
        some (Err.wrap x "cannot describe RDS instance")) := by
  have hpw := sdkError_none_of_count (c := e.client) (observePassword_count e cr)
  unfold Database.Observe at hev ⊢
  simp only [] at hev ⊢
  rcases observePassword_cases e cr with ⟨y, hp, _⟩ | ⟨hp, _⟩
  · exfalso
    rw [Run.bind_of_returned _ _ _ hp] at hev
    simp only [Run.ret, List.append_nil] at hev
    rw [hpw ev hev] at hx
    cases hx
  · rw [Run.bind_of_returned _ _ _ hp] at hev ⊢
    simp only [Run.bind_call, List.mem_append, List.mem_cons] at hev ⊢
    rcases hd : e.client.describeDBInstances ⟨some (getExternalName cr.objectMeta)⟩ with y | l
    · simp only [hd, Run.ret, List.not_mem_nil, or_false] at hev ⊢
      rcases hev with hev | rfl
      · rw [hpw ev hev] at hx; cases hx
      · simp only [Database.sdkError, hd] at hx
        cases hx
        simp [resourceIgnore, hnf, errorsWrap, Database.errDescribeFailed]
    · exfalso
      have hno : Database.sdkError e.client ev = none := by
        rcases hev with hev | rfl | hev
        · exact hpw ev hev
        · simp [Database.sdkError, hd]
        · rw [hd] at hev
          cases l with
          | nil => simp [Run.crash] at hev
          | cons inst rest => exact sdkError_none_of_count (observeInstance_count rds e cr _ inst) ev hev
      rw [hno] at hx
      cases hx

theorem updatePassword_no_delete (e : Database.External) (cr : Database.RDSInstance)
    (modify : Database.ModifyDBInstanceInput) :
    ((Database.updatePassword e cr modify).trace.filter Database.Event.isDelete).length = 0 := by
  unfold Database.updatePassword
  split
  · rfl
  · simp only [Database.getPassword, Run.bind_call]
    split
    · rfl
    · split
      · simp only [Run.bind_ret]
        split <;> rfl
      · simp only [Run.bind, Run.ret]
        split_ifs <;> rfl

theorem updateModify_no_delete (e : Database.External) (cr : Database.RDSInstance)
    (patch : Database.RDSInstanceParameters) (conn : List (String × String))
    (modify : Database.ModifyDBInstanceInput) :
    ((Database.updateModify e cr patch conn modify).trace.filter Database.Event.isDelete).length
      = 0 := by
  unfold Database.updateModify
  simp only [Run.bind_call]
  split
  · simp [Run.ret, Database.Event.isDelete]
  · split_ifs
    · simp only [Run.bind_call]
      split <;> simp [Run.ret, Database.Event.isDelete]
    · simp [Run.ret, Database.Event.isDelete]

theorem update_no_delete (rds : Database.Rds) (e : Database.External) (cr : Database.RDSInstance)
    (i : Database.DeleteDBInstanceInput) :
    Database.Event.deleteDBInstance i ∉ (Database.Update rds e cr).trace := by
  have hcount : ((Database.Update rds e cr).trace.filter Database.Event.isDelete).length = 0 := by
    unfold Database.Update
    split_ifs
    · simp [Run.ret]
    · simp only [Run.bind_call]
      rcases e.client.describeDBInstances _ with x | l
      · simp [Run.ret, Database.Event.isDelete]
      · cases l with
        | nil => simp [Run.crash, Database.Event.isDelete]
        | cons inst rest =>
          simp only [List.filter_cons, Database.Event.isDelete, Bool.false_eq_true, if_false]
          rcases rds.createPatch inst cr.forProvider with x | patch
          · simp [Run.ret]
          · simp only []
            have h := Run.bind_count_le Database.Event.isDelete
              (Database.updatePassword e cr
                (rds.generateModifyDBInstanceInput (getExternalName cr.objectMeta) patch))
              (fun p =>
                match p with
                | Except.error err =>
                  Run.ret (ExternalUpdate.mk [],
                    errorsWrap (some err) Database.errGetPasswordSecretFailed)
                | Except.ok (conn, modify1) => Database.updateModify e cr patch conn modify1)
              0 0 (updatePassword_no_delete e cr _).le
              (by
                intro p
                rcases p with x | ⟨conn, m1⟩
                · simp [Run.ret]
                · exact (updateModify_no_delete e cr patch conn m1).le)
            omega
  intro hmem
  rw [List.length_eq_zero, List.filter_eq_nil_iff] at hcount
  exact hcount _ hmem rfl

theorem delete_failure_returned (rds : Database.Rds) (e : Database.External)
    (cr : Database.RDSInstance) (i : Database.DeleteDBInstanceInput) (x : Err)
    (hev : Database.Event.deleteDBInstance i ∈ (Database.Delete rds e cr).trace)
    (hx : e.client.deleteDBInstance i = some x)
    (hnf : rds.isErrorNotFound (some x) = false) :
    (Database.Delete rds e cr).outcome =
      Outcome.returned (Database.markedDeleting cr,
        some (Err.wrap x "cannot delete RDS instance")) := by
  unfold Database.Delete at hev ⊢
  simp only [] at hev ⊢
  rw [show ({ cr with conditions := setConditions cr.conditions Condition.deleting } :
      Database.RDSInstance) = Database.markedDeleting cr from rfl] at hev ⊢
  split_ifs at hev ⊢ with hs
  · simp [Run.ret] at hev
  · cases ho : (Database.Update rds e (Database.markedDeleting cr)).outcome with
    | panicked =>
      rw [Run.bind_of_panicked _ _ ho] at hev
      exact absurd hev (update_no_delete rds e _ i)
    | returned u =>
      rw [Run.bind_of_returned _ _ _ ho] at hev ⊢
      simp only [List.mem_append] at hev
      rcases hev with hev | hev
      · exact absurd hev (update_no_delete rds e _ i)
      · split_ifs at hev ⊢ with hu
        · simp [Run.ret] at hev
        · simp only [Run.bind_call, Run.ret, List.mem_singleton, Database.Event.deleteDBInstance.injEq]
            at hev ⊢
          subst hev
          simp [hx, resourceIgnore, hnf, errorsWrap, Database.errDeleteFailed]

theorem serviceLinkedRole_create_failure (conv : ServiceLinkedRole.Conversions)
    (e : ServiceLinkedRole.External) (cr : ServiceLinkedRole.ServiceLinkedRole)
    (i : ServiceLinkedRole.CreateServiceLinkedRoleInput) (x : Err)
    (hev : ServiceLinkedRole.Request.createServiceLinkedRole i ∈
      (ServiceLinkedRole.Create conv e cr).trace)
    (hx : e.client.createServiceLinkedRole i = Except.error x) :
    ∃ after, (ServiceLinkedRole.Create conv e cr).outcome = Outcome.returned
      (after, ExternalCreation.mk [], some (Err.wrap x "cannot create ServiceLinkedRole in AWS")) := by
  unfold ServiceLinkedRole.Create at hev ⊢
  simp only [] at hev ⊢
  rcases hpre : e.preCreate
      { cr with conditions := setConditions cr.conditions Condition.creating }
      (conv.generateCreateServiceLinkedRoleInput
        { cr with conditions := setConditions cr.conditions Condition.creating })
    with ⟨cr1, input, _ | perr⟩
  swap
  · simp [hpre, Run.ret] at hev
  · simp only [hpre, Run.bind_call, List.mem_cons] at hev ⊢
    rcases hc : e.client.createServiceLinkedRole input with y | resp
    · have hi : i = input := by
        rw [hc] at hev
        simpa [Run.ret] using hev
      subst hi
      rw [hc] at hx
      cases hx
      exact ⟨cr1, by simp [Run.ret, awsclientWrap, errorsWrap, ServiceLinkedRole.errCreate]⟩
    · exfalso
      have hi : i = input := by
        rw [hc] at hev
        rcases hev with h | h
        · simpa using h
        · exfalso
          revert h
          simp only []
          split
          · simp [Run.crash]
          · split <;> simp [Run.crash, Run.ret]
      subst hi
      rw [hc] at hx
      cases hx

theorem serviceLinkedRole_delete_failure (conv : ServiceLinkedRole.Conversions)
    (e : ServiceLinkedRole.External) (cr : ServiceLinkedRole.ServiceLinkedRole)
    (i : ServiceLinkedRole.DeleteServiceLinkedRoleInput) (x : Err)
    (hev : ServiceLinkedRole.Request.deleteServiceLinkedRole i ∈
      (ServiceLinkedRole.Delete conv e cr).trace)
    (hx : (e.client.deleteServiceLinkedRole i).2 = some x)
    (hnf : conv.isNotFound (some x) = false)
    (hpost : ∀ c r err, (e.postDelete c r err).2 = err) :
    ∃ after, (ServiceLinkedRole.Delete conv e cr).outcome = Outcome.returned
      (after, some (Err.wrap x "failed to delete ServiceLinkedRole")) := by
  unfold ServiceLinkedRole.Delete at hev ⊢
  simp only [] at hev ⊢
  rcases hpre : e.preDelete
      { cr with conditions := setConditions cr.conditions Condition.deleting }
      (conv.generateDeleteServiceLinkedRoleInput
        { cr with conditions := setConditions cr.conditions Condition.deleting })
    with ⟨cr1, input, ignore, _ | perr⟩
  swap
  · simp [hpre, Run.ret] at hev
  · simp only [hpre] at hev ⊢
    split_ifs at hev ⊢
    · simp [Run.ret] at hev
    · simp only [Run.bind_call, Run.ret, List.mem_singleton,
        ServiceLinkedRole.Request.deleteServiceLinkedRole.injEq] at hev ⊢
      subst hev
      refine ⟨(e.postDelete cr1 (e.client.deleteServiceLinkedRole i).1
        (awsclientWrap (resourceIgnore conv.isNotFound (e.client.deleteServiceLinkedRole i).2)
          ServiceLinkedRole.errDelete)).1, ?_⟩
      congr 1
      refine Prod.ext rfl ?_
      rw [hpost, hx]
      simp [resourceIgnore, hnf, awsclientWrap, errorsWrap, ServiceLinkedRole.errDelete]

/-- C7 as stated fails: the describe request of the `Update` embedded in
`Delete` of the RDS controller is answered with the error `Throttling`, the
delete request succeeds, and `Delete` returns a nil error. -/
theorem rds_delete_drops_update_error :
    Database.Event.describeDBInstances (Database.describeOf (Database.exampleInstance "available")) ∈
      (Database.Delete Database.exampleRds
        ⟨Database.exampleClient (Except.error (Err.base "Throttling")) none,
          Database.exampleKube "s3cret" "s3cret"⟩ (Database.exampleInstance "available")).trace ∧
    Database.sdkError (Database.exampleClient (Except.error (Err.base "Throttling")) none)
      (Database.Event.describeDBInstances (Database.describeOf (Database.exampleInstance "available")))
      = some (Err.base "Throttling") ∧
    (Database.Delete Database.exampleRds
      ⟨Database.exampleClient (Except.error (Err.base "Throttling")) none,
        Database.exampleKube "s3cret" "s3cret"⟩ (Database.exampleInstance "available")).outcome =
      Outcome.returned (Database.markedDeleting (Database.exampleInstance "available"), none) := by
  refine ⟨by decide, by decide, by decide⟩

/-- C7 (amended): an operation returns a non-nil error that wraps the error of
a request of its own to the AWS SDK, unless it ignores that error by design:
`Observe` of the RDS controller for a describe error that is not a not-found
error; `Create` and `Update` of the RDS controller for every failing request;
`Delete` of the RDS controller for an error of its delete request that is not
a not-found error (the errors of the embedded `Update` are left out);
`Create` of the ServiceLinkedRole controller for an error of the create
request; `Delete` of that controller for an error of the delete request that
is not a not-found error, when the `postDelete` hook hands the error on; and
`hooks.update` of the ConfigurationSet controller for every failing Put. -/
theorem sdk_failures_returned (rds : Database.Rds) (e : Database.External)
    (cr : Database.RDSInstance) (conv : ServiceLinkedRole.Conversions)
    (se : ServiceLinkedRole.External) (role : ServiceLinkedRole.ServiceLinkedRole)
    (awsclientString : String → Option String) (h : ConfigurationSet.Hooks)
    (cs : ConfigurationSet.ConfigurationSet) :
    (∀ ev ∈ (Database.Observe rds e cr).trace, ∀ x, Database.sdkError e.client ev = some x →
      rds.isErrorNotFound (some x) = false →
      ∃ after obs err, (Database.Observe rds e cr).outcome = Outcome.returned (after, obs, some err) ∧
        err.wraps x = true) ∧
    (∀ ev ∈ (Database.Create rds e cr).trace, ∀ x, Database.sdkError e.client ev = some x →
      ∃ after cre err, (Database.Create rds e cr).outcome = Outcome.returned (after, cre, some err) ∧
        err.wraps x = true) ∧
    (∀ ev ∈ (Database.Update rds e cr).trace, ∀ x, Database.sdkError e.client ev = some x →
      ∃ upd err, (Database.Update rds e cr).outcome = Outcome.returned (upd, some err) ∧
        err.wraps x = true) ∧
    (∀ i x, Database.Event.deleteDBInstance i ∈ (Database.Delete rds e cr).trace →
      e.client.deleteDBInstance i = some x → rds.isErrorNotFound (some x) = false →
      ∃ after err, (Database.Delete rds e cr).outcome = Outcome.returned (after, some err) ∧
        err.wraps x = true) ∧
    (∀ i x, ServiceLinkedRole.Request.createServiceLinkedRole i ∈
        (ServiceLinkedRole.Create conv se role).trace →
      se.client.createServiceLinkedRole i = Except.error x →
      ∃ after cre err, (ServiceLinkedRole.Create conv se role).outcome =
          Outcome.returned (after, cre, some err) ∧ err.wraps x = true) ∧
    (∀ i x, ServiceLinkedRole.Request.deleteServiceLinkedRole i ∈
        (ServiceLinkedRole.Delete conv se role).trace →
      (se.client.deleteServiceLinkedRole i).2 = some x → conv.isNotFound (some x) = false →
      (∀ c r err, (se.postDelete c r err).2 = err) →
      ∃ after err, (ServiceLinkedRole.Delete conv se role).outcome =
          Outcome.returned (after, some err) ∧ err.wraps x = true) ∧
    (∀ r ∈ (ConfigurationSet.update awsclientString h cs).trace, ∀ x,
      ConfigurationSet.answer h.client r = some x →
      ∃ upd err, (ConfigurationSet.update awsclientString h cs).outcome =
          Outcome.returned (upd, some err) ∧ err.wraps x = true) := by
  refine ⟨?_, ?_, ?_, ?_, ?_, ?_, ?_⟩
  · intro ev hev x hx hnf
    exact ⟨_, _, _, observe_failure_returned rds e cr ev x hev hx hnf, Err.wraps_wrap _ _⟩
  · intro ev hev x hx
    obtain ⟨⟨a, c, d⟩, err, ho, he, hw⟩ := create_failuresReturned rds e cr ev hev x hx
    simp only at he
    subst he
    exact ⟨a, c, err, ho, hw⟩
  · intro ev hev x hx
    obtain ⟨⟨a, d⟩, err, ho, he, hw⟩ := update_failuresReturned rds e cr ev hev x hx
    simp only at he
    subst he
    exact ⟨a, err, ho, hw⟩
  · intro i x hev hx hnf
    exact ⟨_, _, delete_failure_returned rds e cr i x hev hx hnf, Err.wraps_wrap _ _⟩
  · intro i x hev hx
    obtain ⟨after, ho⟩ := serviceLinkedRole_create_failure conv se role i x hev hx
    exact ⟨after, _, _, ho, Err.wraps_wrap _ _⟩
  · intro i x hev hx hnf hpost
    obtain ⟨after, ho⟩ := serviceLinkedRole_delete_failure conv se role i x hev hx hnf hpost
    exact ⟨after, _, ho, Err.wraps_wrap _ _⟩
  · exact (configurationSet_update_both awsclientString h.client h.configurationSetObservation cs).2

/-- Witness of C7 (amended): every operation run against a client that rejects
its request returns an error that wraps the error of the client. -/
theorem sdk_failures_returned_witness :
    (∃ after obs err,
      (Database.Observe Database.exampleRds
        ⟨Database.failingClient, Database.exampleKube "s3cret" "s3cret"⟩
        (Database.exampleInstance "available")).outcome = Outcome.returned (after, obs, some err) ∧
      err.wraps (Err.base "Throttling") = true) ∧
    (∃ after cre err,
      (Database.Create Database.exampleRds
        ⟨Database.failingClient, Database.exampleKube "s3cret" "s3cret"⟩
        (Database.exampleInstance "available")).outcome = Outcome.returned (after, cre, some err) ∧
      err.wraps (Err.base "InsufficientDBInstanceCapacity") = true) ∧
    (∃ upd err,
      (Database.Update Database.exampleRds
        ⟨Database.failingClient, Database.exampleKube "s3cret" "s3cret"⟩
        (Database.exampleInstance "available")).outcome = Outcome.returned (upd, some err) ∧
      err.wraps (Err.base "Throttling") = true) ∧
    (∃ after err,
      (Database.Delete Database.exampleRds
        ⟨Database.failingClient, Database.exampleKube "s3cret" "s3cret"⟩
        (Database.exampleInstance "available")).outcome = Outcome.returned (after, some err) ∧
      err.wraps (Err.base "InvalidDBInstanceState") = true) ∧
    (∃ after cre err,
      (ServiceLinkedRole.Create ServiceLinkedRole.exampleConversions
        (ServiceLinkedRole.newExternal ServiceLinkedRole.denyingClient [])
        (ServiceLinkedRole.exampleRole "elasticbeanstalk.amazonaws.com")).outcome =
          Outcome.returned (after, cre, some err) ∧
      err.wraps (Err.base "AccessDenied") = true) ∧
    (∃ after err,
      (ServiceLinkedRole.Delete ServiceLinkedRole.exampleConversions
        (ServiceLinkedRole.newExternal ServiceLinkedRole.denyingClient [])
        (ServiceLinkedRole.exampleRole "elasticbeanstalk.amazonaws.com")).outcome =
          Outcome.returned (after, some err) ∧
      err.wraps (Err.base "AccessDenied") = true) ∧
    (∃ upd err,
      (ConfigurationSet.update some
        ⟨ConfigurationSet.rejectingClient, some (ConfigurationSet.exampleOutput (some ⟨some []⟩))⟩
        (ConfigurationSet.exampleSet (exampleMeta "marketing")
          (some ⟨some [some "BOUNCE"]⟩))).outcome = Outcome.returned (upd, some err) ∧
      err.wraps (Err.base "TooManyRequests") = true) := by
  have w := sdk_failures_returned Database.exampleRds
    ⟨Database.failingClient, Database.exampleKube "s3cret" "s3cret"⟩
    (Database.exampleInstance "available") ServiceLinkedRole.exampleConversions
    (ServiceLinkedRole.newExternal ServiceLinkedRole.denyingClient [])
    (ServiceLinkedRole.exampleRole "elasticbeanstalk.amazonaws.com") some
    ⟨ConfigurationSet.rejectingClient, some (ConfigurationSet.exampleOutput (some ⟨some []⟩))⟩
    (ConfigurationSet.exampleSet (exampleMeta "marketing") (some ⟨some [some "BOUNCE"]⟩))
  refine ⟨?_, ?_, ?_, ?_, ?_, ?_, ?_⟩
  · exact w.1 (Database.Event.describeDBInstances ⟨some "orders-db"⟩) (by decide) _ rfl (by decide)
  · exact w.2.1 (Database.Event.createDBInstance
      ⟨[("DBInstanceIdentifier", "orders-db"), ("MasterUserPassword", "s3cret")]⟩) (by decide) _ rfl
  · exact w.2.2.1 (Database.Event.describeDBInstances ⟨some "orders-db"⟩) (by decide) _ rfl
  · exact w.2.2.2.1 ⟨some "orders-db", some true, none⟩ _ (by decide) rfl (by decide)
  · exact w.2.2.2.2.1 ⟨some "elasticbeanstalk.amazonaws.com", none, none⟩ _ (by decide) rfl
  · exact w.2.2.2.2.2.1 ⟨some "AWSServiceRoleForExample"⟩ _ (by decide) rfl (by decide)
      (fun _ _ _ => rfl)
  · exact w.2.2.2.2.2.2 (ConfigurationSet.Request.putSuppressionOptions
      ⟨some "marketing", some [some "BOUNCE"]⟩) (by decide) _ rfl

/-! ## The update hook against the plan of its property -/

theorem orReturn_call_runPlan (c : ConfigurationSet.Client) (r : ConfigurationSet.Request)
    (msg : String) (next : Run ConfigurationSet.Request (ExternalUpdate × Option Err))
    (rest : List (ConfigurationSet.Request × String))
    (h : next = ConfigurationSet.runPlan c rest) :
    ConfigurationSet.orReturn (Run.call r (ConfigurationSet.answer c r)) msg next =
      ConfigurationSet.runPlan c ((r, msg) :: rest) := by
  subst h
  cases ha : ConfigurationSet.answer c r with
  | none => rw [orReturn_call_ok]; simp [ConfigurationSet.runPlan, ha]
  | some x => rw [orReturn_call_err]; simp [ConfigurationSet.runPlan, ha]

theorem orReturn_step_runPlan (c : ConfigurationSet.Client) (b : Bool)
    (r : ConfigurationSet.Request) (msg : String)
    (next : Run ConfigurationSet.Request (ExternalUpdate × Option Err))
    (rest : List (ConfigurationSet.Request × String))
    (h : next = ConfigurationSet.runPlan c rest) :
    ConfigurationSet.orReturn
      (if (!b) = true then Run.call r (ConfigurationSet.answer c r) else Run.ret none) msg next =
    ConfigurationSet.runPlan c ((if b = true then [] else [(r, msg)]) ++ rest) := by
  cases b
  · simpa using orReturn_call_runPlan c r msg next rest h
  · simpa [orReturn_ret_none] using h

theorem update_stepDelivery_runPlan (name : Option String) (c : ConfigurationSet.Client)
    (cr : ConfigurationSet.ConfigurationSet) (obs : ConfigurationSet.GetConfigurationSetOutput)
    (next : Run ConfigurationSet.Request (ExternalUpdate × Option Err))
    (rest : List (ConfigurationSet.Request × String))
    (h : next = ConfigurationSet.runPlan c rest) :
    ConfigurationSet.orReturn
      (if (!ConfigurationSet.isUpToDateDeliveryOptions cr obs) = true then
        match cr.forProvider.deliveryOptions with
        | none => Run.crash
        | some o =>
          Run.call (ConfigurationSet.Request.putDeliveryOptions ⟨name, o.sendingPoolName, o.tlsPolicy⟩)
            (c.putConfigurationSetDeliveryOptions ⟨name, o.sendingPoolName, o.tlsPolicy⟩)
      else Run.ret none)
      "update failed for ConfigurationSetDeliveryOptions" next =
    ConfigurationSet.runPlan c
      ((if ConfigurationSet.isUpToDateDeliveryOptions cr obs = true then []
        else [(ConfigurationSet.Request.putDeliveryOptions ⟨name, cr.forProvider.deliveryOptions.bind (fun o => o.sendingPoolName), cr.forProvider.deliveryOptions.bind (fun o => o.tlsPolicy)⟩,
          "update failed for ConfigurationSetDeliveryOptions")]) ++ rest) := by
  by_cases hb : ConfigurationSet.isUpToDateDeliveryOptions cr obs = true
  · simpa [hb, orReturn_ret_none] using h
  · obtain ⟨o, ho⟩ := deliveryOptions_isSome_of_drift cr obs hb
    rw [ho]
    exact orReturn_step_runPlan c _ _ _ next rest h

theorem update_stepReputation_runPlan (name : Option String) (c : ConfigurationSet.Client)
    (cr : ConfigurationSet.ConfigurationSet) (obs : ConfigurationSet.GetConfigurationSetOutput)
    (next : Run ConfigurationSet.Request (ExternalUpdate × Option Err))
    (rest : List (ConfigurationSet.Request × String))
    (h : next = ConfigurationSet.runPlan c rest) :
    ConfigurationSet.orReturn
      (if (!ConfigurationSet.isUpToDateReputationOptions cr obs) = true then
        match cr.forProvider.reputationOptions with
        | none => Run.crash
        | some o =>
          Run.call (ConfigurationSet.Request.putReputationOptions ⟨name, o.reputationMetricsEnabled⟩)
            (c.putConfigurationSetReputationOptions ⟨name, o.reputationMetricsEnabled⟩)
      else Run.ret none)
      "update failed for ConfigurationSetReputationOptions" next =
    ConfigurationSet.runPlan c
      ((if ConfigurationSet.isUpToDateReputationOptions cr obs = true then []
        else [(ConfigurationSet.Request.putReputationOptions ⟨name, cr.forProvider.reputationOptions.bind (fun o => o.reputationMetricsEnabled)⟩,
          "update failed for ConfigurationSetReputationOptions")]) ++ rest) := by
  by_cases hb : ConfigurationSet.isUpToDateReputationOptions cr obs = true
  · simpa [hb, orReturn_ret_none] using h
  · obtain ⟨o, ho⟩ := reputationOptions_isSome_of_drift cr obs hb
    rw [ho]
    exact orReturn_step_runPlan c _ _ _ next rest h

theorem update_stepSuppression_runPlan (name : Option String) (c : ConfigurationSet.Client)
    (cr : ConfigurationSet.ConfigurationSet) (obs : ConfigurationSet.GetConfigurationSetOutput)
    (next : Run ConfigurationSet.Request (ExternalUpdate × Option Err))
    (rest : List (ConfigurationSet.Request × String))
    (hgroup : ConfigurationSet.isUpToDateSuppressionOptions cr obs = false →
      cr.forProvider.suppressionOptions ≠ none)
    (h : next = ConfigurationSet.runPlan c rest) :
    ConfigurationSet.orReturn
      (if (!ConfigurationSet.isUpToDateSuppressionOptions cr obs) = true then
        match cr.forProvider.suppressionOptions with
        | none => Run.crash
        | some o =>
          Run.call (ConfigurationSet.Request.putSuppressionOptions ⟨name, o.suppressedReasons⟩)
            (c.putConfigurationSetSuppressionOptions ⟨name, o.suppressedReasons⟩)
      else Run.ret none)
      "update failed for ConfigurationSetSuppressionOptions" next =
    ConfigurationSet.runPlan c
      ((if ConfigurationSet.isUpToDateSuppressionOptions cr obs = true then []
        else [(ConfigurationSet.Request.putSuppressionOptions ⟨name, cr.forProvider.suppressionOptions.bind (fun o => o.suppressedReasons)⟩,
          "update failed for ConfigurationSetSuppressionOptions")]) ++ rest) := by
  by_cases hb : ConfigurationSet.isUpToDateSuppressionOptions cr obs = true
  · simpa [hb, orReturn_ret_none] using h
  · obtain ⟨o, ho⟩ := Option.ne_none_iff_exists'.1 (hgroup (by simpa using hb))
    rw [ho]
    exact orReturn_step_runPlan c _ _ _ next rest h

theorem update_stepTracking_runPlan (name : Option String) (c : ConfigurationSet.Client)
    (cr : ConfigurationSet.ConfigurationSet) (obs : ConfigurationSet.GetConfigurationSetOutput)
    (next : Run ConfigurationSet.Request (ExternalUpdate × Option Err))
    (rest : List (ConfigurationSet.Request × String))
    (h : next = ConfigurationSet.runPlan c rest) :
    ConfigurationSet.orReturn
      (if (!ConfigurationSet.isUpToDateTrackingOptions cr obs) = true then
        match cr.forProvider.trackingOptions with
        | none => Run.crash
        | some o =>
          Run.call (ConfigurationSet.Request.putTrackingOptions ⟨name, o.customRedirectDomain⟩)
            (c.putConfigurationSetTrackingOptions ⟨name, o.customRedirectDomain⟩)
      else Run.ret none)
      "update failed for ConfigurationSetTrackingOptions" next =
    ConfigurationSet.runPlan c
      ((if ConfigurationSet.isUpToDateTrackingOptions cr obs = true then []
        else [(ConfigurationSet.Request.putTrackingOptions ⟨name, cr.forProvider.trackingOptions.bind (fun o => o.customRedirectDomain)⟩,
          "update failed for ConfigurationSetTrackingOptions")]) ++ rest) := by
  by_cases hb : ConfigurationSet.isUpToDateTrackingOptions cr obs = true
  · simpa [hb, orReturn_ret_none] using h
  · obtain ⟨o, ho⟩ := trackingOptions_isSome_of_drift cr obs hb
    rw [ho]
    exact orReturn_step_runPlan c _ _ _ next rest h

theorem update_stepSending_runPlan (name : Option String) (c : ConfigurationSet.Client)
    (cr : ConfigurationSet.ConfigurationSet) (obs : ConfigurationSet.GetConfigurationSetOutput)
    (next : Run ConfigurationSet.Request (ExternalUpdate × Option Err))
    (rest : List (ConfigurationSet.Request × String))
    (h : next = ConfigurationSet.runPlan c rest) :
    ConfigurationSet.orReturn
      (if (!ConfigurationSet.isUpToDateSendingOptions cr obs) = true then
        match cr.forProvider.sendingOptions with
        | none => Run.crash
        | some o =>
          Run.call (ConfigurationSet.Request.putSendingOptions ⟨name, o.sendingEnabled⟩)
            (c.putConfigurationSetSendingOptions ⟨name, o.sendingEnabled⟩)
      else Run.ret none)
      "update failed for ConfigurationSetSendingOptions" next =
    ConfigurationSet.runPlan c
      ((if ConfigurationSet.isUpToDateSendingOptions cr obs = true then []
        else [(ConfigurationSet.Request.putSendingOptions ⟨name, cr.forProvider.sendingOptions.bind (fun o => o.sendingEnabled)⟩,
          "update failed for ConfigurationSetSendingOptions")]) ++ rest) := by
  by_cases hb : ConfigurationSet.isUpToDateSendingOptions cr obs = true
  · simpa [hb, orReturn_ret_none] using h
  · obtain ⟨o, ho⟩ := sendingOptions_isSome_of_drift cr obs hb
    rw [ho]
    exact orReturn_step_runPlan c _ _ _ next rest h

theorem update_follows_plan (awsclientString : String → Option String)
    (c : ConfigurationSet.Client) (cr : ConfigurationSet.ConfigurationSet)
    (obs : ConfigurationSet.GetConfigurationSetOutput)
    (hgroup : ConfigurationSet.isUpToDateSuppressionOptions cr obs = false →
      cr.forProvider.suppressionOptions ≠ none) :
    ConfigurationSet.update awsclientString ⟨c, some obs⟩ cr =
      ConfigurationSet.runPlan c (ConfigurationSet.plannedPuts awsclientString cr obs) := by
  unfold ConfigurationSet.update ConfigurationSet.plannedPuts
  simp only [List.append_assoc]
  refine update_stepDelivery_runPlan _ c cr obs _ _ ?_
  refine update_stepReputation_runPlan _ c cr obs _ _ ?_
  refine update_stepSuppression_runPlan _ c cr obs _ _ hgroup ?_
  refine update_stepTracking_runPlan _ c cr obs _ _ ?_
  rw [← List.append_nil (if ConfigurationSet.isUpToDateSendingOptions cr obs = true then [] else _)]
  exact update_stepSending_runPlan _ c cr obs _ _ rfl

theorem update_noop_when_options_upToDate (awsclientString : String → Option String)
    (c : ConfigurationSet.Client) (cr : ConfigurationSet.ConfigurationSet)
    (obs : ConfigurationSet.GetConfigurationSetOutput)
    (h1 : ConfigurationSet.isUpToDateDeliveryOptions cr obs = true)
    (h2 : ConfigurationSet.isUpToDateReputationOptions cr obs = true)
    (h3 : ConfigurationSet.isUpToDateSuppressionOptions cr obs = true)
    (h4 : ConfigurationSet.isUpToDateTrackingOptions cr obs = true)
    (h5 : ConfigurationSet.isUpToDateSendingOptions cr obs = true) :
    ConfigurationSet.update awsclientString ⟨c, some obs⟩ cr =
      ⟨[], Outcome.returned (ExternalUpdate.mk [], none)⟩ := by
  rw [update_follows_plan awsclientString c cr obs (fun h => by rw [h3] at h; cases h)]
  simp [ConfigurationSet.plannedPuts, h1, h2, h3, h4, h5, ConfigurationSet.runPlan, Run.ret]

theorem update_sends_nothing_on_tag_drift
    (areTagsUpToDate : List Tag → List Tag → Bool × Option Err)
    (awsclientString : String → Option String) (c : ConfigurationSet.Client)
    (cr : ConfigurationSet.ConfigurationSet) (obs : ConfigurationSet.GetConfigurationSetOutput)
    (hlive : wasDeleted cr.objectMeta = false)
    (h1 : ConfigurationSet.isUpToDateDeliveryOptions cr obs = true)
    (h2 : ConfigurationSet.isUpToDateReputationOptions cr obs = true)
    (h3 : ConfigurationSet.isUpToDateSuppressionOptions cr obs = true)
    (h4 : ConfigurationSet.isUpToDateTrackingOptions cr obs = true)
    (h5 : ConfigurationSet.isUpToDateSendingOptions cr obs = true) :
    ConfigurationSet.isUpToDate areTagsUpToDate cr obs = areTagsUpToDate cr.forProvider.tags obs.tags ∧
    (ConfigurationSet.update awsclientString ⟨c, some obs⟩ cr).trace = [] := by
  refine ⟨by simp [ConfigurationSet.isUpToDate, hlive, h1, h2, h3, h4, h5], ?_⟩
  rw [update_noop_when_options_upToDate awsclientString c cr obs h1 h2 h3 h4 h5]

/-! ## The bounds on the number of requests are attained -/

theorem rds_update_sends_three_requests :
    (Database.sdkRequests (Database.Update Database.exampleRds
      ⟨Database.exampleClient (Except.ok [Database.exampleDBInstance "available"]) none,
        Database.exampleKube "s3cret" "s3cret"⟩ Database.taggedInstance).trace).length = 3 := by
  decide

theorem rds_delete_sends_four_requests :
    (Database.sdkRequests (Database.Delete Database.exampleRds
      ⟨Database.exampleClient (Except.ok [Database.exampleDBInstance "available"]) none,
        Database.exampleKube "s3cret" "s3cret"⟩ Database.taggedInstance).trace).length = 4 := by
  decide

theorem configurationSet_update_sends_five_requests :
    (ConfigurationSet.update some
      ⟨ConfigurationSet.acceptingClient, some ConfigurationSet.staleOutput⟩
      ConfigurationSet.fullSet).trace =
      [ConfigurationSet.Request.putDeliveryOptions ⟨some "marketing", some "pool-a", some "REQUIRE"⟩,
        ConfigurationSet.Request.putReputationOptions ⟨some "marketing", some true⟩,
        ConfigurationSet.Request.putSuppressionOptions ⟨some "marketing", some [some "BOUNCE"]⟩,
        ConfigurationSet.Request.putTrackingOptions ⟨some "marketing", some "click.example.org"⟩,
        ConfigurationSet.Request.putSendingOptions ⟨some "marketing", some true⟩] := by
  decide

/-! ## Unconfigured suppression and the tracking check -/

theorem reasonsOf_eq_nil_of_unconfigured (o : Option ConfigurationSet.SuppressionOptions)
    (h : ConfigurationSet.Unconfigured o) : ConfigurationSet.reasonsOf o = [] := by
  rcases h with rfl | ⟨g, rfl, hg | hg⟩
  · rfl
  · simp [ConfigurationSet.reasonsOf, hg]
  · simp [ConfigurationSet.reasonsOf, hg]

/-- C11: when suppression is not configured in the spec (no SuppressionOptions,
or a nil or empty SuppressedReasons) and the response has no
SuppressionOptions or a nil or empty SuppressedReasons,
`isUpToDateSuppressionOptions` returns true. -/
theorem isUpToDateSuppressionOptions_of_unconfigured (cr : ConfigurationSet.ConfigurationSet)
    (resp : ConfigurationSet.GetConfigurationSetOutput)
    (hcr : ConfigurationSet.Unconfigured cr.forProvider.suppressionOptions)
    (hresp : ConfigurationSet.Unconfigured resp.suppressionOptions) :
    ConfigurationSet.isUpToDateSuppressionOptions cr resp = true := by
  rw [isUpToDateSuppressionOptions_eq, reasonsOf_eq_nil_of_unconfigured _ hcr,
    reasonsOf_eq_nil_of_unconfigured _ hresp]
  simp

/-- Witness of C11: no SuppressionOptions in the spec, the empty slice of
reasons in the response. -/
theorem isUpToDateSuppressionOptions_of_unconfigured_witness :
    ConfigurationSet.isUpToDateSuppressionOptions
      (ConfigurationSet.exampleSet (exampleMeta "marketing") none)
      (ConfigurationSet.exampleOutput (some ⟨some []⟩)) = true :=
  isUpToDateSuppressionOptions_of_unconfigured
    (ConfigurationSet.exampleSet (exampleMeta "marketing") none)
    (ConfigurationSet.exampleOutput (some ⟨some []⟩))
    (Or.inl rfl) (Or.inr ⟨⟨some []⟩, rfl, Or.inr rfl⟩)

/-- C12: `isUpToDateTrackingOptions` returns false exactly when the spec has
TrackingOptions and the response has none or the CustomRedirectDomain values
differ, a nil string pointer counting as the empty string; when the spec has
no TrackingOptions it returns true, whatever the response holds. -/
theorem isUpToDateTrackingOptions_spec (cr : ConfigurationSet.ConfigurationSet)
    (resp : ConfigurationSet.GetConfigurationSetOutput) :
    (ConfigurationSet.isUpToDateTrackingOptions cr resp = false ↔
      ∃ want, cr.forProvider.trackingOptions = some want ∧
        (resp.trackingOptions = none ∨
          ∃ seen, resp.trackingOptions = some seen ∧
            want.customRedirectDomain.getD "" ≠ seen.customRedirectDomain.getD "")) ∧
    (cr.forProvider.trackingOptions = none →
      ConfigurationSet.isUpToDateTrackingOptions cr resp = true) := by
  unfold ConfigurationSet.isUpToDateTrackingOptions
  rcases hc : cr.forProvider.trackingOptions with _ | want <;>
    rcases hr : resp.trackingOptions with _ | seen <;>
    simp [stringValue_eq_getD]

/-- Witness of C12: no TrackingOptions in the spec, a redirect domain in the
response. -/
theorem isUpToDateTrackingOptions_spec_witness :
    ConfigurationSet.isUpToDateTrackingOptions (ConfigurationSet.trackedSet none)
      (ConfigurationSet.trackedOutput (some ⟨some "click.example.org"⟩) none) = true :=
  (isUpToDateTrackingOptions_spec (ConfigurationSet.trackedSet none)
    (ConfigurationSet.trackedOutput (some ⟨some "click.example.org"⟩) none)).2 rfl

/-! ## The conditions a controller sets -/

theorem mem_setConditions_self (cs : List Condition) (c : Condition) :
    c ∈ setConditions cs c := by
  unfold setConditions
  split_ifs with h
  · rw [List.any_eq_true] at h
    obtain ⟨x, hx, hxc⟩ := h
    rw [List.mem_map]
    exact ⟨x, hx, by simp [of_decide_eq_true hxc]⟩
  · simp

theorem eq_of_mem_setConditions_of_type (cs : List Condition) (c x : Condition)
    (hx : x ∈ setConditions cs c) (ht : x.ctype = c.ctype) : x = c := by
  unfold setConditions at hx
  split_ifs at hx with h
  · rw [List.mem_map] at hx
    obtain ⟨y, _, hy⟩ := hx
    by_cases hyc : y.ctype = c.ctype
    · rw [if_pos hyc] at hy
      exact hy.symm
    · rw [if_neg hyc] at hy
      subst hy
      exact absurd ht hyc
  · rw [List.mem_append, List.mem_singleton] at hx
    rcases hx with hx | hx
    · exfalso
      apply h
      rw [List.any_eq_true]
      exact ⟨x, hx, decide_eq_true ht⟩
    · exact hx

theorem mem_of_mem_setConditions (cs : List Condition) (c x : Condition)
    (hx : x ∈ setConditions cs c) : x = c ∨ x ∈ cs := by
  unfold setConditions at hx
  split_ifs at hx with h
  · rw [List.mem_map] at hx
    obtain ⟨y, hy, hxy⟩ := hx
    by_cases hyc : y.ctype = c.ctype
    · rw [if_pos hyc] at hxy
      exact Or.inl hxy.symm
    · rw [if_neg hyc] at hxy
      subst hxy
      exact Or.inr hy
  · rw [List.mem_append, List.mem_singleton] at hx
    exact hx.symm

theorem setConditions_injective (cs : List Condition) (a b : Condition)
    (ht : a.ctype = b.ctype) (h : setConditions cs a = setConditions cs b) : a = b :=
  eq_of_mem_setConditions_of_type cs b a (h ▸ mem_setConditions_self cs a) ht

/-- C15: `hooks.postObserve`, called with a nil error and a response with
SendingOptions, stores the response, returns the observation it was given and
a nil error, and sets the condition Available exactly when SendingEnabled is
non-nil and true, the condition Unavailable otherwise; called with an error it
returns the zero observation and that error and leaves the resource as it
was; and on no input does it bring the condition Creating into the resource. -/
theorem postObserve_spec (e : ConfigurationSet.Hooks) (cr : ConfigurationSet.ConfigurationSet)
    (resp : ConfigurationSet.GetConfigurationSetOutput) (obs : ExternalObservation) :
    (∀ so, resp.sendingOptions = some so →
      ∃ after, ConfigurationSet.postObserve e cr resp obs none =
          Outcome.returned ({ e with configurationSetObservation := some resp }, after, obs, none) ∧
        (after.conditions = setConditions cr.conditions Condition.available ↔
          so.sendingEnabled = some true) ∧
        (so.sendingEnabled ≠ some true →
          after.conditions = setConditions cr.conditions Condition.unavailable)) ∧
    (∀ x, ConfigurationSet.postObserve e cr resp obs (some x) =
      Outcome.returned (e, cr, ExternalObservation.zero, some x)) ∧
    (∀ err hooks after o r, ConfigurationSet.postObserve e cr resp obs err =
        Outcome.returned (hooks, after, o, r) →
      Condition.creating ∈ after.conditions → Condition.creating ∈ cr.conditions) := by
  refine ⟨?_, fun x => rfl, ?_⟩
  · intro so hso
    unfold ConfigurationSet.postObserve
    simp only [hso]
    rcases hv : so.sendingEnabled with _ | _ | _
    · refine ⟨_, rfl, ?_, fun _ => by simp [boolValue]⟩
      simp only [boolValue, Bool.false_eq_true, if_false, if_true]
      constructor
      · intro h
        exact absurd
          (setConditions_injective cr.conditions Condition.unavailable Condition.available rfl h)
          (by decide)
      · intro h; cases h
    · refine ⟨_, rfl, ?_, fun _ => by simp [boolValue]⟩
      simp only [boolValue, Bool.false_eq_true, if_false, if_true]
      constructor
      · intro h
        exact absurd
          (setConditions_injective cr.conditions Condition.unavailable Condition.available rfl h)
          (by decide)
      · intro h; cases h
    · refine ⟨_, rfl, ?_, fun h => absurd rfl h⟩
      simp [boolValue]
  · intro err hooks after o r h hmem
    unfold ConfigurationSet.postObserve at h
    cases err with
    | some x =>
      simp only [Outcome.returned.injEq, Prod.mk.injEq] at h
      rw [h.2.1]
      exact hmem
    | none =>
      simp only at h
      rcases hso : resp.sendingOptions with _ | so
      · rw [hso] at h; cases h
      · rw [hso] at h
        simp only [Outcome.returned.injEq, Prod.mk.injEq] at h
        rw [← h.2.1] at hmem
        cases hb : boolValue so.sendingEnabled <;> simp only [hb, Bool.false_eq_true, if_false,
          if_true] at hmem
        · rcases mem_of_mem_setConditions _ _ _ hmem with h1 | h1
          · exact absurd h1 (by decide)
          · exact h1
        · rcases mem_of_mem_setConditions _ _ _ hmem with h1 | h1
          · exact absurd h1 (by decide)
          · exact h1

/-- Witness of C15: sending is enabled in the response, so the hook sets the
condition Available on a resource without conditions. -/
theorem postObserve_spec_witness :
    ∃ after, ConfigurationSet.postObserve ⟨ConfigurationSet.acceptingClient, none⟩
        (ConfigurationSet.trackedSet none)
        (ConfigurationSet.trackedOutput none (some ⟨some true⟩)) exampleObservation none =
        Outcome.returned
          (⟨ConfigurationSet.acceptingClient,
              some (ConfigurationSet.trackedOutput none (some ⟨some true⟩))⟩,
            after, exampleObservation, none) ∧
      after.conditions = [Condition.available] := by
  obtain ⟨after, h1, h2, _⟩ := (postObserve_spec ⟨ConfigurationSet.acceptingClient, none⟩
    (ConfigurationSet.trackedSet none)
    (ConfigurationSet.trackedOutput none (some ⟨some true⟩)) exampleObservation).1 ⟨some true⟩ rfl
  exact ⟨after, h1, (h2.2 rfl).trans (by decide)⟩

/-! ## The generated accessors -/

/-- C16: for an InstanceProfile and for a ServiceLinkedRole, after each of the
five setters (deletion policy, provider config reference, provider reference,
publish-connection-details-to, write-connection-secret-to reference) the
matching getter returns the value that was set and the four other getters
return what they returned before; so the deprecated provider reference and
the provider config reference do not touch each other. -/
theorem accessors_lawful (ip : V1alpha1.InstanceProfile)
    (role : ServiceLinkedRole.ServiceLinkedRole) (d : String) (r : Option Reference)
    (p : Option PublishConnectionDetailsTo) (w : Option SecretReference) :
    ((ip.SetDeletionPolicy d).GetDeletionPolicy = d ∧
      (ip.SetDeletionPolicy d).GetProviderConfigReference = ip.GetProviderConfigReference ∧
      (ip.SetDeletionPolicy d).GetProviderReference = ip.GetProviderReference ∧
      (ip.SetDeletionPolicy d).GetPublishConnectionDetailsTo = ip.GetPublishConnectionDetailsTo ∧
      (ip.SetDeletionPolicy d).GetWriteConnectionSecretToReference = ip.GetWriteConnectionSecretToReference) ∧
    ((ip.SetProviderConfigReference r).GetDeletionPolicy = ip.GetDeletionPolicy ∧
      (ip.SetProviderConfigReference r).GetProviderConfigReference = r ∧
      (ip.SetProviderConfigReference r).GetProviderReference = ip.GetProviderReference ∧
      (ip.SetProviderConfigReference r).GetPublishConnectionDetailsTo = ip.GetPublishConnectionDetailsTo ∧
      (ip.SetProviderConfigReference r).GetWriteConnectionSecretToReference = ip.GetWriteConnectionSecretToReference) ∧
    ((ip.SetProviderReference r).GetDeletionPolicy = ip.GetDeletionPolicy ∧
      (ip.SetProviderReference r).GetProviderConfigReference = ip.GetProviderConfigReference ∧
      (ip.SetProviderReference r).GetProviderReference = r ∧
      (ip.SetProviderReference r).GetPublishConnectionDetailsTo = ip.GetPublishConnectionDetailsTo ∧
      (ip.SetProviderReference r).GetWriteConnectionSecretToReference = ip.GetWriteConnectionSecretToReference) ∧
    ((ip.SetPublishConnectionDetailsTo p).GetDeletionPolicy = ip.GetDeletionPolicy ∧
      (ip.SetPublishConnectionDetailsTo p).GetProviderConfigReference = ip.GetProviderConfigReference ∧
      (ip.SetPublishConnectionDetailsTo p).GetProviderReference = ip.GetProviderReference ∧
      (ip.SetPublishConnectionDetailsTo p).GetPublishConnectionDetailsTo = p ∧
      (ip.SetPublishConnectionDetailsTo p).GetWriteConnectionSecretToReference = ip.GetWriteConnectionSecretToReference) ∧
    ((ip.SetWriteConnectionSecretToReference w).GetDeletionPolicy = ip.GetDeletionPolicy ∧
      (ip.SetWriteConnectionSecretToReference w).GetProviderConfigReference = ip.GetProviderConfigReference ∧
      (ip.SetWriteConnectionSecretToReference w).GetProviderReference = ip.GetProviderReference ∧
      (ip.SetWriteConnectionSecretToReference w).GetPublishConnectionDetailsTo = ip.GetPublishConnectionDetailsTo ∧
      (ip.SetWriteConnectionSecretToReference w).GetWriteConnectionSecretToReference = w) ∧
    ((role.SetDeletionPolicy d).GetDeletionPolicy = d ∧
      (role.SetDeletionPolicy d).GetProviderConfigReference = role.GetProviderConfigReference ∧
      (role.SetDeletionPolicy d).GetProviderReference = role.GetProviderReference ∧
      (role.SetDeletionPolicy d).GetPublishConnectionDetailsTo = role.GetPublishConnectionDetailsTo ∧
      (role.SetDeletionPolicy d).GetWriteConnectionSecretToReference = role.GetWriteConnectionSecretToReference) ∧
    ((role.SetProviderConfigReference r).GetDeletionPolicy = role.GetDeletionPolicy ∧
      (role.SetProviderConfigReference r).GetProviderConfigReference = r ∧
      (role.SetProviderConfigReference r).GetProviderReference = role.GetProviderReference ∧
      (role.SetProviderConfigReference r).GetPublishConnectionDetailsTo = role.GetPublishConnectionDetailsTo ∧
      (role.SetProviderConfigReference r).GetWriteConnectionSecretToReference = role.GetWriteConnectionSecretToReference) ∧
    ((role.SetProviderReference r).GetDeletionPolicy = role.GetDeletionPolicy ∧
      (role.SetProviderReference r).GetProviderConfigReference = role.GetProviderConfigReference ∧
      (role.SetProviderReference r).GetProviderReference = r ∧
      (role.SetProviderReference r).GetPublishConnectionDetailsTo = role.GetPublishConnectionDetailsTo ∧
      (role.SetProviderReference r).GetWriteConnectionSecretToReference = role.GetWriteConnectionSecretToReference) ∧
    ((role.SetPublishConnectionDetailsTo p).GetDeletionPolicy = role.GetDeletionPolicy ∧
      (role.SetPublishConnectionDetailsTo p).GetProviderConfigReference = role.GetProviderConfigReference ∧
      (role.SetPublishConnectionDetailsTo p).GetProviderReference = role.GetProviderReference ∧
      (role.SetPublishConnectionDetailsTo p).GetPublishConnectionDetailsTo = p ∧
      (role.SetPublishConnectionDetailsTo p).GetWriteConnectionSecretToReference = role.GetWriteConnectionSecretToReference) ∧
    ((role.SetWriteConnectionSecretToReference w).GetDeletionPolicy = role.GetDeletionPolicy ∧
      (role.SetWriteConnectionSecretToReference w).GetProviderConfigReference = role.GetProviderConfigReference ∧
      (role.SetWriteConnectionSecretToReference w).GetProviderReference = role.GetProviderReference ∧
      (role.SetWriteConnectionSecretToReference w).GetPublishConnectionDetailsTo = role.GetPublishConnectionDetailsTo ∧
      (role.SetWriteConnectionSecretToReference w).GetWriteConnectionSecretToReference = w) := by
  refine ⟨⟨rfl, rfl, rfl, rfl, rfl⟩, ⟨rfl, rfl, rfl, rfl, rfl⟩, ⟨rfl, rfl, rfl, rfl, rfl⟩,
    ⟨rfl, rfl, rfl, rfl, rfl⟩, ⟨rfl, rfl, rfl, rfl, rfl⟩, ⟨rfl, rfl, rfl, rfl, rfl⟩,
    ⟨rfl, rfl, rfl, rfl, rfl⟩, ⟨rfl, rfl, rfl, rfl, rfl⟩, ⟨rfl, rfl, rfl, rfl, rfl⟩,
    ⟨rfl, rfl, rfl, rfl, rfl⟩⟩

/-! ## The fields `Create` of the ServiceLinkedRole controller copies -/

theorem copyTags_of_no_nil (ts : List (Option Tag)) (h : ∀ t ∈ ts, t ≠ none) :
    ServiceLinkedRole.copyTags ts = some ts := by
  induction ts with
  | nil => rfl
  | cons t rest ih =>
    cases t with
    | none => exact absurd rfl (h none (List.mem_cons_self _ _))
    | some v =>
      have hrest : ∀ t ∈ rest, t ≠ none := fun t ht => h t (List.mem_cons_of_mem _ ht)
      simp [ServiceLinkedRole.copyTags, ih hrest]

theorem copyTags_eq_none_of_nil (ts : List (Option Tag)) (h : none ∈ ts) :
    ServiceLinkedRole.copyTags ts = none := by
  induction ts with
  | nil => cases h
  | cons t rest ih =>
    cases t with
    | none => rfl
    | some v =>
      have hrest : none ∈ rest := by simpa using h
      simp [ServiceLinkedRole.copyTags, ih hrest]

/-- C13 as stated fails: the `preCreate` hook succeeds and the create request
returns a role, but the slice of tags of the role holds a nil pointer;
`Create` panics when it reads the key of that tag and does not return. -/
theorem serviceLinkedRole_create_panics_on_nil_tag :
    (ServiceLinkedRole.creatingClient (some [none])).createServiceLinkedRole
        ⟨some "elasticbeanstalk.amazonaws.com", none, none⟩ =
      Except.ok ⟨some (ServiceLinkedRole.exampleSdkRole (some [none]))⟩ ∧
    ServiceLinkedRole.Create ServiceLinkedRole.exampleConversions
      (ServiceLinkedRole.newExternal (ServiceLinkedRole.creatingClient (some [none])) [])
      (ServiceLinkedRole.exampleRole "elasticbeanstalk.amazonaws.com") =
      ⟨[ServiceLinkedRole.Request.createServiceLinkedRole
          ⟨some "elasticbeanstalk.amazonaws.com", none, none⟩], Outcome.panicked⟩ := by
  refine ⟨rfl, by decide⟩

/-- C13 (amended): when the `preCreate` hook succeeds, the create request
returns a response with a role and the tags of the role hold no nil pointer,
`Create` hands to the `postCreate` hook, and returns when that hook is
`nopPostCreate`, a resource in which ARN, AssumeRolePolicyDocument,
CreateDate, MaxSessionDuration, Path, PermissionsBoundary, RoleID,
RoleLastUsed, RoleName and Tags of the status and Description of the spec are
those of the role: nil where the role has nil, whatever was there before, and
otherwise the same values, sub-fields and tags in the same order. -/
theorem serviceLinkedRole_create_maps_role (conv : ServiceLinkedRole.Conversions)
    (e : ServiceLinkedRole.External) (cr cr1 : ServiceLinkedRole.ServiceLinkedRole)
    (input : ServiceLinkedRole.CreateServiceLinkedRoleInput)
    (resp : ServiceLinkedRole.CreateServiceLinkedRoleOutput) (role : ServiceLinkedRole.Role)
    (hpre : e.preCreate (ServiceLinkedRole.markedCreating cr)
      (conv.generateCreateServiceLinkedRoleInput (ServiceLinkedRole.markedCreating cr)) =
        (cr1, input, none))
    (hresp : e.client.createServiceLinkedRole input = Except.ok resp)
    (hrole : resp.role = some role)
    (htags : ∀ ts, role.tags = some ts → ∀ t ∈ ts, t ≠ none) :
    ∃ mapped,
      (ServiceLinkedRole.Create conv e cr).outcome =
        Outcome.returned (e.postCreate mapped resp (ExternalCreation.mk []) none) ∧
      (e.postCreate = ServiceLinkedRole.nopPostCreate →
        (ServiceLinkedRole.Create conv e cr).outcome =
          Outcome.returned (mapped, ExternalCreation.mk [], none)) ∧
      mapped.atProvider.arn = role.arn ∧
      mapped.atProvider.assumeRolePolicyDocument = role.assumeRolePolicyDocument ∧
      mapped.atProvider.createDate = role.createDate ∧
      mapped.atProvider.maxSessionDuration = role.maxSessionDuration ∧
      mapped.atProvider.path = role.path ∧
      mapped.atProvider.permissionsBoundary = role.permissionsBoundary ∧
      mapped.atProvider.roleID = role.roleId ∧
      mapped.atProvider.roleLastUsed = role.roleLastUsed ∧
      mapped.atProvider.roleName = role.roleName ∧
      mapped.atProvider.tags = role.tags ∧
      mapped.forProvider.description = role.description := by
  have hcopy : (match role.tags with
      | none => Outcome.returned none
      | some ts =>
        match ServiceLinkedRole.copyTags ts with
        | none => Outcome.panicked
        | some out => Outcome.returned (some out)) = Outcome.returned role.tags := by
    cases ht : role.tags with
    | none => rfl
    | some ts => simp [copyTags_of_no_nil ts (htags ts ht)]
  have hb : (match role.permissionsBoundary with
      | some b =>
        some (ServiceLinkedRole.AttachedPermissionsBoundary.mk b.permissionsBoundaryARN
          b.permissionsBoundaryType)
      | none => none) = role.permissionsBoundary := by
    cases role.permissionsBoundary <;> rfl
  have hu : (match role.roleLastUsed with
      | some u => some (ServiceLinkedRole.RoleLastUsed.mk u.lastUsedDate u.region)
      | none => none) = role.roleLastUsed := by
    cases role.roleLastUsed <;> rfl
  unfold ServiceLinkedRole.markedCreating at hpre
  unfold ServiceLinkedRole.Create
  simp only [hpre, Run.bind_call, hresp, hrole, hcopy, hb, hu]
  refine ⟨_, rfl, ?_, rfl, rfl, rfl, rfl, rfl, rfl, rfl, rfl, rfl, rfl, rfl⟩
  intro hnop
  rw [hnop]
  rfl

/-- Witness of C13 (amended): the role comes back with one tag; the resource
returned by `Create` with the default hooks carries the name, the nil
description and the tag of the role. -/
theorem serviceLinkedRole_create_maps_role_witness :
    ∃ mapped,
      (ServiceLinkedRole.Create ServiceLinkedRole.exampleConversions
        (ServiceLinkedRole.newExternal
          (ServiceLinkedRole.creatingClient (some [some ⟨some "team", some "growth"⟩])) [])
        (ServiceLinkedRole.exampleRole "elasticbeanstalk.amazonaws.com")).outcome =
        Outcome.returned (mapped, ExternalCreation.mk [], none) ∧
      mapped.atProvider.roleName = some "AWSServiceRoleForExample" ∧
      mapped.atProvider.tags = some [some ⟨some "team", some "growth"⟩] ∧
      mapped.forProvider.description = none := by
  obtain ⟨mapped, _, h2, _, _, _, _, _, _, _, _, h11, h12, h13⟩ :=
    serviceLinkedRole_create_maps_role ServiceLinkedRole.exampleConversions
      (ServiceLinkedRole.newExternal
        (ServiceLinkedRole.creatingClient (some [some ⟨some "team", some "growth"⟩])) [])
      (ServiceLinkedRole.exampleRole "elasticbeanstalk.amazonaws.com")
      (ServiceLinkedRole.markedCreating (ServiceLinkedRole.exampleRole "elasticbeanstalk.amazonaws.com"))
      ⟨some "elasticbeanstalk.amazonaws.com", none, none⟩
      ⟨some (ServiceLinkedRole.exampleSdkRole (some [some ⟨some "team", some "growth"⟩]))⟩
      (ServiceLinkedRole.exampleSdkRole (some [some ⟨some "team", some "growth"⟩]))
      rfl rfl rfl (by decide)
  exact ⟨mapped, h2 rfl, h11, h12, h13⟩

/-! ## The condition `Observe` of the RDS controller sets -/

theorem conditionFor_spec (status : String) :
    (Database.conditionFor status = Condition.available ↔ status = "available") ∧
    (Database.conditionFor status = Condition.creating ↔ status = "creating") ∧
    (Database.conditionFor status = Condition.deleting ↔ status = "deleting") ∧
    (Database.conditionFor status = Condition.unavailable ↔
      (status ≠ "available" ∧ status ≠ "creating" ∧ status ≠ "deleting")) := by
  unfold Database.conditionFor
  have h1 : Condition.available ≠ Condition.creating := by decide
  have h2 : Condition.available ≠ Condition.deleting := by decide
  have h3 : Condition.available ≠ Condition.unavailable := by decide
  have h4 : Condition.creating ≠ Condition.deleting := by decide
  have h5 : Condition.creating ≠ Condition.unavailable := by decide
  have h6 : Condition.deleting ≠ Condition.unavailable := by decide
  by_cases ha : status = "available"
  · subst ha
    simp [h1, h2, h3]
  · by_cases hc : status = "creating"
    · subst hc
      simp [h4, h5, h1.symm]
    · by_cases hd : status = "deleting"
      · subst hd
        simp [h6, h2.symm, h4.symm]
      · simp [ha, hc, hd, h3.symm, h5.symm, h6.symm]

theorem observeStatus_spec (x : Database.RDSInstance) :
    (Database.observeStatus x).conditions =
      setConditions x.conditions (Database.conditionFor x.atProvider.dbInstanceStatus) ∧
    (Database.observeStatus x).atProvider = x.atProvider ∧
    (x.atProvider.dbInstanceStatus = "available" →
      (Database.observeStatus x).bindingPhase = (Database.setBindable x).bindingPhase) ∧
    (x.atProvider.dbInstanceStatus ≠ "available" →
      (Database.observeStatus x).bindingPhase = x.bindingPhase) := by
  unfold Database.observeStatus Database.conditionFor Database.setBindable
  simp only [Database.rdsInstanceStateAvailable, Database.rdsInstanceStateCreating,
    Database.rdsInstanceStateDeleting]
  by_cases ha : x.atProvider.dbInstanceStatus = "available"
  · simp only [ha, if_true]
    split_ifs <;> simp
  · simp only [ha, if_false]
    split_ifs <;> simp

theorem conditionFor_type (status : String) : (Database.conditionFor status).ctype = "Ready" := by
  unfold Database.conditionFor
  split_ifs <;> rfl

theorem observeInstance_written (rds : Database.Rds) (e : Database.External)
    (cr : Database.RDSInstance) (b : Bool) (inst : Database.DBInstance)
    (hwrite : rds.lateInitialize cr.forProvider inst ≠ cr.forProvider →
      e.kube.update { cr with forProvider := rds.lateInitialize cr.forProvider inst } = none) :
    ∃ obs err, (Database.observeInstance rds e cr b inst).outcome =
      Outcome.returned
        (Database.observeStatus
          { cr with
            forProvider := rds.lateInitialize cr.forProvider inst
            atProvider := rds.generateObservation inst }, obs, err) := by
  unfold Database.observeInstance
  simp only []
  by_cases hc : cr.forProvider ≠ rds.lateInitialize cr.forProvider inst
  · simp only [if_pos hc, hwrite (Ne.symm hc), Run.bind_call]
    split
    · exact ⟨_, _, rfl⟩
    · exact ⟨_, _, rfl⟩
  · simp only [if_neg hc, Run.bind_ret]
    split
    · exact ⟨_, _, rfl⟩
    · exact ⟨_, _, rfl⟩

/-- C14 as stated fails: the describe request succeeds with an available
instance, but late initialisation changes the spec and the write of the
custom resource is rejected; `Observe` returns the error of the write before
its `switch`, and the resource still has no condition and no binding phase. -/
theorem observe_sets_no_condition_when_write_fails :
    Database.Event.describeDBInstances (Database.describeOf (Database.exampleInstance "creating")) ∈
      (Database.Observe Database.fillingRds
        ⟨Database.exampleClient (Except.ok [Database.exampleDBInstance "available"]) none,
          Database.conflictKube⟩ (Database.exampleInstance "creating")).trace ∧
    ∃ after, (Database.Observe Database.fillingRds
        ⟨Database.exampleClient (Except.ok [Database.exampleDBInstance "available"]) none,
          Database.conflictKube⟩ (Database.exampleInstance "creating")).outcome =
        Outcome.returned (after, ExternalObservation.zero,
          some (Err.wrap (Err.base "Conflict") "cannot update RDS instance custom resource")) ∧
      after.conditions = [] ∧ after.bindingPhase = "" ∧
      after.atProvider.dbInstanceStatus = "creating" := by
  refine ⟨by decide,
    { Database.exampleInstance "creating" with
      forProvider := Database.fillingRds.lateInitialize
        (Database.exampleInstance "creating").forProvider (Database.exampleDBInstance "available") },
    by decide, by decide, by decide, by decide⟩

theorem observeInstance_write_failed (rds : Database.Rds) (e : Database.External)
    (cr : Database.RDSInstance) (b : Bool) (inst : Database.DBInstance) (x : Err)
    (hchanged : rds.lateInitialize cr.forProvider inst ≠ cr.forProvider)
    (hfail : e.kube.update { cr with forProvider := rds.lateInitialize cr.forProvider inst }
      = some x) :
    Database.observeInstance rds e cr b inst =
      ⟨[Database.Event.kubeUpdate { cr with forProvider := rds.lateInitialize cr.forProvider inst }],
        Outcome.returned ({ cr with forProvider := rds.lateInitialize cr.forProvider inst },
          ExternalObservation.zero,
          some (Err.wrap x "cannot update RDS instance custom resource"))⟩ := by
  unfold Database.observeInstance
  simp only []
  rw [if_pos (Ne.symm hchanged), hfail, Run.bind_call]
  rfl

/-- C14 (amended): when `Observe` sends the describe request and the request
returns at least one instance, then (1) if the write of the late-initialised
spec succeeds or is not needed, `Observe` returns a resource whose observation
is that of the first instance and whose conditions are the former ones with
exactly one condition set: Available exactly when the observed status is
"available", Creating exactly when it is "creating", Deleting exactly when it
is "deleting", Unavailable for every other status; that condition is then the
only condition of type Ready, and the resource is marked bindable (phase
Unbound unless it was Bound or Released) exactly when the status is
"available"; (2) if late initialisation changed the spec and the write fails
with an error, `Observe` returns the zero observation and that error wrapped
with "cannot update RDS instance custom resource", and the resource it leaves
differs from the one it was given in the late-initialised spec only: no
condition is set, the observation and the binding phase are as before. -/
theorem observe_sets_condition (rds : Database.Rds) (e : Database.External)
    (cr : Database.RDSInstance) (inst : Database.DBInstance) (others : List Database.DBInstance)
    (hsent : Database.Event.describeDBInstances (Database.describeOf cr) ∈
      (Database.Observe rds e cr).trace)
    (hdesc : e.client.describeDBInstances (Database.describeOf cr) = Except.ok (inst :: others)) :
    ((rds.lateInitialize cr.forProvider inst ≠ cr.forProvider →
        e.kube.update { cr with forProvider := rds.lateInitialize cr.forProvider inst } = none) →
      ∃ after obs err, (Database.Observe rds e cr).outcome = Outcome.returned (after, obs, err) ∧
        after.atProvider = rds.generateObservation inst ∧
        after.conditions =
          setConditions cr.conditions (Database.conditionFor after.atProvider.dbInstanceStatus) ∧
        Database.conditionFor after.atProvider.dbInstanceStatus ∈ after.conditions ∧
        (∀ c ∈ after.conditions, c.ctype = "Ready" →
          c = Database.conditionFor after.atProvider.dbInstanceStatus) ∧
        (Database.conditionFor after.atProvider.dbInstanceStatus = Condition.available ↔
          after.atProvider.dbInstanceStatus = "available") ∧
        (Database.conditionFor after.atProvider.dbInstanceStatus = Condition.creating ↔
          after.atProvider.dbInstanceStatus = "creating") ∧
        (Database.conditionFor after.atProvider.dbInstanceStatus = Condition.deleting ↔
          after.atProvider.dbInstanceStatus = "deleting") ∧
        (Database.conditionFor after.atProvider.dbInstanceStatus = Condition.unavailable ↔
          (after.atProvider.dbInstanceStatus ≠ "available" ∧
            after.atProvider.dbInstanceStatus ≠ "creating" ∧
            after.atProvider.dbInstanceStatus ≠ "deleting")) ∧
        (after.atProvider.dbInstanceStatus = "available" →
          after.bindingPhase = (Database.setBindable cr).bindingPhase ∧
          after.bindingPhase =
            if cr.bindingPhase = "Bound" ∨ cr.bindingPhase = "Released" then cr.bindingPhase
            else "Unbound") ∧
        (after.atProvider.dbInstanceStatus ≠ "available" → after.bindingPhase = cr.bindingPhase)) ∧
    (∀ x, rds.lateInitialize cr.forProvider inst ≠ cr.forProvider →
      e.kube.update { cr with forProvider := rds.lateInitialize cr.forProvider inst } = some x →
      (Database.Observe rds e cr).outcome =
        Outcome.returned ({ cr with forProvider := rds.lateInitialize cr.forProvider inst },
          ExternalObservation.zero,
          some (Err.wrap x "cannot update RDS instance custom resource"))) := by
  unfold Database.describeOf at hsent hdesc
  unfold Database.Observe at hsent ⊢
  simp only [] at hsent ⊢
  rcases observePassword_cases e cr with ⟨x, hp, ht⟩ | ⟨hp, ht⟩
  · exfalso
    rw [Run.bind_of_returned _ _ _ hp] at hsent
    simp only [Run.ret, List.append_nil] at hsent
    exact absurd (ht _ hsent) (by simp [Database.Event.isKubeGet])
  · rw [Run.bind_of_returned _ _ _ hp]
    simp only [hdesc, Run.bind_call]
    constructor
    · intro hwrite
      obtain ⟨obs, err, ho⟩ :=
        observeInstance_written rds e cr (Database.pwdChanged e cr) inst hwrite
      obtain ⟨hcond, hat, hb1, hb2⟩ := observeStatus_spec
        { cr with
          forProvider := rds.lateInitialize cr.forProvider inst
          atProvider := rds.generateObservation inst }
      obtain ⟨k1, k2, k3, k4⟩ := conditionFor_spec (rds.generateObservation inst).dbInstanceStatus
      refine ⟨_, obs, err, ho, hat, ?_, ?_, ?_, ?_, ?_, ?_, ?_, ?_, ?_⟩
      · rw [hat]; exact hcond
      · rw [hat, hcond]; exact mem_setConditions_self _ _
      · intro c hc hty
        rw [hat]
        rw [hcond] at hc
        exact eq_of_mem_setConditions_of_type _ _ _ hc (hty.trans (conditionFor_type _).symm)
      · rw [hat]; exact k1
      · rw [hat]; exact k2
      · rw [hat]; exact k3
      · rw [hat]; exact k4
      · rw [hat]
        intro h
        have hset : (Database.observeStatus
            { cr with
              forProvider := rds.lateInitialize cr.forProvider inst
              atProvider := rds.generateObservation inst }).bindingPhase =
            (Database.setBindable cr).bindingPhase := by
          refine (hb1 h).trans ?_
          unfold Database.setBindable
          simp only []
          split_ifs <;> rfl
        refine ⟨hset, hset.trans ?_⟩
        unfold Database.setBindable
        simp only [Database.bindingPhaseBound, Database.bindingPhaseReleased,
          Database.bindingPhaseUnbound]
        split_ifs <;> rfl
      · rw [hat]; exact hb2
    · intro x hchanged hfail
      rw [observeInstance_write_failed rds e cr (Database.pwdChanged e cr) inst x hchanged hfail]

/-- Witness of C14 (amended): an instance observed as "available" gets the
condition Available and the binding phase Unbound; and when the write of the
late-initialised spec is rejected with a conflict, `Observe` returns the
wrapped conflict and the resource keeps its empty conditions. -/
theorem observe_sets_condition_witness :
    (∃ after obs err,
      (Database.Observe Database.exampleRds
        ⟨Database.exampleClient (Except.ok [Database.exampleDBInstance "available"]) none,
          Database.exampleKube "s3cret" "s3cret"⟩
        (Database.exampleInstance "creating")).outcome = Outcome.returned (after, obs, err) ∧
      after.conditions = [Condition.available] ∧ after.bindingPhase = "Unbound") ∧
    (Database.Observe Database.fillingRds
      ⟨Database.exampleClient (Except.ok [Database.exampleDBInstance "available"]) none,
        Database.conflictKube⟩ (Database.exampleInstance "creating")).outcome =
      Outcome.returned
        ({ Database.exampleInstance "creating" with
            forProvider := Database.fillingRds.lateInitialize
              (Database.exampleInstance "creating").forProvider
              (Database.exampleDBInstance "available") },
          ExternalObservation.zero,
          some (Err.wrap (Err.base "Conflict") "cannot update RDS instance custom resource")) := by
  constructor
  · obtain ⟨after, obs, err, h1, h2, h3, _, _, _, _, _, _, h11, _⟩ :=
      (observe_sets_condition Database.exampleRds
        ⟨Database.exampleClient (Except.ok [Database.exampleDBInstance "available"]) none,
          Database.exampleKube "s3cret" "s3cret"⟩
        (Database.exampleInstance "creating") (Database.exampleDBInstance "available") []
        (by decide) rfl).1 (fun h => absurd rfl h)
    have hs : after.atProvider.dbInstanceStatus = "available" := by rw [h2]; decide
    exact ⟨after, obs, err, h1, by rw [h3, hs]; decide, by rw [(h11 hs).1]; decide⟩
  · exact (observe_sets_condition Database.fillingRds
      ⟨Database.exampleClient (Except.ok [Database.exampleDBInstance "available"]) none,
        Database.conflictKube⟩
      (Database.exampleInstance "creating") (Database.exampleDBInstance "available") []
      (by decide) rfl).2 (Err.base "Conflict") (by decide) rfl

end ProviderAws
